import Mathlib

/-!
Shallow embedding of the simulation engine of `src/core/simulator.ts`
(types from `src/types/simulation.ts` and `src/types/index.ts`).

Conventions of the embedding:
* JS `number` is modelled by `ℚ`.  All arithmetic the engine performs on the
  values reached by the claims stays inside the rationals; the few places
  where JS produces `NaN` / `±Infinity` (the unguarded divisions and the
  empty `Math.max` in `getResult`) are modelled explicitly by `JsNum`.
* `Math.random()` is modelled by an oracle `rng : ℕ → ℚ` together with a
  cursor `randIdx` stored in the engine; each call reads `rng randIdx` and
  advances the cursor, in exactly the order the source draws.
  `ValidRng rng` says every draw lies in `[0, 1)`, which is what
  `Math.random` guarantees.
* The ES `Map` for node metrics is modelled as an association list in
  insertion order (`Map` iteration order).
* Event listeners and metrics listeners are external callbacks with no
  effect on engine state, so `emitEvent` only appends to the event log and
  `emitMetrics` is the identity on the state.
* `window.setInterval` scheduling is modelled by the flag
  `intervalScheduled`; one firing of the interval callback is `loopStep`.
* Numeric interpolation inside human-readable event messages
  (`toFixed(…)` in the source) is rendered with Lean's `toString` on `ℚ`;
  no claim depends on the digits of a message.
-/

attribute [local semireducible] Rat.add Rat.mul Rat.inv Rat.sub Rat.ofScientific

namespace SimStudio

/-- Node type enum of `src/types/index.ts` (`NodeType`). -/
inductive NodeType
  | client
  | apiGateway
  | loadBalancer
  | service
  | database
  | cache
  | queue
  | pubsub
  | objectStorage
  | metrics
  | rateLimiter
  | cdn
deriving DecidableEq, Repr

/-- The string value of each `NodeType` enum member (used in the network
latency matrix keys `` `${sourceType}→${targetType}` ``). -/
def nodeTypeStr : NodeType → String
  | .client => "client"
  | .apiGateway => "apiGateway"
  | .loadBalancer => "loadBalancer"
  | .service => "service"
  | .database => "database"
  | .cache => "cache"
  | .queue => "queue"
  | .pubsub => "pubsub"
  | .objectStorage => "objectStorage"
  | .metrics => "metrics"
  | .rateLimiter => "rateLimiter"
  | .cdn => "cdn"

/-- A node of the design graph (`SystemNode`): the engine only reads
`id`, `data.type` and `data.label`, flattened here. -/
structure SystemNode where
  id : String
  label : String
  type : NodeType
deriving DecidableEq, Repr

/-- A directed edge of the design graph (`SystemEdge`): the engine only
reads `source` and `target`. -/
structure SystemEdge where
  source : String
  target : String
deriving DecidableEq, Repr

/-- `SimulationConfig` of `src/types/simulation.ts`.  The field
`cacheHitRatioQ` embeds the source field named `cacheHitRatio`. -/
structure SimulationConfig where
  requestsPerSecond : ℚ
  concurrentUsers : ℚ
  payloadSize : ℚ
  errorRate : ℚ
  messageQueueDepth : ℚ
  cacheHitRatioQ : ℚ
  dbLatency : ℚ
  serviceCpuCost : ℚ
  network : List (String × ℚ)
  autoScaling : Bool
  failureInjection : Bool
  consistencyMode : String
  chaosMode : Bool
  duration : ℚ
  tickRate : ℚ
deriving DecidableEq, Repr

/-- `SimulationStatus` enum. -/
inductive SimulationStatus
  | idle
  | running
  | paused
  | stopped
  | completed
deriving DecidableEq, Repr

/-- `SimulationEventType` enum. -/
inductive SimulationEventType
  | request_sent
  | request_received
  | request_processed
  | request_failed
  | cache_hit
  | cache_miss
  | db_query
  | queue_enqueue
  | queue_dequeue
  | node_overload
  | node_scaled
  | node_failure
  | node_recovery
  | backlog_warning
  | backlog_cleared
deriving DecidableEq, Repr

/-- `SimulationEvent` (the optional `metadata` field is never set by the
engine and is omitted). -/
structure SimulationEvent where
  id : String
  type : SimulationEventType
  timestamp : ℚ
  nodeId : Option String
  sourcePath : Option (List String)
  targetPath : Option (List String)
  message : String
  severity : String
deriving DecidableEq, Repr

/-- Status of an `ActiveRequest` (source: string union
`'pending' | 'processing' | 'completed' | 'failed'`). -/
inductive RequestStatus
  | pending
  | processing
  | completed
  | failed
deriving DecidableEq, Repr

/-- `ActiveRequest`. -/
structure ActiveRequest where
  id : String
  sourceNodeId : String
  targetNodeId : String
  path : List String
  startTime : ℚ
  currentLatency : ℚ
  payload : ℚ
  status : RequestStatus
  progress : ℚ
deriving DecidableEq, Repr

/-- `NodeMetrics`. -/
structure NodeMetrics where
  nodeId : String
  requestsPerSecond : ℚ
  averageLatency : ℚ
  successRate : ℚ
  errorRate : ℚ
  queueDepth : ℚ
  cpuUtilization : ℚ
  instances : ℚ
  throughput : ℚ
  cacheHitRate : Option ℚ
  queryRate : Option ℚ
deriving DecidableEq, Repr

/-- `EdgeMetrics` (the engine never writes an entry; kept for a faithful
state shape). -/
structure EdgeMetrics where
  edgeId : String
  throughput : ℚ
  bandwidth : ℚ
  latency : ℚ
  packetLoss : ℚ
deriving DecidableEq, Repr

/-- `SystemMetrics`. -/
structure SystemMetrics where
  timestamp : ℚ
  totalRequests : ℚ
  successfulRequests : ℚ
  failedRequests : ℚ
  averageLatency : ℚ
  requestsPerSecond : ℚ
  errorRate : ℚ
  totalQueueDepth : ℚ
  activeRequests : ℚ
  scalingActions : ℚ
deriving DecidableEq, Repr

/-- `MetricsSnapshot`: copies of the metric structures, taken once per
simulated second. -/
structure MetricsSnapshot where
  timestamp : ℚ
  system : SystemMetrics
  nodes : List (String × NodeMetrics)
  edges : List (String × EdgeMetrics)
deriving DecidableEq, Repr

/-- Bottleneck severity (`'low' | 'medium' | 'high' | 'critical'`). -/
inductive Severity
  | low
  | medium
  | high
  | critical
deriving DecidableEq, Repr

/-- The `severityOrder` ranks used by the sort comparator in
`analyzeBottlenecks` (`critical: 4, high: 3, medium: 2, low: 1`). -/
def severityOrder : Severity → ℕ
  | .critical => 4
  | .high => 3
  | .medium => 2
  | .low => 1

/-- The nested `metrics` object of a `BottleneckAnalysis`. -/
structure BottleneckMetrics where
  avgLatency : ℚ
  maxQueueDepth : ℚ
  errorRate : ℚ
  cpuUtilization : ℚ
deriving DecidableEq, Repr

/-- `BottleneckAnalysis`. -/
structure BottleneckAnalysis where
  nodeId : String
  nodeName : String
  severity : Severity
  issues : List String
  metrics : BottleneckMetrics
  recommendations : List String
deriving DecidableEq, Repr

/-- A JS `number` value that may be `NaN` or `±Infinity`; used exactly
where the source can produce such values (`getResult`'s unguarded
division and `Math.max` over an empty history). -/
inductive JsNum
  | num (q : ℚ)
  | nan
  | negInf
  | posInf
deriving DecidableEq, Repr

/-- JS division `a / b` on real operands. -/
def jsDiv (a b : ℚ) : JsNum :=
  if b = 0 then
    if a = 0 then JsNum.nan else if 0 < a then JsNum.posInf else JsNum.negInf
  else JsNum.num (a / b)

/-- `Math.max(...xs)` on real operands: `-Infinity` when the list is
empty. -/
def jsMax : List ℚ → JsNum
  | [] => JsNum.negInf
  | x :: xs => JsNum.num (xs.foldl max x)

/-- `Math.min(a / b, 1)` as used for `request.progress`.  When `b = 0`,
JS yields `Infinity` (so the min is `1`) for `0 < a`, and `NaN` for
`a = 0`; the engine only ever tests `progress >= 1`, which is false on
`NaN`, and we model that case by `0`.  The engine always calls this with
`0 ≤ a` (`a` is an accumulated latency). -/
def jsMinDivOne (a b : ℚ) : ℚ :=
  if b = 0 then (if a = 0 then 0 else 1) else min (a / b) 1

/-- `Math.floor(r * n)` clamped to `ℕ`, the random-index computation for
`arr[Math.floor(Math.random() * arr.length)]`. -/
def randIndex (r : ℚ) (n : ℕ) : ℕ :=
  (⌊r * (n : ℚ)⌋).toNat

/-- JS `a % b === 0` for nonnegative `a` and positive `b` (the snapshot
cadence test `currentTime % 1000 === 0`). -/
def jsModZero (a b : ℚ) : Bool :=
  decide (a - b * (⌊a / b⌋ : ℚ) = 0)

/-- The summary object inside `SimulationResult`. -/
structure SimulationSummary where
  totalRequests : ℚ
  successRate : JsNum
  averageLatency : ℚ
  peakRPS : JsNum
  bottlenecks : List BottleneckAnalysis
  recommendations : List String
deriving DecidableEq, Repr

/-- `SimulationResult`. -/
structure SimulationResult where
  config : SimulationConfig
  duration : ℚ
  metricsHistory : List MetricsSnapshot
  events : List SimulationEvent
  summary : SimulationSummary
deriving DecidableEq, Repr

/-- `SimulationState`. -/
structure SimulationState where
  status : SimulationStatus
  config : SimulationConfig
  currentTime : ℚ
  activeRequests : List ActiveRequest
  nodeMetrics : List (String × NodeMetrics)
  edgeMetrics : List (String × EdgeMetrics)
  systemMetrics : SystemMetrics
  events : List SimulationEvent
  metricsHistory : List MetricsSnapshot
  speed : ℚ
deriving DecidableEq, Repr

/-- The `SimulationEngine` object: graph snapshot, state, id counters,
the `Math.random` cursor and the interval flag. -/
structure SimulationEngine where
  nodes : List SystemNode
  edges : List SystemEdge
  state : SimulationState
  requestIdCounter : ℕ
  eventIdCounter : ℕ
  randIdx : ℕ
  intervalScheduled : Bool
deriving DecidableEq, Repr

/-- `Math.random()` oracle validity: every draw lies in `[0, 1)`. -/
def ValidRng (rng : ℕ → ℚ) : Prop :=
  ∀ n, 0 ≤ rng n ∧ rng n < 1

/-- One draw of `Math.random()`. -/
def drawRand (rng : ℕ → ℚ) (e : SimulationEngine) : ℚ × SimulationEngine :=
  (rng e.randIdx, { e with randIdx := e.randIdx + 1 })

/-- `createEmptySystemMetrics`. -/
def createEmptySystemMetrics : SystemMetrics where
  timestamp := 0
  totalRequests := 0
  successfulRequests := 0
  failedRequests := 0
  averageLatency := 0
  requestsPerSecond := 0
  errorRate := 0
  totalQueueDepth := 0
  activeRequests := 0
  scalingActions := 0

/-- The per-node metrics record built in `initializeState`. -/
def initialNodeMetrics (config : SimulationConfig) (n : SystemNode) : NodeMetrics where
  nodeId := n.id
  requestsPerSecond := 0
  averageLatency := 0
  successRate := 1
  errorRate := 0
  queueDepth := 0
  cpuUtilization := 0
  instances := 1
  throughput := 0
  cacheHitRate := if n.type = NodeType.cache then some config.cacheHitRatioQ else none
  queryRate := if n.type = NodeType.database then some 0 else none

/-- `Map.set` on the association-list model: overwrite in place when the
key exists (keeping its insertion position), else append. -/
def mapSetNM (m : List (String × NodeMetrics)) (k : String) (v : NodeMetrics) :
    List (String × NodeMetrics) :=
  if m.any (fun p => p.1 == k) then m.map (fun p => if p.1 = k then (k, v) else p)
  else m ++ [(k, v)]

/-- `initializeState`. -/
def initializeState (nodes : List SystemNode) (config : SimulationConfig) : SimulationState where
  status := SimulationStatus.idle
  config := config
  currentTime := 0
  activeRequests := []
  nodeMetrics := nodes.foldl (fun acc n => mapSetNM acc n.id (initialNodeMetrics config n)) []
  edgeMetrics := []
  systemMetrics := createEmptySystemMetrics
  events := []
  metricsHistory := []
  speed := 1

/-- The `SimulationEngine` constructor. -/
def mkEngine (nodes : List SystemNode) (edges : List SystemEdge)
    (config : SimulationConfig) : SimulationEngine where
  nodes := nodes
  edges := edges
  state := initializeState nodes config
  requestIdCounter := 0
  eventIdCounter := 0
  randIdx := 0
  intervalScheduled := false

/-- `getNodeById`. -/
def getNodeById (e : SimulationEngine) (nodeId : String) : Option SystemNode :=
  e.nodes.find? (fun n => n.id == nodeId)

/-- Lookup in the node-metrics map (`this.state.nodeMetrics.get`). -/
def lookupNodeMetrics (e : SimulationEngine) (nodeId : String) : Option NodeMetrics :=
  (e.state.nodeMetrics.find? (fun p => p.1 == nodeId)).map Prod.snd

/-- Writing back a mutated node-metrics record (in the source the record
is mutated in place inside the `Map`). -/
def setNodeMetrics (e : SimulationEngine) (nodeId : String) (m : NodeMetrics) : SimulationEngine :=
  { e with state := { e.state with
      nodeMetrics := e.state.nodeMetrics.map (fun p => if p.1 = nodeId then (p.1, m) else p) } }

/-- `emitEvent`: appends to the append-only event log (listener callbacks
are external and do not touch engine state). -/
def emitEvent (ev : SimulationEvent) (e : SimulationEngine) : SimulationEngine :=
  { e with state := { e.state with events := e.state.events ++ [ev] } }

/-- `generateEventId` (returns the fresh id and bumps the counter). -/
def generateEventId (e : SimulationEngine) : String × SimulationEngine :=
  ("evt-" ++ toString e.eventIdCounter, { e with eventIdCounter := e.eventIdCounter + 1 })

/-- `generateRequestId`. -/
def generateRequestId (e : SimulationEngine) : String × SimulationEngine :=
  ("req-" ++ toString e.requestIdCounter, { e with requestIdCounter := e.requestIdCounter + 1 })

/-- `this.getNodeById(id)?.data.label` as rendered into a message (JS
prints `undefined` when the node is missing). -/
def labelOf (e : SimulationEngine) (nodeId : String) : String :=
  match getNodeById e nodeId with
  | some n => n.label
  | none => "undefined"

/-- `getNetworkLatency`.  The source reads
`this.state.config.network[key] || 10`: a missing key — and also a
configured value of `0`, which is falsy — falls back to `10`. -/
def getNetworkLatency (e : SimulationEngine) (sourceId targetId : String) : ℚ :=
  match getNodeById e sourceId, getNodeById e targetId with
  | some sourceNode, some targetNode =>
    let key := nodeTypeStr sourceNode.type ++ "→" ++ nodeTypeStr targetNode.type
    match (e.state.config.network.find? (fun p => p.1 == key)).map Prod.snd with
    | some v => if v = 0 then 10 else v
    | none => 10
  | _, _ => 10

/-- `getProcessingLatency`. -/
def getProcessingLatency (config : SimulationConfig) (node : SystemNode) : ℚ :=
  match node.type with
  | NodeType.database => config.dbLatency
  | NodeType.cache => 2
  | NodeType.queue => 5
  | NodeType.service => config.serviceCpuCost
  | _ => 5

/-- `findNextHop`: first outgoing edge whose target is not yet in the
request's path; `none` when every neighbour is visited. -/
def findNextHop (edges : List SystemEdge) (currentNodeId : String)
    (request : ActiveRequest) : Option String :=
  let outgoingEdges := edges.filter (fun ed => ed.source == currentNodeId)
  let unvisitedEdges := outgoingEdges.filter (fun ed => !(request.path.contains ed.target))
  match unvisitedEdges with
  | [] => none
  | ed :: _ => some ed.target

/-- Fallback element for an out-of-range JS array index (never reached
under `ValidRng` on the non-empty arrays the source indexes). -/
def dummyNode : SystemNode := { id := "", label := "", type := NodeType.client }

/-- Fallback edge for an out-of-range JS array index. -/
def dummyEdge : SystemEdge := { source := "", target := "" }

/-- Append a freshly generated request: `activeRequests.push` plus
`systemMetrics.totalRequests++`. -/
def pushRequest (request : ActiveRequest) (e : SimulationEngine) : SimulationEngine :=
  { e with state := { e.state with
      activeRequests := e.state.activeRequests ++ [request],
      systemMetrics := { e.state.systemMetrics with
        totalRequests := e.state.systemMetrics.totalRequests + 1 } } }

/-- One iteration of the generation loop body in `generateRequests`:
pick a random client, a random outgoing edge (skipping clients with no
outgoing edge), create the request, count it and emit `REQUEST_SENT`. -/
def generateOne (rng : ℕ → ℚ) (clientNodes : List SystemNode)
    (e : SimulationEngine) : SimulationEngine :=
  let t1 := drawRand rng e
  let clientNode := clientNodes.getD (randIndex t1.1 clientNodes.length) dummyNode
  let targetEdges := t1.2.edges.filter (fun ed => ed.source == clientNode.id)
  if targetEdges.isEmpty then t1.2
  else
    let t2 := drawRand rng t1.2
    let targetEdge := targetEdges.getD (randIndex t2.1 targetEdges.length) dummyEdge
    let targetNodeId := targetEdge.target
    let t3 := generateRequestId t2.2
    let request : ActiveRequest :=
      { id := t3.1
        sourceNodeId := clientNode.id
        targetNodeId := targetNodeId
        path := [clientNode.id]
        startTime := t3.2.state.currentTime
        currentLatency := 0
        payload := t3.2.state.config.payloadSize
        status := RequestStatus.pending
        progress := 0 }
    let e4 := pushRequest request t3.2
    let t5 := generateEventId e4
    emitEvent
      { id := t5.1
        type := SimulationEventType.request_sent
        timestamp := t5.2.state.currentTime
        nodeId := some clientNode.id
        sourcePath := some [clientNode.id]
        targetPath := some [targetNodeId]
        message := "Request " ++ request.id ++ " sent from " ++ clientNode.label
          ++ " to " ++ labelOf t5.2 targetNodeId
        severity := "info" } t5.2

/-- The counted `for` loop of `generateRequests`. -/
def genLoop (rng : ℕ → ℚ) (clientNodes : List SystemNode) :
    ℕ → SimulationEngine → SimulationEngine
  | 0, e => e
  | Nat.succ k, e => genLoop rng clientNodes k (generateOne rng clientNodes e)

/-- `generateRequests`: stochastic rounding of
`requestsPerSecond * tickRate / 1000` and per-request generation. -/
def generateRequests (rng : ℕ → ℚ) (e : SimulationEngine) : SimulationEngine :=
  let clientNodes := e.nodes.filter (fun n => n.type == NodeType.client)
  if clientNodes.isEmpty then e
  else
    let requestsThisTick :=
      e.state.config.requestsPerSecond * e.state.config.tickRate / 1000
    let t := drawRand rng e
    let requestsToGenerate := (⌊requestsThisTick + t.1⌋).toNat
    genLoop rng clientNodes requestsToGenerate t.2

/-- `handleNodeProcessing`: throughput bump, node-type-specific side
effects (cache roll, db query count, queue depth and backlog warning) and
the load recomputation. -/
def handleNodeProcessing (rng : ℕ → ℚ) (node : SystemNode)
    (request : ActiveRequest) (e : SimulationEngine) : SimulationEngine :=
  match lookupNodeMetrics e node.id with
  | none => e
  | some metrics =>
    let m1 := { metrics with throughput := metrics.throughput + 1 }
    let t2 :=
      match node.type with
      | NodeType.cache =>
        let td := drawRand rng e
        if td.1 < td.2.state.config.cacheHitRatioQ then
          let te := generateEventId td.2
          (m1, emitEvent
            { id := te.1
              type := SimulationEventType.cache_hit
              timestamp := te.2.state.currentTime
              nodeId := some node.id
              sourcePath := none
              targetPath := none
              message := "Cache hit for request " ++ request.id
              severity := "success" } te.2)
        else
          let te := generateEventId td.2
          (m1, emitEvent
            { id := te.1
              type := SimulationEventType.cache_miss
              timestamp := te.2.state.currentTime
              nodeId := some node.id
              sourcePath := none
              targetPath := none
              message := "Cache miss for request " ++ request.id ++ ", forwarding to backend"
              severity := "warning" } te.2)
      | NodeType.database =>
        let m2 := { m1 with queryRate := some ((m1.queryRate.getD 0) + 1) }
        let te := generateEventId e
        (m2, emitEvent
          { id := te.1
            type := SimulationEventType.db_query
            timestamp := te.2.state.currentTime
            nodeId := some node.id
            sourcePath := none
            targetPath := none
            message := "DB query for request " ++ request.id ++ " (latency: "
              ++ toString te.2.state.config.dbLatency ++ "ms)"
            severity := "info" } te.2)
      | NodeType.queue =>
        let m2 := { m1 with queueDepth := m1.queueDepth + 1 }
        let te := generateEventId e
        let e2 := emitEvent
          { id := te.1
            type := SimulationEventType.queue_enqueue
            timestamp := te.2.state.currentTime
            nodeId := some node.id
            sourcePath := none
            targetPath := none
            message := "Message enqueued (depth: " ++ toString m2.queueDepth ++ ")"
            severity := "info" } te.2
        if m2.queueDepth > e2.state.config.messageQueueDepth * 0.8 then
          let tf := generateEventId e2
          (m2, emitEvent
            { id := tf.1
              type := SimulationEventType.backlog_warning
              timestamp := tf.2.state.currentTime
              nodeId := some node.id
              sourcePath := none
              targetPath := none
              message := "Queue backlog warning: " ++ toString m2.queueDepth ++ "/"
                ++ toString tf.2.state.config.messageQueueDepth
              severity := "warning" } tf.2)
        else (m2, e2)
      | _ => (m1, e)
    let m3 := t2.1
    let e3 := t2.2
    let rps := m3.throughput / (e3.state.currentTime / 1000)
    let m4 := { m3 with
      requestsPerSecond := rps
      cpuUtilization := min ((rps / 100) * m3.instances) 1 }
    setNodeMetrics e3 node.id m4

/-- Result of processing a single request inside the `forEach` of
`processRequests`: the updated engine, the (in-place mutated) request,
and whether the request was already terminal at entry (exactly the case
in which the source pushes its id onto `completedRequests`). -/
structure ProcOut where
  engine : SimulationEngine
  request : ActiveRequest
  terminalAtEntry : Bool
deriving DecidableEq, Repr

/-- `systemMetrics.failedRequests++`. -/
def bumpFailed (e : SimulationEngine) : SimulationEngine :=
  { e with state := { e.state with systemMetrics := { e.state.systemMetrics with
      failedRequests := e.state.systemMetrics.failedRequests + 1 } } }

/-- `systemMetrics.successfulRequests++`. -/
def bumpSuccessful (e : SimulationEngine) : SimulationEngine :=
  { e with state := { e.state with systemMetrics := { e.state.systemMetrics with
      successfulRequests := e.state.systemMetrics.successfulRequests + 1 } } }

/-- `updateLatencyMetrics`: running mean over the new
`successfulRequests` count. -/
def updateLatencyMetrics (latency : ℚ) (e : SimulationEngine) : SimulationEngine :=
  let count := e.state.systemMetrics.successfulRequests
  let currentAvg := e.state.systemMetrics.averageLatency
  { e with state := { e.state with systemMetrics := { e.state.systemMetrics with
      averageLatency := (currentAvg * (count - 1) + latency) / count } } }

/-- The `forEach` body of `processRequests` for one request. -/
def processOne (rng : ℕ → ℚ) (deltaTime : ℚ) (e : SimulationEngine)
    (request : ActiveRequest) : ProcOut :=
  if request.status = RequestStatus.completed ∨ request.status = RequestStatus.failed then
    { engine := e, request := request, terminalAtEntry := true }
  else
    match getNodeById e request.targetNodeId with
    | none =>
      { engine := bumpFailed e
        request := { request with status := RequestStatus.failed }
        terminalAtEntry := false }
    | some targetNode =>
      let networkLatency :=
        getNetworkLatency e (request.path.getLastD "") request.targetNodeId
      let processingLatency := getProcessingLatency e.state.config targetNode
      let totalLatency := networkLatency + processingLatency
      let req1 := { request with
        currentLatency := request.currentLatency + deltaTime
        progress := jsMinDivOne (request.currentLatency + deltaTime) totalLatency }
      if req1.progress ≥ (1 : ℚ) then
        let req2 := { req1 with path := req1.path ++ [req1.targetNodeId] }
        let td := drawRand rng e
        if td.1 < td.2.state.config.errorRate then
          let req3 := { req2 with status := RequestStatus.failed }
          let e2 := bumpFailed td.2
          let te := generateEventId e2
          { engine := emitEvent
              { id := te.1
                type := SimulationEventType.request_failed
                timestamp := te.2.state.currentTime
                nodeId := some targetNode.id
                sourcePath := some req3.path
                targetPath := none
                message := "Request " ++ req3.id ++ " failed at " ++ targetNode.label
                severity := "error" } te.2
            request := req3
            terminalAtEntry := false }
        else
          let e2 := handleNodeProcessing rng targetNode req2 td.2
          match findNextHop e2.edges targetNode.id req2 with
          | some nextHop =>
            let req3 := { req2 with
              targetNodeId := nextHop
              currentLatency := 0
              progress := 0
              status := RequestStatus.processing }
            let te := generateEventId e2
            { engine := emitEvent
                { id := te.1
                  type := SimulationEventType.request_processed
                  timestamp := te.2.state.currentTime
                  nodeId := some targetNode.id
                  sourcePath := some req3.path
                  targetPath := some [nextHop]
                  message := "Request " ++ req3.id ++ " processed by " ++ targetNode.label
                    ++ ", forwarding to " ++ labelOf te.2 nextHop
                  severity := "info" } te.2
              request := req3
              terminalAtEntry := false }
          | none =>
            let req3 := { req2 with status := RequestStatus.completed }
            let e3 := bumpSuccessful e2
            let requestLatency := e3.state.currentTime - req3.startTime
            let e4 := updateLatencyMetrics requestLatency e3
            let te := generateEventId e4
            { engine := emitEvent
                { id := te.1
                  type := SimulationEventType.request_processed
                  timestamp := te.2.state.currentTime
                  nodeId := some targetNode.id
                  sourcePath := some req3.path
                  targetPath := none
                  message := "Request " ++ req3.id ++ " completed (latency: "
                    ++ toString requestLatency ++ "ms)"
                  severity := "success" } te.2
              request := req3
              terminalAtEntry := false }
      else
        { engine := e, request := req1, terminalAtEntry := false }

/-- The `forEach` of `processRequests`, accumulating the mutated requests
in order together with the `completedRequests` id list. -/
def processLoop (rng : ℕ → ℚ) (deltaTime : ℚ) :
    List ActiveRequest → SimulationEngine → List ActiveRequest → List String →
    SimulationEngine × List ActiveRequest × List String
  | [], e, processed, completedIds => (e, processed, completedIds)
  | r :: rest, e, processed, completedIds =>
    let t := processOne rng deltaTime e r
    processLoop rng deltaTime rest t.engine (processed ++ [t.request])
      (if t.terminalAtEntry then completedIds ++ [r.id] else completedIds)

/-- `processRequests`: process every active request, then remove those
collected in `completedRequests` (the ones that were already
completed/failed when visited). -/
def processRequests (rng : ℕ → ℚ) (deltaTime : ℚ) (e : SimulationEngine) : SimulationEngine :=
  let t := processLoop rng deltaTime e.state.activeRequests e [] []
  { t.1 with state := { t.1.state with
      activeRequests := t.2.1.filter (fun r => !(t.2.2.contains r.id)) } }

/-- `updateMetrics`: per-tick aggregate recomputation.  The error-rate
division is guarded by `totalRequests > 0`; the success-rate refresh per
node is guarded by `throughput > 0`. -/
def updateMetrics (e : SimulationEngine) : SimulationEngine :=
  let sm := e.state.systemMetrics
  let sm1 := { sm with
    timestamp := e.state.currentTime
    activeRequests := (e.state.activeRequests.length : ℚ)
    requestsPerSecond := sm.totalRequests / (e.state.currentTime / 1000) }
  let sm2 :=
    if sm1.totalRequests > 0 then
      { sm1 with errorRate := sm1.failedRequests / sm1.totalRequests }
    else sm1
  let nodeMetrics1 := e.state.nodeMetrics.map (fun p =>
    if p.2.throughput > 0 then (p.1, { p.2 with successRate := 1 - p.2.errorRate }) else p)
  let totalQueueDepth := (e.state.nodeMetrics.map (fun p => p.2.queueDepth)).sum
  { e with state := { e.state with
      nodeMetrics := nodeMetrics1
      systemMetrics := { sm2 with totalQueueDepth := totalQueueDepth } } }

/-- The `forEach` body of `checkAutoScaling` for one metrics entry
(`p` is the entry as seen at iteration time; the body mutates only this
entry, the scaling counter and the event log). -/
def checkAutoScalingOne (p : String × NodeMetrics) (e : SimulationEngine) : SimulationEngine :=
  match getNodeById e p.1 with
  | none => e
  | some node =>
    if node.type ≠ NodeType.service then e
    else
      let metrics := p.2
      let t1 :=
        if metrics.cpuUtilization > 0.8 ∧ metrics.instances < 10 then
          let mUp := { metrics with instances := metrics.instances + 1 }
          let e1 := { e with state := { e.state with systemMetrics := { e.state.systemMetrics with
            scalingActions := e.state.systemMetrics.scalingActions + 1 } } }
          let te := generateEventId e1
          let e2 := emitEvent
            { id := te.1
              type := SimulationEventType.node_scaled
              timestamp := te.2.state.currentTime
              nodeId := some p.1
              sourcePath := none
              targetPath := none
              message := "Auto-scaled " ++ node.label ++ ": +1 instance (total: "
                ++ toString mUp.instances ++ ", load: "
                ++ toString (metrics.cpuUtilization * 100) ++ "% → "
                ++ toString (metrics.cpuUtilization * 0.8 * 100) ++ "%)"
              severity := "success" } te.2
          ({ mUp with cpuUtilization := mUp.cpuUtilization * 0.8 }, e2)
        else (metrics, e)
      let m1 := t1.1
      let e1 := t1.2
      let t2 :=
        if m1.cpuUtilization < 0.3 ∧ m1.instances > 1 then
          let mDown := { m1 with instances := m1.instances - 1 }
          let e2 := { e1 with state := { e1.state with systemMetrics := { e1.state.systemMetrics with
            scalingActions := e1.state.systemMetrics.scalingActions + 1 } } }
          let te := generateEventId e2
          let e3 := emitEvent
            { id := te.1
              type := SimulationEventType.node_scaled
              timestamp := te.2.state.currentTime
              nodeId := some p.1
              sourcePath := none
              targetPath := none
              message := "Auto-scaled " ++ node.label ++ ": -1 instance (total: "
                ++ toString mDown.instances ++ ")"
              severity := "info" } te.2
          ({ mDown with cpuUtilization := mDown.cpuUtilization * 1.2 }, e3)
        else (m1, e1)
      setNodeMetrics t2.2 p.1 t2.1

/-- The fold of `checkAutoScaling` over the metrics entries. -/
def scaleLoop : List (String × NodeMetrics) → SimulationEngine → SimulationEngine
  | [], e => e
  | p :: rest, e => scaleLoop rest (checkAutoScalingOne p e)

/-- `checkAutoScaling` (runs once per tick when `autoScaling` is on). -/
def checkAutoScaling (e : SimulationEngine) : SimulationEngine :=
  scaleLoop e.state.nodeMetrics e

/-- `applyChaosEffects`: with probability `0.05` emit a `NODE_OVERLOAD`
warning at a uniformly random node.  (The source indexes
`this.nodes[...]` unconditionally; on an empty node list JS would throw —
modelled here by the `none` branch doing nothing, a case no claim
exercises.) -/
def applyChaosEffects (rng : ℕ → ℚ) (e : SimulationEngine) : SimulationEngine :=
  let t1 := drawRand rng e
  if t1.1 < 0.05 then
    let t2 := drawRand rng t1.2
    match t2.2.nodes.get? (randIndex t2.1 t2.2.nodes.length) with
    | some n =>
      let te := generateEventId t2.2
      emitEvent
        { id := te.1
          type := SimulationEventType.node_overload
          timestamp := te.2.state.currentTime
          nodeId := some n.id
          sourcePath := none
          targetPath := none
          message := "Chaos: Latency spike detected!"
          severity := "warning" } te.2
    | none => t2.2
  else t1.2

/-- `takeMetricsSnapshot`: append a copy of the current metrics to the
history. -/
def takeMetricsSnapshot (e : SimulationEngine) : SimulationEngine :=
  { e with state := { e.state with
      metricsHistory := e.state.metricsHistory ++
        [{ timestamp := e.state.currentTime
           system := e.state.systemMetrics
           nodes := e.state.nodeMetrics
           edges := e.state.edgeMetrics }] } }

/-- One `tick`: advance virtual time, generate, process, aggregate,
auto-scale, chaos, snapshot on each full second.  The final
`emitMetrics()` only notifies external listeners and does not change
engine state. -/
def tick (rng : ℕ → ℚ) (e : SimulationEngine) : SimulationEngine :=
  let deltaTime := e.state.config.tickRate
  let e1 := { e with state := { e.state with currentTime := e.state.currentTime + deltaTime } }
  let e2 := generateRequests rng e1
  let e3 := processRequests rng deltaTime e2
  let e4 := updateMetrics e3
  let e5 := if e4.state.config.autoScaling then checkAutoScaling e4 else e4
  let e6 := if e5.state.config.chaosMode then applyChaosEffects rng e5 else e5
  if jsModZero e6.state.currentTime 1000 then takeMetricsSnapshot e6 else e6

/-- Helper: set the lifecycle status. -/
def setStatus (s : SimulationStatus) (e : SimulationEngine) : SimulationEngine :=
  { e with state := { e.state with status := s } }

/-- A lifecycle log entry (all four control methods emit with type
`REQUEST_SENT`, severity `info` and no node/paths). -/
def lifecycleEvent (id : String) (timestamp : ℚ) (message : String) : SimulationEvent where
  id := id
  type := SimulationEventType.request_sent
  timestamp := timestamp
  nodeId := none
  sourcePath := none
  targetPath := none
  message := message
  severity := "info"

/-- `start()`: no-op when already Running; otherwise enter Running, log,
and (re)start the tick schedule. -/
def startEngine (e : SimulationEngine) : SimulationEngine :=
  if e.state.status = SimulationStatus.running then e
  else
    let e1 := setStatus SimulationStatus.running e
    let te := generateEventId e1
    let e2 := emitEvent (lifecycleEvent te.1 te.2.state.currentTime "Simulation started") te.2
    { e2 with intervalScheduled := true }

/-- `pause()`: no-op unless Running; otherwise enter Paused, cancel the
schedule, log. -/
def pauseEngine (e : SimulationEngine) : SimulationEngine :=
  if e.state.status ≠ SimulationStatus.running then e
  else
    let e1 := { setStatus SimulationStatus.paused e with intervalScheduled := false }
    let te := generateEventId e1
    emitEvent (lifecycleEvent te.1 te.2.state.currentTime "Simulation paused") te.2

/-- `resume()`: no-op unless Paused; otherwise re-enter Running, log,
reschedule. -/
def resumeEngine (e : SimulationEngine) : SimulationEngine :=
  if e.state.status ≠ SimulationStatus.paused then e
  else
    let e1 := setStatus SimulationStatus.running e
    let te := generateEventId e1
    let e2 := emitEvent (lifecycleEvent te.1 te.2.state.currentTime "Simulation resumed") te.2
    { e2 with intervalScheduled := true }

/-- `stop()`: unguarded — always sets Stopped, cancels the schedule and
logs. -/
def stopEngine (e : SimulationEngine) : SimulationEngine :=
  let e1 := { setStatus SimulationStatus.stopped e with intervalScheduled := false }
  let te := generateEventId e1
  emitEvent (lifecycleEvent te.1 te.2.state.currentTime "Simulation stopped") te.2

/-- `setSpeed(n)`: pause if running, set the speed, resume if it was
running. -/
def setSpeed (speed : ℚ) (e : SimulationEngine) : SimulationEngine :=
  let wasRunning := e.state.status = SimulationStatus.running
  let e1 := if wasRunning then pauseEngine e else e
  let e2 := { e1 with state := { e1.state with speed := speed } }
  if wasRunning then resumeEngine e2 else e2

/-- `complete()`: idempotent — once Completed it is a no-op; otherwise
`stop()` then fix status to Completed and log. -/
def completeEngine (e : SimulationEngine) : SimulationEngine :=
  if e.state.status = SimulationStatus.completed then e
  else
    let e1 := setStatus SimulationStatus.completed (stopEngine e)
    let te := generateEventId e1
    emitEvent (lifecycleEvent te.1 te.2.state.currentTime
      ("Simulation completed (" ++ toString te.2.state.systemMetrics.totalRequests
        ++ " requests processed)")) te.2

/-- One firing of the `setInterval` callback installed by
`runSimulationLoop`: guard on Running, `tick`, then the completion
check against `duration * 1000`. -/
def loopStep (rng : ℕ → ℚ) (e : SimulationEngine) : SimulationEngine :=
  if e.state.status ≠ SimulationStatus.running then e
  else
    let e1 := tick rng e
    if e1.state.currentTime ≥ e1.state.config.duration * 1000 then completeEngine e1
    else e1

/-- A plain run: construct, `start()`, then `n` firings of the tick
callback. -/
def runSteps (rng : ℕ → ℚ) (nodes : List SystemNode) (edges : List SystemEdge)
    (config : SimulationConfig) (n : ℕ) : SimulationEngine :=
  (loopStep rng)^[n] (startEngine (mkEngine nodes edges config))

/-- Any single externally observable engine transition: a tick-callback
firing or one of the control-surface calls. -/
inductive EStep (rng : ℕ → ℚ) : SimulationEngine → SimulationEngine → Prop
  | loop (e : SimulationEngine) : EStep rng e (loopStep rng e)
  | start (e : SimulationEngine) : EStep rng e (startEngine e)
  | pause (e : SimulationEngine) : EStep rng e (pauseEngine e)
  | resume (e : SimulationEngine) : EStep rng e (resumeEngine e)
  | stop (e : SimulationEngine) : EStep rng e (stopEngine e)
  | speed (s : ℚ) (e : SimulationEngine) : EStep rng e (setSpeed s e)

/-- Engine states reachable during any run over the given graph and
configuration (any interleaving of ticks and control calls). -/
def Reachable (rng : ℕ → ℚ) (nodes : List SystemNode) (edges : List SystemEdge)
    (config : SimulationConfig) (e : SimulationEngine) : Prop :=
  Relation.ReflTransGen (EStep rng) (mkEngine nodes edges config) e

/-- The per-node classification of `analyzeBottlenecks`: the threshold
checks run in source order (note the queue-depth branch assigns severity
`high` unconditionally, and the error-rate branch assigns `critical`),
and an entry is produced only when at least one issue fired. -/
def bottleneckFor (e : SimulationEngine) (p : String × NodeMetrics) : Option BottleneckAnalysis :=
  match getNodeById e p.1 with
  | none => none
  | some node =>
    let metrics := p.2
    let t1 :=
      if metrics.cpuUtilization > 0.9 then
        (["CPU utilization critically high"], Severity.critical,
          ["Add more instances or horizontal scaling"])
      else if metrics.cpuUtilization > 0.7 then
        -- source: `severity = severity === 'low' ? 'medium' : severity`, and
        -- severity still holds its initial value 'low' on this branch
        (["CPU utilization high"], Severity.medium, ["Consider adding auto-scaling"])
      else ([], Severity.low, [])
    let t2 :=
      if metrics.queueDepth > e.state.config.messageQueueDepth * 0.8 then
        (t1.1 ++ ["Queue depth near capacity"], Severity.high,
          t1.2.2 ++ ["Increase queue capacity or add more workers"])
      else t1
    let t3 :=
      if metrics.errorRate > 0.1 then
        (t2.1 ++ ["High error rate detected"], Severity.critical,
          t2.2.2 ++ ["Investigate error sources and add retry logic"])
      else t2
    if t3.1.isEmpty then none
    else some
      { nodeId := p.1
        nodeName := node.label
        severity := t3.2.1
        issues := t3.1
        metrics :=
          { avgLatency := metrics.averageLatency
            maxQueueDepth := metrics.queueDepth
            errorRate := metrics.errorRate
            cpuUtilization := metrics.cpuUtilization }
        recommendations := t3.2.2 }

/-- The final sort of `analyzeBottlenecks`: JS `Array.prototype.sort` is
stable and the comparator is `severityOrder[b] - severityOrder[a]`, so
the result groups entries by descending severity, preserving the
original order within each severity class. -/
def sortBySeverityDesc (l : List BottleneckAnalysis) : List BottleneckAnalysis :=
  l.filter (fun b => b.severity = Severity.critical)
    ++ l.filter (fun b => b.severity = Severity.high)
    ++ l.filter (fun b => b.severity = Severity.medium)
    ++ l.filter (fun b => b.severity = Severity.low)

/-- `analyzeBottlenecks`. -/
def analyzeBottlenecks (e : SimulationEngine) : List BottleneckAnalysis :=
  sortBySeverityDesc (e.state.nodeMetrics.filterMap (bottleneckFor e))

/-- `generateRecommendations` (the global recommendations; pushed in
source order: positive banner, critical banner, cache suggestion, load
balancer suggestion). -/
def generateRecommendations (nodes : List SystemNode)
    (bottlenecks : List BottleneckAnalysis) : List String :=
  let r1 : List String :=
    if bottlenecks.isEmpty then ["✅ System is performing well under current load"] else []
  let r2 :=
    if bottlenecks.any (fun b => b.severity = Severity.critical) then
      r1 ++ ["🔴 Critical issues detected - immediate action required"]
    else r1
  let r3 :=
    if !(nodes.any (fun n => n.type = NodeType.cache)) then
      r2 ++ ["💡 Consider adding a cache layer to reduce database load"]
    else r2
  if !(nodes.any (fun n => n.type = NodeType.loadBalancer)) then
    r3 ++ ["💡 Add a load balancer to distribute traffic evenly"]
  else r3

/-- `getResult`: result synthesis from the current state (the method body
reads state only). -/
def getResult (e : SimulationEngine) : SimulationResult :=
  let bottlenecks := analyzeBottlenecks e
  let peakRPS := jsMax (e.state.metricsHistory.map (fun s => s.system.requestsPerSecond))
  { config := e.state.config
    duration := e.state.currentTime / 1000
    metricsHistory := e.state.metricsHistory
    events := e.state.events
    summary :=
      { totalRequests := e.state.systemMetrics.totalRequests
        successRate := jsDiv e.state.systemMetrics.successfulRequests
          e.state.systemMetrics.totalRequests
        averageLatency := e.state.systemMetrics.averageLatency
        peakRPS := peakRPS
        bottlenecks := bottlenecks
        recommendations := generateRecommendations e.nodes bottlenecks } }

/-- A `getResult()` call as observed by the host: the produced result
together with the engine afterwards.  The method body contains no write
to `this`, so the engine component is the input engine. -/
def getResultCall (e : SimulationEngine) : SimulationResult × SimulationEngine :=
  (getResult e, e)

/-- A request that is still travelling (not yet `completed`/`failed`). -/
def nonterminal (r : ActiveRequest) : Prop :=
  r.status = RequestStatus.pending ∨ r.status = RequestStatus.processing

instance (r : ActiveRequest) : Decidable (nonterminal r) := by
  unfold nonterminal; infer_instance

/-- Number of still-travelling requests in a list. -/
def pendCount (l : List ActiveRequest) : ℕ :=
  l.countP (fun r => decide (nonterminal r))

/-- One directed edge step of the graph. -/
def edgeRel (edges : List SystemEdge) (a b : String) : Prop :=
  ∃ ed ∈ edges, ed.source = a ∧ ed.target = b

/-- Graph reachability along directed edges. -/
def ReachableFrom (edges : List SystemEdge) (s x : String) : Prop :=
  Relation.ReflTransGen (edgeRel edges) s x

/-- No edge is a self-loop. -/
def NoSelfLoops (edges : List SystemEdge) : Prop :=
  ∀ ed ∈ edges, ed.source ≠ ed.target

/-- The request id produced for counter value `k`. -/
def reqId (k : ℕ) : String := "req-" ++ toString k

/-- Current queue depth of a node (`0` when the node has no metrics
entry). -/
def queueDepthOf (e : SimulationEngine) (nodeId : String) : ℚ :=
  ((lookupNodeMetrics e nodeId).map NodeMetrics.queueDepth).getD 0

/-- A deterministic `Math.random` oracle that always returns `0` (a legal
value), used for concrete runs. -/
def rngZero : ℕ → ℚ := fun _ => 0

/-- A small concrete configuration: `requestsPerSecond = 10`,
`errorRate = 0`, `dbLatency = 40`, `tickRate = 100`, `duration = 1`,
empty network matrix (every pair falls back to 10ms). -/
def cfgUnit : SimulationConfig where
  requestsPerSecond := 10
  concurrentUsers := 50
  payloadSize := 10
  errorRate := 0
  messageQueueDepth := 100
  cacheHitRatioQ := 0.85
  dbLatency := 40
  serviceCpuCost := 8
  network := []
  autoScaling := false
  failureInjection := false
  consistencyMode := "eventual"
  chaosMode := false
  duration := 1
  tickRate := 100

/-- A single client node `A`. -/
def nodeA : SystemNode := { id := "A", label := "A", type := NodeType.client }

/-- A client node `C`. -/
def nodeC : SystemNode := { id := "C", label := "Client", type := NodeType.client }

/-- A database node `D`. -/
def nodeD : SystemNode := { id := "D", label := "DB", type := NodeType.database }

/-- One firing of the tick callback on the started engine over the
self-loop graph `A → A` (`A` a CLIENT). -/
def exSelfLoop : SimulationEngine :=
  runSteps rngZero [nodeA] [{ source := "A", target := "A" }] cfgUnit 1

/-- One firing of the tick callback on the started engine over a graph
whose only edge dangles (`A → ghost`, no node `ghost`). -/
def exDangling : SimulationEngine :=
  runSteps rngZero [nodeA] [{ source := "A", target := "ghost" }] cfgUnit 1

/-- One firing of the tick callback on the started engine over the
`CLIENT → DATABASE` graph of the latency scenario. -/
def exClientDb : SimulationEngine :=
  runSteps rngZero [nodeC, nodeD] [{ source := "C", target := "D" }] cfgUnit 1

/-- A complete run (1 tick of 100ms, duration `0.1`s) with
`requestsPerSecond = 0` over the `CLIENT → DATABASE` graph. -/
def exZeroRps : SimulationEngine :=
  runSteps rngZero [nodeC, nodeD] [{ source := "C", target := "D" }]
    { cfgUnit with requestsPerSecond := 0, duration := 0.1 } 1

/-- A freshly constructed (Idle) engine. -/
def exIdle : SimulationEngine := mkEngine [nodeC] [] cfgUnit

/-- A Running engine. -/
def exRunning : SimulationEngine := startEngine exIdle

/-- A Stopped engine. -/
def exStopped : SimulationEngine := stopEngine exRunning

/-- A queue node `Q`. -/
def nodeQ : SystemNode := { id := "Q", label := "Queue", type := NodeType.queue }

/-- A queue metrics record whose depth (90) already exceeds 80% of the
`messageQueueDepth` of `cfgUnit` (100). -/
def mQFull : NodeMetrics := { initialNodeMetrics cfgUnit nodeQ with queueDepth := 90 }

/-- An engine over the single queue node whose queue is already at depth
90 out of 100. -/
def exQueueFull : SimulationEngine :=
  { mkEngine [nodeQ] [] cfgUnit with state :=
      { (mkEngine [nodeQ] [] cfgUnit).state with nodeMetrics := [("Q", mQFull)] } }

/-- A pending request whose target node id (`ghost`) is not in the graph. -/
def reqGhost : ActiveRequest where
  id := "req-0"
  sourceNodeId := "C"
  targetNodeId := "ghost"
  path := ["C"]
  startTime := 0
  currentLatency := 0
  payload := 10
  status := RequestStatus.pending
  progress := 0

/-- A request sitting at the queue node. -/
def reqQ : ActiveRequest where
  id := "req-0"
  sourceNodeId := "Q"
  targetNodeId := "Q"
  path := ["Q"]
  startTime := 0
  currentLatency := 0
  payload := 10
  status := RequestStatus.processing
  progress := 0

/-- The decimal digit list rendered by `Nat.toDigits 10` (little-endian;
`0` is rendered as the single digit `0`). -/
def paddedDigits (n : ℕ) : List ℕ :=
  if n = 0 then [0] else Nat.digits 10 n

/-- An engine operation that neither touches the request counters nor the
active-request list nor the request-id counter. -/
def ReqNeutral (f : SimulationEngine → SimulationEngine) : Prop :=
  ∀ e : SimulationEngine,
    (f e).state.systemMetrics.successfulRequests = e.state.systemMetrics.successfulRequests ∧
    (f e).state.systemMetrics.failedRequests = e.state.systemMetrics.failedRequests ∧
    (f e).state.systemMetrics.totalRequests = e.state.systemMetrics.totalRequests ∧
    (f e).state.activeRequests = e.state.activeRequests ∧
    (f e).requestIdCounter = e.requestIdCounter

/-- An engine operation that keeps the captured graph and the (immutable
during a run) configuration. -/
def GraphNeutral (f : SimulationEngine → SimulationEngine) : Prop :=
  ∀ e : SimulationEngine,
    (f e).nodes = e.nodes ∧ (f e).edges = e.edges ∧ (f e).state.config = e.state.config

/-- The request-accounting invariant: the success and failure counters
are nonnegative and, together with the number of still-travelling active
requests, account exactly for every generated request. -/
def CountsOk (e : SimulationEngine) : Prop :=
  0 ≤ e.state.systemMetrics.successfulRequests ∧
  0 ≤ e.state.systemMetrics.failedRequests ∧
  e.state.systemMetrics.successfulRequests + e.state.systemMetrics.failedRequests
    + (pendCount e.state.activeRequests : ℚ) = e.state.systemMetrics.totalRequests

/-- An auto-scaling-legal instance count: an integer between 1 and 10. -/
def InstOk (q : ℚ) : Prop :=
  ∃ n : ℕ, 1 ≤ n ∧ n ≤ 10 ∧ q = (n : ℚ)

/-- How one node-metrics entry may evolve across an engine operation:
the key is stable, the queue depth never decreases, and a legal instance
count stays legal. -/
def entryRel (p q : String × NodeMetrics) : Prop :=
  p.1 = q.1 ∧ p.2.queueDepth ≤ q.2.queueDepth ∧
    (InstOk p.2.instances → InstOk q.2.instances)

/-- Entry-wise evolution of the whole node-metrics map. -/
def MetricsEvolve (e e' : SimulationEngine) : Prop :=
  List.Forall₂ entryRel e.state.nodeMetrics e'.state.nodeMetrics

/-- The node-metrics map has pairwise-distinct keys (the `Map` shape). -/
def KeysOk (e : SimulationEngine) : Prop :=
  (e.state.nodeMetrics.map Prod.fst).Nodup

/-- Sum of all queue depths. -/
def sumQd (e : SimulationEngine) : ℚ :=
  ((e.state.nodeMetrics.map (fun p => p.2.queueDepth)).sum)

/-- The reported `totalQueueDepth` never exceeds the actual sum of queue
depths (with equality right after `updateMetrics`). -/
def TqdOk (e : SimulationEngine) : Prop :=
  e.state.systemMetrics.totalQueueDepth ≤ sumQd e

/-- Every node-metrics entry carries a legal instance count. -/
def InstancesOk (e : SimulationEngine) : Prop :=
  ∀ p ∈ e.state.nodeMetrics, InstOk p.2.instances

/-- An engine operation that changes neither the node-metrics map nor the
reported total queue depth. -/
def NMNeutral (f : SimulationEngine → SimulationEngine) : Prop :=
  ∀ e : SimulationEngine,
    (f e).state.nodeMetrics = e.state.nodeMetrics ∧
    (f e).state.systemMetrics.totalQueueDepth = e.state.systemMetrics.totalQueueDepth

/-- One engine operation's effect on the metrics map and the reported
total queue depth: entries evolve by `entryRel`, and `totalQueueDepth`
stays truthful and non-decreasing. -/
def EvolveStep (e e' : SimulationEngine) : Prop :=
  MetricsEvolve e e' ∧ (TqdOk e → TqdOk e') ∧
    (TqdOk e → e.state.systemMetrics.totalQueueDepth
      ≤ e'.state.systemMetrics.totalQueueDepth)

/-- The request-identity invariant: every active request carries an id
minted from an earlier value of the id counter, and active ids are
pairwise distinct. -/
def IdsOk (e : SimulationEngine) : Prop :=
  (∀ r ∈ e.state.activeRequests, ∃ k, k < e.requestIdCounter ∧ r.id = reqId k) ∧
  (e.state.activeRequests.map ActiveRequest.id).Nodup

/-- The quiescence invariant of a zero-request-rate run: the captured
graph and configuration are intact, no request was ever created or
counted, and the node-metrics map still holds its initial records. -/
def ZeroLoad (nodes : List SystemNode) (edges : List SystemEdge)
    (config : SimulationConfig) (e : SimulationEngine) : Prop :=
  e.nodes = nodes ∧ e.edges = edges ∧ e.state.config = config ∧
  e.state.activeRequests = [] ∧
  e.state.systemMetrics.totalRequests = 0 ∧
  e.state.nodeMetrics = (initializeState nodes config).nodeMetrics

/-- An engine operation that leaves the running latency average alone. -/
def AvgNeutral (f : SimulationEngine → SimulationEngine) : Prop :=
  ∀ e : SimulationEngine,
    (f e).state.systemMetrics.averageLatency = e.state.systemMetrics.averageLatency

/-- A request as the generator mints it in the one-hop CLIENT→DATABASE
scenario: aimed at the database, no accumulated latency, pending, and
stamped with the current virtual time. -/
def FreshCd (d : SystemNode) (now : ℚ) (r : ActiveRequest) : Prop :=
  r.targetNodeId = d.id ∧ r.currentLatency = 0 ∧
  r.status = RequestStatus.pending ∧ r.startTime = now

/-- The per-tick invariant of the one-hop scenario: every active request
has already completed, nothing ever failed, and the latency average sits
at zero with the success counter exhausting the total. -/
def CdInv (e : SimulationEngine) : Prop :=
  (∀ r ∈ e.state.activeRequests, r.status = RequestStatus.completed) ∧
  e.state.systemMetrics.failedRequests = 0 ∧
  e.state.systemMetrics.averageLatency = 0 ∧
  e.state.systemMetrics.successfulRequests = e.state.systemMetrics.totalRequests

/-- Mid-tick state of the one-hop scenario: every active request is
either already completed or freshly minted this tick, and the success
counter together with the pending count exhausts the total. -/
def CdMid (d : SystemNode) (now : ℚ) (e : SimulationEngine) : Prop :=
  (∀ r ∈ e.state.activeRequests, r.status = RequestStatus.completed ∨ FreshCd d now r) ∧
  e.state.systemMetrics.failedRequests = 0 ∧
  e.state.systemMetrics.averageLatency = 0 ∧
  e.state.systemMetrics.successfulRequests + (pendCount e.state.activeRequests : ℚ)
    = e.state.systemMetrics.totalRequests ∧
  e.state.currentTime = now

/-- The structural shape of the one-hop scenario: exactly the client and
the database, one edge between them, and the captured configuration. -/
def CdScenario (c d : SystemNode) (config : SimulationConfig) (e : SimulationEngine) : Prop :=
  e.nodes = [c, d] ∧ e.edges = [{ source := c.id, target := d.id }] ∧
  e.state.config = config

/-- The configuration-side hypotheses of the one-hop scenario: a CLIENT
feeding a distinct DATABASE, no injected errors, an empty network matrix
(so every hop costs the 10ms fallback), and a tick long enough to cover
the 10ms + dbLatency hop. -/
def CdConfig (c d : SystemNode) (config : SimulationConfig) : Prop :=
  c.type = NodeType.client ∧ d.type = NodeType.database ∧ c.id ≠ d.id ∧
  config.errorRate = 0 ∧ config.network = [] ∧
  0 < 10 + config.dbLatency ∧ 10 + config.dbLatency ≤ config.tickRate

/-- The routing invariant of one request: the path starts at the source,
never repeats a node, follows graph edges, and — while the request is
still travelling — its current target is a fresh node joined by an edge
from the end of the path. -/
def ReqPathInv (edges : List SystemEdge) (r : ActiveRequest) : Prop :=
  r.path ≠ [] ∧
  r.path.head? = some r.sourceNodeId ∧
  r.path.Nodup ∧
  r.path.Chain' (edgeRel edges) ∧
  (nonterminal r → r.targetNodeId ∉ r.path ∧
    ∀ x ∈ r.path.getLast?, edgeRel edges x r.targetNodeId)

/-! ## Theorems -/

/-! ### Injectivity of the decimal rendering used by the id counters -/

theorem toDigitsCore_append (b : ℕ) :
    ∀ (fuel n : ℕ) (ds : List Char),
      Nat.toDigitsCore b fuel n ds = Nat.toDigitsCore b fuel n [] ++ ds := by
  intro fuel
  induction fuel with
  | zero => intro n ds; simp [Nat.toDigitsCore]
  | succ f ih =>
    intro n ds
    simp only [Nat.toDigitsCore]
    by_cases h : n / b = 0
    · simp [h]
    · simp only [if_neg h]
      rw [ih (n / b) (Nat.digitChar (n % b) :: ds), ih (n / b) [Nat.digitChar (n % b)]]
      simp

theorem toDigitsCore_eq_digits (b : ℕ) (hb : 1 < b) :
    ∀ (fuel n : ℕ), 0 < n → n < b ^ fuel →
      Nat.toDigitsCore b fuel n [] = ((Nat.digits b n).map Nat.digitChar).reverse := by
  intro fuel
  induction fuel with
  | zero => intro n hn hlt; simp at hlt; omega
  | succ f ih =>
    intro n hn hlt
    simp only [Nat.toDigitsCore]
    by_cases h : n / b = 0
    · have hb0 : 0 < b := by omega
      have hmod := Nat.mod_lt n hb0
      have hdm := Nat.div_add_mod n b
      rw [if_pos h, Nat.digits_def' hb hn, h]
      simp
    · rw [if_neg h, toDigitsCore_append,
        ih (n / b) (Nat.pos_of_ne_zero h)
          ((Nat.div_lt_iff_lt_mul (by omega)).2 (by rwa [← pow_succ])),
        Nat.digits_def' hb hn]
      simp

theorem toDigits_eq_padded (n : ℕ) :
    Nat.toDigits 10 n = ((paddedDigits n).map Nat.digitChar).reverse := by
  by_cases h : n = 0
  · subst h; decide
  · unfold Nat.toDigits paddedDigits
    rw [if_neg h]
    exact toDigitsCore_eq_digits 10 (by norm_num) (n + 1) n (Nat.pos_of_ne_zero h)
      (lt_of_lt_of_le (Nat.lt_pow_self (by norm_num) n)
        (Nat.pow_le_pow_right (by norm_num) (Nat.le_succ n)))

theorem paddedDigits_lt (n : ℕ) : ∀ x ∈ paddedDigits n, x < 10 := by
  intro x hx
  unfold paddedDigits at hx
  split at hx
  · simp at hx; omega
  · exact Nat.digits_lt_base (by norm_num) hx

theorem paddedDigits_injective : Function.Injective paddedDigits := by
  intro m n h
  unfold paddedDigits at h
  split at h <;> split at h
  · omega
  · exfalso
    have hd := Nat.ofDigits_digits 10 n
    rw [← h] at hd
    simp [Nat.ofDigits] at hd
    omega
  · exfalso
    have hd := Nat.ofDigits_digits 10 m
    rw [h] at hd
    simp [Nat.ofDigits] at hd
    omega
  · exact Nat.digits.injective 10 h

theorem digitChar_injOn : ∀ a < 10, ∀ c < 10, Nat.digitChar a = Nat.digitChar c → a = c := by
  decide

theorem map_digitChar_inj :
    ∀ (l1 l2 : List ℕ), (∀ x ∈ l1, x < 10) → (∀ x ∈ l2, x < 10) →
      l1.map Nat.digitChar = l2.map Nat.digitChar → l1 = l2 := by
  intro l1
  induction l1 with
  | nil => intro l2 _ _ h; cases l2 <;> simp_all
  | cons a t ih =>
    intro l2 h1 h2 h
    cases l2 with
    | nil => simp at h
    | cons c t2 =>
      simp only [List.map_cons, List.cons.injEq] at h
      have hac : a = c :=
        digitChar_injOn a (h1 a (List.mem_cons_self a t)) c (h2 c (List.mem_cons_self c t2)) h.1
      have ht : t = t2 :=
        ih t2 (fun x hx => h1 x (List.mem_cons_of_mem a hx))
          (fun x hx => h2 x (List.mem_cons_of_mem c hx)) h.2
      rw [hac, ht]

theorem natRepr_injective : Function.Injective Nat.repr := by
  intro m n h
  unfold Nat.repr at h
  have hd : Nat.toDigits 10 m = Nat.toDigits 10 n := by
    have hdata := congrArg String.data h
    simpa [List.asString] using hdata
  rw [toDigits_eq_padded, toDigits_eq_padded] at hd
  exact paddedDigits_injective
    (map_digitChar_inj _ _ (paddedDigits_lt m) (paddedDigits_lt n)
      (List.reverse_injective hd))

theorem reqId_injective : Function.Injective reqId := by
  intro k1 k2 h
  unfold reqId at h
  have hdata := congrArg String.data h
  simp only [String.data_append] at hdata
  have h2 : (toString k1 : String).data = (toString k2 : String).data :=
    List.append_cancel_left hdata
  have h3 : (toString k1 : String) = toString k2 := by
    cases hs1 : (toString k1 : String)
    cases hs2 : (toString k2 : String)
    simp_all
  exact natRepr_injective (show Nat.repr k1 = Nat.repr k2 from h3)

/-- C8: After `stop()` (or completion), two consecutive `getResult()`
calls with no intervening tick return identical summaries; the second
call appends no events and mutates no state (the engine after each call
is the engine before it). -/
theorem C8_getResult_idempotent (e : SimulationEngine)
    (h : e.state.status = SimulationStatus.stopped ∨
      e.state.status = SimulationStatus.completed) :
    (getResultCall e).2 = e ∧
    (getResultCall ((getResultCall e).2)).1 = (getResultCall e).1 ∧
    ((getResultCall e).2).state.events = e.state.events :=
  ⟨rfl, rfl, rfl⟩

/-- Witness for C8 at a concrete stopped engine. -/
theorem C8_witness :
    (exStopped.state.status = SimulationStatus.stopped ∨
      exStopped.state.status = SimulationStatus.completed) ∧
    ((getResultCall exStopped).2 = exStopped ∧
     (getResultCall ((getResultCall exStopped).2)).1 = (getResultCall exStopped).1 ∧
     ((getResultCall exStopped).2).state.events = exStopped.state.events) :=
  ⟨Or.inl (by decide), C8_getResult_idempotent exStopped (Or.inl (by decide))⟩

/-- C6 (counterexample): the claim also calls `stop()` from Idle a no-op,
but `stop()` is unguarded: from the freshly constructed (Idle) engine it
changes the status to Stopped and appends an event. -/
theorem C6_counterexample :
    exIdle.state.status = SimulationStatus.idle ∧
    (stopEngine exIdle).state.status = SimulationStatus.stopped ∧
    (stopEngine exIdle).state.events.length = 1 ∧
    stopEngine exIdle ≠ exIdle := by
  refine ⟨rfl, by decide, by decide, by decide⟩

/-- C6 (amended): `start()` when already Running, `pause()` when not
Running and `resume()` when not Paused are exact no-ops on the whole
engine; `stop()` is not guarded against Idle — from Idle it sets the
status to Stopped and appends one event. -/
theorem C6_guarded_transitions (e : SimulationEngine) :
    (e.state.status = SimulationStatus.running → startEngine e = e) ∧
    (e.state.status ≠ SimulationStatus.running → pauseEngine e = e) ∧
    (e.state.status ≠ SimulationStatus.paused → resumeEngine e = e) ∧
    (e.state.status = SimulationStatus.idle →
      (stopEngine e).state.status = SimulationStatus.stopped ∧
      (stopEngine e).state.events.length = e.state.events.length + 1) := by
  refine ⟨fun h => ?_, fun h => ?_, fun h => ?_, fun _ => ?_⟩
  · simp [startEngine, h]
  · simp [pauseEngine, h]
  · simp [resumeEngine, h]
  · simp [stopEngine, emitEvent, generateEventId, setStatus]

/-- Witness for C6 at concrete engines in each guarded state. -/
theorem C6_witness :
    (startEngine exRunning = exRunning) ∧
    (pauseEngine exIdle = exIdle) ∧
    (resumeEngine exIdle = exIdle) ∧
    ((stopEngine exIdle).state.status = SimulationStatus.stopped ∧
      (stopEngine exIdle).state.events.length = exIdle.state.events.length + 1) :=
  ⟨(C6_guarded_transitions exRunning).1 (by decide),
   (C6_guarded_transitions exIdle).2.1 (by decide),
   (C6_guarded_transitions exIdle).2.2.1 (by decide),
   (C6_guarded_transitions exIdle).2.2.2 (by decide)⟩

/-- C1 (counterexample): over the self-loop graph `A → A` with `A` a
CLIENT, the request generated in the first tick ends with
`path = [A, A]` — a node id immediately followed by itself.  (Request
generation does not exclude self-loop edges; only `findNextHop` filters
visited targets.) -/
theorem C1_counterexample :
    exSelfLoop.state.activeRequests.map (fun r => r.path) = [["A", "A"]] ∧
    ¬ List.Chain' (fun a b => a ≠ b) ["A", "A"] :=
  ⟨by decide, by simp⟩

/-- C3 (counterexample): over the graph whose only edge targets a
nonexistent node id, the first tick marks the generated request failed
and increments `failedRequests`, but appends no failure event: the log
holds only the start banner and the `REQUEST_SENT` event, and no event
of type `REQUEST_FAILED`. -/
theorem C3_counterexample :
    exDangling.state.activeRequests.map (fun r => r.status) = [RequestStatus.failed] ∧
    exDangling.state.systemMetrics.failedRequests = 1 ∧
    exDangling.state.events.map (fun ev => ev.type) =
      [SimulationEventType.request_sent, SimulationEventType.request_sent] ∧
    (exDangling.state.events.filter
      (fun ev => ev.type == SimulationEventType.request_failed)).length = 0 :=
  ⟨by decide, by decide, by decide, by decide⟩

/-- C4 (counterexample): in the CLIENT→DATABASE scenario of the claim
(`errorRate = 0`, `dbLatency = 40`, `tickRate = 100`, `duration = 1`,
empty network matrix), the request generated in the first tick completes
in that same tick, and its recorded total latency
(`currentTime - startTime`, folded into the running average over the
single success) is `0` ms — not the claimed `100` ms. -/
theorem C4_counterexample :
    exClientDb.state.systemMetrics.successfulRequests = 1 ∧
    exClientDb.state.systemMetrics.averageLatency = 0 ∧
    exClientDb.state.activeRequests.map (fun r => (r.status, r.startTime)) =
      [(RequestStatus.completed, 100)] ∧
    exClientDb.state.currentTime = 100 :=
  ⟨by decide, by decide, by decide, by decide⟩

/-- C7 (counterexample): a completed zero-rate run over a graph with no
CACHE and no LOAD_BALANCER node yields `totalRequests = 0` and no
bottlenecks, but `getResult().summary.recommendations` holds three
messages (the positive banner plus the two structural suggestions), not
only the single "no bottlenecks" message. -/
theorem C7_counterexample :
    exZeroRps.state.status = SimulationStatus.completed ∧
    exZeroRps.state.systemMetrics.totalRequests = 0 ∧
    analyzeBottlenecks exZeroRps = [] ∧
    (getResult exZeroRps).summary.recommendations =
      ["✅ System is performing well under current load",
       "💡 Consider adding a cache layer to reduce database load",
       "💡 Add a load balancer to distribute traffic evenly"] ∧
    ((getResult exZeroRps).summary.recommendations.length = 1 → False) :=
  ⟨by decide, by decide, by decide, by decide, by decide⟩

/-! ### Operations that do not touch request accounting -/

theorem nonterminal_iff (r : ActiveRequest) :
    nonterminal r ↔ ¬ (r.status = RequestStatus.completed ∨ r.status = RequestStatus.failed) := by
  unfold nonterminal
  cases r.status <;> simp

theorem reqNeutral_comp {f g : SimulationEngine → SimulationEngine}
    (hf : ReqNeutral f) (hg : ReqNeutral g) : ReqNeutral (fun e => g (f e)) := by
  intro e
  obtain ⟨a1, a2, a3, a4, a5⟩ := hf e
  obtain ⟨b1, b2, b3, b4, b5⟩ := hg (f e)
  exact ⟨b1.trans a1, b2.trans a2, b3.trans a3, b4.trans a4, b5.trans a5⟩

theorem reqNeutral_emitEvent (ev : SimulationEvent) : ReqNeutral (emitEvent ev) := by
  intro e; exact ⟨rfl, rfl, rfl, rfl, rfl⟩

theorem reqNeutral_setNodeMetrics (k : String) (m : NodeMetrics) :
    ReqNeutral (fun e => setNodeMetrics e k m) := by
  intro e; exact ⟨rfl, rfl, rfl, rfl, rfl⟩

theorem reqNeutral_updateLatencyMetrics (l : ℚ) : ReqNeutral (updateLatencyMetrics l) := by
  intro e; exact ⟨rfl, rfl, rfl, rfl, rfl⟩

theorem reqNeutral_takeMetricsSnapshot : ReqNeutral takeMetricsSnapshot := by
  intro e; exact ⟨rfl, rfl, rfl, rfl, rfl⟩

theorem reqNeutral_setStatus (s : SimulationStatus) : ReqNeutral (setStatus s) := by
  intro e; exact ⟨rfl, rfl, rfl, rfl, rfl⟩

theorem reqNeutral_updateMetrics : ReqNeutral updateMetrics := by
  intro e
  unfold updateMetrics
  refine ⟨?_, ?_, ?_, rfl, rfl⟩ <;> (simp only; split <;> rfl)

theorem reqNeutral_handleNodeProcessing (rng : ℕ → ℚ) (node : SystemNode)
    (request : ActiveRequest) : ReqNeutral (handleNodeProcessing rng node request) := by
  intro e
  unfold handleNodeProcessing
  cases lookupNodeMetrics e node.id with
  | none => exact ⟨rfl, rfl, rfl, rfl, rfl⟩
  | some m =>
    obtain ⟨nid, nlabel, nty⟩ := node
    cases nty <;>
      (simp only [setNodeMetrics, emitEvent, generateEventId, drawRand]
       try split
       all_goals simp)

theorem reqNeutral_checkAutoScalingOne (p : String × NodeMetrics) :
    ReqNeutral (checkAutoScalingOne p) := by
  intro e
  unfold checkAutoScalingOne
  cases getNodeById e p.1 with
  | none => exact ⟨rfl, rfl, rfl, rfl, rfl⟩
  | some node =>
    by_cases hty : node.type ≠ NodeType.service
    · simp only [if_pos hty]
      simp
    · simp only [if_neg hty, setNodeMetrics, emitEvent, generateEventId]
      split <;> (try split) <;> simp

theorem reqNeutral_scaleLoop (l : List (String × NodeMetrics)) : ReqNeutral (scaleLoop l) := by
  induction l with
  | nil => intro e; exact ⟨rfl, rfl, rfl, rfl, rfl⟩
  | cons p rest ih =>
    intro e
    have h1 := reqNeutral_checkAutoScalingOne p e
    have h2 := ih (checkAutoScalingOne p e)
    unfold scaleLoop
    obtain ⟨a1, a2, a3, a4, a5⟩ := h1
    obtain ⟨b1, b2, b3, b4, b5⟩ := h2
    exact ⟨b1.trans a1, b2.trans a2, b3.trans a3, b4.trans a4, b5.trans a5⟩

theorem reqNeutral_checkAutoScaling : ReqNeutral checkAutoScaling := by
  intro e
  exact reqNeutral_scaleLoop e.state.nodeMetrics e

theorem reqNeutral_applyChaosEffects (rng : ℕ → ℚ) : ReqNeutral (applyChaosEffects rng) := by
  intro e
  unfold applyChaosEffects
  simp only [drawRand]
  split
  · split <;> simp [emitEvent, generateEventId]
  · simp

theorem reqNeutral_startEngine : ReqNeutral startEngine := by
  intro e
  unfold startEngine
  split
  · exact ⟨rfl, rfl, rfl, rfl, rfl⟩
  · exact ⟨rfl, rfl, rfl, rfl, rfl⟩

theorem reqNeutral_pauseEngine : ReqNeutral pauseEngine := by
  intro e
  unfold pauseEngine
  split
  · exact ⟨rfl, rfl, rfl, rfl, rfl⟩
  · exact ⟨rfl, rfl, rfl, rfl, rfl⟩

theorem reqNeutral_resumeEngine : ReqNeutral resumeEngine := by
  intro e
  unfold resumeEngine
  split
  · exact ⟨rfl, rfl, rfl, rfl, rfl⟩
  · exact ⟨rfl, rfl, rfl, rfl, rfl⟩

theorem reqNeutral_stopEngine : ReqNeutral stopEngine := by
  intro e; exact ⟨rfl, rfl, rfl, rfl, rfl⟩

theorem reqNeutral_completeEngine : ReqNeutral completeEngine := by
  intro e
  unfold completeEngine
  split
  · exact ⟨rfl, rfl, rfl, rfl, rfl⟩
  · have h := reqNeutral_stopEngine e
    obtain ⟨a1, a2, a3, a4, a5⟩ := h
    exact ⟨a1, a2, a3, a4, a5⟩

theorem reqNeutral_setSpeed (s : ℚ) : ReqNeutral (setSpeed s) := by
  intro e
  unfold setSpeed
  by_cases h : e.state.status = SimulationStatus.running
  · simp only [if_pos h]
    obtain ⟨a1, a2, a3, a4, a5⟩ := reqNeutral_pauseEngine e
    obtain ⟨b1, b2, b3, b4, b5⟩ := reqNeutral_resumeEngine
      { pauseEngine e with state := { (pauseEngine e).state with speed := s } }
    exact ⟨b1.trans a1, b2.trans a2, b3.trans a3, b4.trans a4, b5.trans a5⟩
  · simp only [if_neg h]
    simp

/-! ### Request accounting through generation -/

theorem pendCount_append (l1 l2 : List ActiveRequest) :
    pendCount (l1 ++ l2) = pendCount l1 + pendCount l2 := by
  simp [pendCount, List.countP_append]

theorem pendCount_nil : pendCount [] = 0 := rfl

theorem countsOk_of_reqNeutral {f : SimulationEngine → SimulationEngine}
    (hf : ReqNeutral f) {e : SimulationEngine} (h : CountsOk e) : CountsOk (f e) := by
  obtain ⟨a1, a2, a3, a4, _⟩ := hf e
  unfold CountsOk at h ⊢
  rw [a1, a2, a3, a4]
  exact h

theorem idsOk_of_reqNeutral {f : SimulationEngine → SimulationEngine}
    (hf : ReqNeutral f) {e : SimulationEngine} (h : IdsOk e) : IdsOk (f e) := by
  obtain ⟨_, _, _, a4, a5⟩ := hf e
  unfold IdsOk at h ⊢
  rw [a4, a5]
  exact h

theorem pendCount_singleton_of_pending (r : ActiveRequest)
    (hr : r.status = RequestStatus.pending) : pendCount [r] = 1 := by
  simp [pendCount, List.countP_cons, nonterminal, hr]

theorem generateOne_countsOk (rng : ℕ → ℚ) (cn : List SystemNode) {e : SimulationEngine}
    (h : CountsOk e) : CountsOk (generateOne rng cn e) := by
  unfold generateOne
  simp only [drawRand, generateRequestId, pushRequest, emitEvent, generateEventId]
  split
  · exact h
  · obtain ⟨h1, h2, h3⟩ := h
    unfold CountsOk
    dsimp only
    refine ⟨h1, h2, ?_⟩
    rw [pendCount_append, pendCount_singleton_of_pending _ rfl]
    push_cast
    linarith

theorem generateOne_idsOk (rng : ℕ → ℚ) (cn : List SystemNode) {e : SimulationEngine}
    (h : IdsOk e) : IdsOk (generateOne rng cn e) := by
  unfold generateOne
  simp only [drawRand, generateRequestId, pushRequest, emitEvent, generateEventId]
  split
  · exact h
  · unfold IdsOk
    dsimp only
    obtain ⟨h1, h2⟩ := h
    constructor
    · intro r hr
      rcases List.mem_append.1 hr with hr | hr
      · obtain ⟨k, hk, hid⟩ := h1 r hr
        exact ⟨k, Nat.lt_succ_of_lt hk, hid⟩
      · rw [List.mem_singleton] at hr
        subst hr
        exact ⟨e.requestIdCounter, Nat.lt_succ_self _, rfl⟩
    · rw [List.map_append]
      refine List.Nodup.append h2 (List.nodup_singleton _) ?_
      intro a ha hb
      rw [List.map_singleton, List.mem_singleton] at hb
      subst hb
      obtain ⟨r, hr, hid⟩ := List.mem_map.1 ha
      obtain ⟨k, hk, hkid⟩ := h1 r hr
      have hlit : r.id = reqId e.requestIdCounter := hid
      rw [hkid] at hlit
      exact absurd (reqId_injective hlit) (Nat.ne_of_lt hk)

theorem genLoop_countsOk (rng : ℕ → ℚ) (cn : List SystemNode) :
    ∀ (k : ℕ) {e : SimulationEngine}, CountsOk e → CountsOk (genLoop rng cn k e)
  | 0, _, h => h
  | Nat.succ k, _, h => genLoop_countsOk rng cn k (generateOne_countsOk rng cn h)

theorem genLoop_idsOk (rng : ℕ → ℚ) (cn : List SystemNode) :
    ∀ (k : ℕ) {e : SimulationEngine}, IdsOk e → IdsOk (genLoop rng cn k e)
  | 0, _, h => h
  | Nat.succ k, _, h => genLoop_idsOk rng cn k (generateOne_idsOk rng cn h)

theorem generateRequests_countsOk (rng : ℕ → ℚ) {e : SimulationEngine}
    (h : CountsOk e) : CountsOk (generateRequests rng e) := by
  unfold generateRequests
  dsimp only
  split
  · exact h
  · exact genLoop_countsOk rng _ _ h

theorem generateRequests_idsOk (rng : ℕ → ℚ) {e : SimulationEngine}
    (h : IdsOk e) : IdsOk (generateRequests rng e) := by
  unfold generateRequests
  dsimp only
  split
  · exact h
  · exact genLoop_idsOk rng _ _ h

/-! ### The per-request processing step -/

theorem graphNeutral_handleNodeProcessing (rng : ℕ → ℚ) (node : SystemNode)
    (request : ActiveRequest) : GraphNeutral (handleNodeProcessing rng node request) := by
  intro e
  unfold handleNodeProcessing
  cases lookupNodeMetrics e node.id with
  | none => exact ⟨rfl, rfl, rfl⟩
  | some m =>
    obtain ⟨nid, nlabel, nty⟩ := node
    cases nty <;>
      (simp only [setNodeMetrics, emitEvent, generateEventId, drawRand]
       try split
       all_goals simp)

theorem hnp_succ (rng : ℕ → ℚ) (node : SystemNode) (request : ActiveRequest)
    (e : SimulationEngine) :
    (handleNodeProcessing rng node request e).state.systemMetrics.successfulRequests
      = e.state.systemMetrics.successfulRequests :=
  (reqNeutral_handleNodeProcessing rng node request e).1

theorem hnp_failed (rng : ℕ → ℚ) (node : SystemNode) (request : ActiveRequest)
    (e : SimulationEngine) :
    (handleNodeProcessing rng node request e).state.systemMetrics.failedRequests
      = e.state.systemMetrics.failedRequests :=
  (reqNeutral_handleNodeProcessing rng node request e).2.1

theorem hnp_total (rng : ℕ → ℚ) (node : SystemNode) (request : ActiveRequest)
    (e : SimulationEngine) :
    (handleNodeProcessing rng node request e).state.systemMetrics.totalRequests
      = e.state.systemMetrics.totalRequests :=
  (reqNeutral_handleNodeProcessing rng node request e).2.2.1

theorem hnp_active (rng : ℕ → ℚ) (node : SystemNode) (request : ActiveRequest)
    (e : SimulationEngine) :
    (handleNodeProcessing rng node request e).state.activeRequests = e.state.activeRequests :=
  (reqNeutral_handleNodeProcessing rng node request e).2.2.2.1

theorem hnp_reqCounter (rng : ℕ → ℚ) (node : SystemNode) (request : ActiveRequest)
    (e : SimulationEngine) :
    (handleNodeProcessing rng node request e).requestIdCounter = e.requestIdCounter :=
  (reqNeutral_handleNodeProcessing rng node request e).2.2.2.2

theorem hnp_nodes (rng : ℕ → ℚ) (node : SystemNode) (request : ActiveRequest)
    (e : SimulationEngine) :
    (handleNodeProcessing rng node request e).nodes = e.nodes :=
  (graphNeutral_handleNodeProcessing rng node request e).1

theorem hnp_edges (rng : ℕ → ℚ) (node : SystemNode) (request : ActiveRequest)
    (e : SimulationEngine) :
    (handleNodeProcessing rng node request e).edges = e.edges :=
  (graphNeutral_handleNodeProcessing rng node request e).2.1

theorem hnp_config (rng : ℕ → ℚ) (node : SystemNode) (request : ActiveRequest)
    (e : SimulationEngine) :
    (handleNodeProcessing rng node request e).state.config = e.state.config :=
  (graphNeutral_handleNodeProcessing rng node request e).2.2

theorem not_nonterminal_of_failed (r : ActiveRequest)
    (h : r.status = RequestStatus.failed) : ¬ nonterminal r := by
  simp [nonterminal, h]

theorem not_nonterminal_of_completed (r : ActiveRequest)
    (h : r.status = RequestStatus.completed) : ¬ nonterminal r := by
  simp [nonterminal, h]

theorem nonterminal_of_processing (r : ActiveRequest)
    (h : r.status = RequestStatus.processing) : nonterminal r := by
  simp [nonterminal, h]

theorem processOne_spec (rng : ℕ → ℚ) (dt : ℚ) (e : SimulationEngine) (r : ActiveRequest) :
    (processOne rng dt e r).engine.state.activeRequests = e.state.activeRequests ∧
    (processOne rng dt e r).engine.requestIdCounter = e.requestIdCounter ∧
    (processOne rng dt e r).engine.state.systemMetrics.totalRequests
      = e.state.systemMetrics.totalRequests ∧
    (processOne rng dt e r).request.id = r.id ∧
    ((processOne rng dt e r).terminalAtEntry = true ↔ ¬ nonterminal r) ∧
    (¬ nonterminal r → (processOne rng dt e r).engine = e ∧ (processOne rng dt e r).request = r) ∧
    ((processOne rng dt e r).engine.state.systemMetrics.successfulRequests
        + (processOne rng dt e r).engine.state.systemMetrics.failedRequests)
        + (if nonterminal (processOne rng dt e r).request then (1 : ℚ) else 0)
      = (e.state.systemMetrics.successfulRequests + e.state.systemMetrics.failedRequests)
        + (if nonterminal r then (1 : ℚ) else 0) ∧
    (0 ≤ e.state.systemMetrics.successfulRequests →
      0 ≤ (processOne rng dt e r).engine.state.systemMetrics.successfulRequests) ∧
    (0 ≤ e.state.systemMetrics.failedRequests →
      0 ≤ (processOne rng dt e r).engine.state.systemMetrics.failedRequests) ∧
    (processOne rng dt e r).engine.nodes = e.nodes ∧
    (processOne rng dt e r).engine.edges = e.edges ∧
    (processOne rng dt e r).engine.state.config = e.state.config := by
  unfold processOne
  by_cases hterm : r.status = RequestStatus.completed ∨ r.status = RequestStatus.failed
  · have hnt : ¬ nonterminal r := by rw [nonterminal_iff]; exact not_not_intro hterm
    rw [if_pos hterm]
    exact ⟨rfl, rfl, rfl, rfl, by simp [hnt], fun _ => ⟨rfl, rfl⟩, rfl,
      fun x => x, fun x => x, rfl, rfl, rfl⟩
  · have hnt : nonterminal r := by rw [nonterminal_iff]; exact hterm
    rw [if_neg hterm]
    cases hg : getNodeById e r.targetNodeId with
    | none =>
      refine ⟨rfl, rfl, rfl, rfl, by simp [hnt], fun h' => absurd hnt h', ?_,
        fun x => x, fun hf => ?_, rfl, rfl, rfl⟩
      · try rw [if_neg (not_nonterminal_of_failed _ rfl)]
        try rw [if_pos hnt]
        try simp only [bumpFailed]
        ring
      · show (0 : ℚ) ≤ e.state.systemMetrics.failedRequests + 1
        linarith
    | some tn =>
      dsimp only
      split
      · split
        · -- the error roll fires
          refine ⟨rfl, rfl, rfl, rfl, by simp [hnt], fun h' => absurd hnt h', ?_,
            fun x => x, fun hf => ?_, rfl, rfl, rfl⟩
          · try rw [if_neg (not_nonterminal_of_failed _ rfl)]
            try rw [if_pos hnt]
            try simp only [emitEvent, generateEventId, bumpFailed, drawRand]
            ring
          · show (0 : ℚ) ≤ e.state.systemMetrics.failedRequests + 1
            linarith
        · -- no error: node side effects, then route
          split
          · -- a next hop exists: retarget, request stays travelling
            refine ⟨?_, ?_, ?_, rfl, by simp [hnt], fun h' => absurd hnt h', ?_,
              ?_, ?_, ?_, ?_, ?_⟩
            · simp only [emitEvent, generateEventId, hnp_active, drawRand]
            · simp only [emitEvent, generateEventId, hnp_reqCounter, drawRand]
            · simp only [emitEvent, generateEventId, hnp_total, drawRand]
            · try rw [if_pos (nonterminal_of_processing _ rfl)]
              try rw [if_pos hnt]
              simp only [emitEvent, generateEventId, hnp_succ, hnp_failed, drawRand]
            · intro hs
              simp only [emitEvent, generateEventId, hnp_succ, drawRand]
              exact hs
            · intro hf
              simp only [emitEvent, generateEventId, hnp_failed, drawRand]
              exact hf
            · simp only [emitEvent, generateEventId, hnp_nodes, drawRand]
            · simp only [emitEvent, generateEventId, hnp_edges, drawRand]
            · simp only [emitEvent, generateEventId, hnp_config, drawRand]
          · -- no next hop: completed
            refine ⟨?_, ?_, ?_, rfl, by simp [hnt], fun h' => absurd hnt h', ?_,
              ?_, ?_, ?_, ?_, ?_⟩
            · simp only [emitEvent, generateEventId, updateLatencyMetrics, bumpSuccessful,
                hnp_active, drawRand]
            · simp only [emitEvent, generateEventId, updateLatencyMetrics, bumpSuccessful,
                hnp_reqCounter, drawRand]
            · simp only [emitEvent, generateEventId, updateLatencyMetrics, bumpSuccessful,
                hnp_total, drawRand]
            · try rw [if_neg (not_nonterminal_of_completed _ rfl)]
              try rw [if_pos hnt]
              simp only [emitEvent, generateEventId, updateLatencyMetrics, bumpSuccessful,
                hnp_succ, hnp_failed, drawRand]
              ring
            · intro hs
              simp only [emitEvent, generateEventId, updateLatencyMetrics, bumpSuccessful,
                hnp_succ, drawRand]
              linarith
            · intro hf
              simp only [emitEvent, generateEventId, updateLatencyMetrics, bumpSuccessful,
                hnp_failed, drawRand]
              exact hf
            · simp only [emitEvent, generateEventId, updateLatencyMetrics, bumpSuccessful,
                hnp_nodes, drawRand]
            · simp only [emitEvent, generateEventId, updateLatencyMetrics, bumpSuccessful,
                hnp_edges, drawRand]
            · simp only [emitEvent, generateEventId, updateLatencyMetrics, bumpSuccessful,
                hnp_config, drawRand]
      · -- the hop has not completed yet: only latency/progress advance
        refine ⟨rfl, rfl, rfl, rfl, by simp [hnt], fun h' => absurd hnt h', ?_,
          fun x => x, fun x => x, rfl, rfl, rfl⟩
        first
          | rfl
          | (rw [if_pos hnt]; rfl)
          | (have hsame : nonterminal
                ({ r with
                    currentLatency := r.currentLatency + dt
                    progress := jsMinDivOne (r.currentLatency + dt)
                      (getNetworkLatency e (r.path.getLastD "") r.targetNodeId
                        + getProcessingLatency e.state.config tn) } : ActiveRequest) := hnt
             rw [if_pos hsame]
             try rw [if_pos hnt])

theorem pendCountQ_cons (r : ActiveRequest) (l : List ActiveRequest) :
    (pendCount (r :: l) : ℚ) = (if nonterminal r then (1 : ℚ) else 0) + (pendCount l : ℚ) := by
  by_cases h : nonterminal r <;> simp [pendCount, List.countP_cons, h] <;> push_cast <;> ring

theorem pendCountQ_append_singleton (l : List ActiveRequest) (r : ActiveRequest) :
    (pendCount (l ++ [r]) : ℚ)
      = (pendCount l : ℚ) + (if nonterminal r then (1 : ℚ) else 0) := by
  by_cases h : nonterminal r <;>
    simp [pendCount, List.countP_append, List.countP_cons, h] <;> push_cast <;> ring

theorem processLoop_spec (rng : ℕ → ℚ) (dt : ℚ) :
    ∀ (l : List ActiveRequest) (e : SimulationEngine) (processed : List ActiveRequest)
      (cIds : List String),
      (processLoop rng dt l e processed cIds).1.state.activeRequests
        = e.state.activeRequests ∧
      (processLoop rng dt l e processed cIds).1.requestIdCounter = e.requestIdCounter ∧
      (processLoop rng dt l e processed cIds).1.state.systemMetrics.totalRequests
        = e.state.systemMetrics.totalRequests ∧
      (processLoop rng dt l e processed cIds).1.nodes = e.nodes ∧
      (processLoop rng dt l e processed cIds).1.edges = e.edges ∧
      (processLoop rng dt l e processed cIds).1.state.config = e.state.config ∧
      (processLoop rng dt l e processed cIds).2.1.map ActiveRequest.id
        = processed.map ActiveRequest.id ++ l.map ActiveRequest.id ∧
      ((processLoop rng dt l e processed cIds).1.state.systemMetrics.successfulRequests
          + (processLoop rng dt l e processed cIds).1.state.systemMetrics.failedRequests)
          + (pendCount (processLoop rng dt l e processed cIds).2.1 : ℚ)
        = (e.state.systemMetrics.successfulRequests + e.state.systemMetrics.failedRequests)
          + (pendCount processed : ℚ) + (pendCount l : ℚ) ∧
      (0 ≤ e.state.systemMetrics.successfulRequests →
        0 ≤ (processLoop rng dt l e processed cIds).1.state.systemMetrics.successfulRequests) ∧
      (0 ≤ e.state.systemMetrics.failedRequests →
        0 ≤ (processLoop rng dt l e processed cIds).1.state.systemMetrics.failedRequests) ∧
      ((∀ s ∈ cIds, s ∉ l.map ActiveRequest.id) →
        (∀ r' ∈ processed, nonterminal r' → r'.id ∉ cIds) →
        (processed.map ActiveRequest.id ++ l.map ActiveRequest.id).Nodup →
        (∀ r' ∈ (processLoop rng dt l e processed cIds).2.1, nonterminal r' →
          r'.id ∉ (processLoop rng dt l e processed cIds).2.2)) := by
  intro l
  induction l with
  | nil =>
    intro e processed cIds
    refine ⟨rfl, rfl, rfl, rfl, rfl, rfl, by simp [processLoop],
      by simp [processLoop, pendCount], ?_, ?_, ?_⟩
    · exact fun x => x
    · exact fun x => x
    · intro _ h2 _
      exact h2
  | cons r rest ih =>
    intro e processed cIds
    obtain ⟨p1, p2, p3, p4, p5, p6, p7, p8, p9, p10, p11, p12⟩ := processOne_spec rng dt e r
    have hloop : processLoop rng dt (r :: rest) e processed cIds
        = processLoop rng dt rest (processOne rng dt e r).engine
            (processed ++ [(processOne rng dt e r).request])
            (if (processOne rng dt e r).terminalAtEntry then cIds ++ [r.id] else cIds) := rfl
    obtain ⟨q1, q2, q3, q4, q5, q6, q7, q8, q9, q10, q11⟩ :=
      ih (processOne rng dt e r).engine (processed ++ [(processOne rng dt e r).request])
        (if (processOne rng dt e r).terminalAtEntry then cIds ++ [r.id] else cIds)
    rw [hloop]
    refine ⟨q1.trans p1, q2.trans p2, q3.trans p3, q4.trans p10, q5.trans p11, q6.trans p12,
      ?_, ?_, fun hs => q9 (p8 hs), fun hf => q10 (p9 hf), ?_⟩
    · rw [q7, List.map_append, List.map_singleton, p4]
      simp
    · rw [q8, pendCountQ_append_singleton, pendCountQ_cons]
      linarith [p7]
    · intro h1 h2 h3
      -- the `processed`/`cIds` bookkeeping advances by one request
      have hNodupSplit := h3
      rw [List.map_cons] at hNodupSplit
      -- disjointness of the two halves and internal nodups
      have hDisj : ∀ a ∈ processed.map ActiveRequest.id,
          a ∉ (r.id :: rest.map ActiveRequest.id) := by
        intro a ha hb
        have := (List.nodup_append.mp hNodupSplit).2.2
        exact this ha hb
      have hTailNodup : (r.id :: rest.map ActiveRequest.id).Nodup :=
        (List.nodup_append.mp hNodupSplit).2.1
      have hridNotRest : r.id ∉ rest.map ActiveRequest.id :=
        (List.nodup_cons.mp hTailNodup).1
      refine q11 ?_ ?_ ?_
      · -- new cIds entries avoid the remaining ids
        intro s hs
        by_cases hflag : (processOne rng dt e r).terminalAtEntry = true
        · rw [if_pos hflag] at hs
          rcases List.mem_append.mp hs with hs | hs
          · intro hmem
            exact h1 s hs (List.mem_cons_of_mem _ hmem)
          · rw [List.mem_singleton] at hs
            subst hs
            exact hridNotRest
        · rw [if_neg hflag] at hs
          intro hmem
          exact h1 s hs (List.mem_cons_of_mem _ hmem)
      · -- processed requests that are still travelling stay out of cIds
        intro r' hr' hnt'
        rcases List.mem_append.mp hr' with hr' | hr'
        · by_cases hflag : (processOne rng dt e r).terminalAtEntry = true
          · rw [if_pos hflag]
            intro hmem
            rcases List.mem_append.mp hmem with hmem | hmem
            · exact h2 r' hr' hnt' hmem
            · rw [List.mem_singleton] at hmem
              exact hDisj r'.id (List.mem_map_of_mem ActiveRequest.id hr')
                (hmem ▸ List.mem_cons_self _ _)
          · rw [if_neg hflag]
            exact h2 r' hr' hnt'
        · rw [List.mem_singleton] at hr'
          subst hr'
          by_cases hflag : (processOne rng dt e r).terminalAtEntry = true
          · exfalso
            have := (p6 (p5.mp hflag)).2
            rw [this] at hnt'
            exact (p5.mp hflag) hnt'
          · rw [if_neg hflag]
            rw [p4]
            intro hmem
            exact h1 r.id hmem (List.mem_cons_self _ _)
      · -- the id multiset only advances by `r.id`
        rw [List.map_append, List.map_singleton, p4, List.append_assoc]
        rw [List.map_cons] at h3
        simpa using h3

theorem pendCount_filter_eq (cIds : List String) :
    ∀ (l : List ActiveRequest), (∀ r ∈ l, nonterminal r → r.id ∉ cIds) →
      pendCount (l.filter (fun r => !(cIds.contains r.id))) = pendCount l := by
  intro l
  induction l with
  | nil => intro _; rfl
  | cons r t ih =>
    intro h
    have ht := ih (fun x hx => h x (List.mem_cons_of_mem _ hx))
    by_cases hrid : r.id ∈ cIds
    · have hnt : ¬ nonterminal r := fun hn => (h r (List.mem_cons_self _ _) hn) hrid
      rw [List.filter_cons_of_neg (by simp [hrid]), ht]
      simp [pendCount, List.countP_cons, hnt]
    · rw [List.filter_cons_of_pos (by simp [hrid])]
      simp only [pendCount, List.countP_cons] at ht ⊢
      omega

theorem processRequests_countsOk (rng : ℕ → ℚ) (dt : ℚ) {e : SimulationEngine}
    (hc : CountsOk e) (hi : IdsOk e) : CountsOk (processRequests rng dt e) := by
  obtain ⟨p1, p2, p3, p4, p5, p6, p7, p8, p9, p10, p11⟩ :=
    processLoop_spec rng dt e.state.activeRequests e [] []
  obtain ⟨h1, h2, h3⟩ := hc
  unfold processRequests CountsOk
  dsimp only
  refine ⟨p9 h1, p10 h2, ?_⟩
  have hsafe := p11 (by simp) (by simp) (by simpa using hi.2)
  rw [pendCount_filter_eq _ _ hsafe, p3]
  have p8' := p8
  rw [pendCount_nil] at p8'
  push_cast at p8'
  linarith

theorem processRequests_idsOk (rng : ℕ → ℚ) (dt : ℚ) {e : SimulationEngine}
    (hi : IdsOk e) : IdsOk (processRequests rng dt e) := by
  obtain ⟨p1, p2, p3, p4, p5, p6, p7, p8, p9, p10, p11⟩ :=
    processLoop_spec rng dt e.state.activeRequests e [] []
  unfold processRequests IdsOk
  dsimp only
  constructor
  · intro r hr
    have hr' := List.mem_of_mem_filter hr
    have hid := List.mem_map_of_mem ActiveRequest.id hr'
    rw [p7] at hid
    simp only [List.map_nil, List.nil_append] at hid
    obtain ⟨r0, hr0, hr0id⟩ := List.mem_map.mp hid
    obtain ⟨k, hk, hkid⟩ := hi.1 r0 hr0
    refine ⟨k, ?_, ?_⟩
    · rw [p2]; exact hk
    · rw [← hr0id]; exact hkid
  · have hnodup : ((processLoop rng dt e.state.activeRequests e [] []).2.1.map
        ActiveRequest.id).Nodup := by
      rw [p7]
      simpa using hi.2
    exact hnodup.sublist ((List.filter_sublist _).map ActiveRequest.id)

theorem tick_counts_ids (rng : ℕ → ℚ) {e : SimulationEngine}
    (hc : CountsOk e) (hi : IdsOk e) : CountsOk (tick rng e) ∧ IdsOk (tick rng e) := by
  unfold tick
  dsimp only
  have hc1 : CountsOk { e with state :=
      { e.state with currentTime := e.state.currentTime + e.state.config.tickRate } } := hc
  have hi1 : IdsOk { e with state :=
      { e.state with currentTime := e.state.currentTime + e.state.config.tickRate } } := hi
  have hc2 := generateRequests_countsOk rng hc1
  have hi2 := generateRequests_idsOk rng hi1
  have hc3 := processRequests_countsOk rng e.state.config.tickRate hc2 hi2
  have hi3 := processRequests_idsOk rng e.state.config.tickRate hi2
  have hc4 := countsOk_of_reqNeutral reqNeutral_updateMetrics hc3
  have hi4 := idsOk_of_reqNeutral reqNeutral_updateMetrics hi3
  generalize hE : updateMetrics (processRequests rng e.state.config.tickRate
      (generateRequests rng { e with state :=
        { e.state with currentTime := e.state.currentTime + e.state.config.tickRate } })) = e4
    at hc4 hi4 ⊢
  have hc5 : CountsOk (if e4.state.config.autoScaling = true then checkAutoScaling e4 else e4) := by
    split
    · exact countsOk_of_reqNeutral reqNeutral_checkAutoScaling hc4
    · exact hc4
  have hi5 : IdsOk (if e4.state.config.autoScaling = true then checkAutoScaling e4 else e4) := by
    split
    · exact idsOk_of_reqNeutral reqNeutral_checkAutoScaling hi4
    · exact hi4
  generalize hE5 : (if e4.state.config.autoScaling = true then checkAutoScaling e4 else e4) = e5
    at hc5 hi5 ⊢
  have hc6 : CountsOk (if e5.state.config.chaosMode = true then applyChaosEffects rng e5 else e5) := by
    split
    · exact countsOk_of_reqNeutral (reqNeutral_applyChaosEffects rng) hc5
    · exact hc5
  have hi6 : IdsOk (if e5.state.config.chaosMode = true then applyChaosEffects rng e5 else e5) := by
    split
    · exact idsOk_of_reqNeutral (reqNeutral_applyChaosEffects rng) hi5
    · exact hi5
  generalize hE6 : (if e5.state.config.chaosMode = true then applyChaosEffects rng e5 else e5) = e6
    at hc6 hi6 ⊢
  constructor
  · split
    · exact countsOk_of_reqNeutral reqNeutral_takeMetricsSnapshot hc6
    · exact hc6
  · split
    · exact idsOk_of_reqNeutral reqNeutral_takeMetricsSnapshot hi6
    · exact hi6

theorem estep_counts_ids (rng : ℕ → ℚ) {e e' : SimulationEngine}
    (hs : EStep rng e e') (hc : CountsOk e) (hi : IdsOk e) : CountsOk e' ∧ IdsOk e' := by
  cases hs with
  | loop _ =>
    unfold loopStep
    split
    · exact ⟨hc, hi⟩
    · obtain ⟨hc1, hi1⟩ := tick_counts_ids rng hc hi
      by_cases hdone : (tick rng e).state.currentTime ≥ (tick rng e).state.config.duration * 1000
      · rw [if_pos hdone]
        exact ⟨countsOk_of_reqNeutral reqNeutral_completeEngine hc1,
          idsOk_of_reqNeutral reqNeutral_completeEngine hi1⟩
      · rw [if_neg hdone]
        exact ⟨hc1, hi1⟩
  | start _ =>
    exact ⟨countsOk_of_reqNeutral reqNeutral_startEngine hc,
      idsOk_of_reqNeutral reqNeutral_startEngine hi⟩
  | pause _ =>
    exact ⟨countsOk_of_reqNeutral reqNeutral_pauseEngine hc,
      idsOk_of_reqNeutral reqNeutral_pauseEngine hi⟩
  | resume _ =>
    exact ⟨countsOk_of_reqNeutral reqNeutral_resumeEngine hc,
      idsOk_of_reqNeutral reqNeutral_resumeEngine hi⟩
  | stop _ =>
    exact ⟨countsOk_of_reqNeutral reqNeutral_stopEngine hc,
      idsOk_of_reqNeutral reqNeutral_stopEngine hi⟩
  | speed s _ =>
    exact ⟨countsOk_of_reqNeutral (reqNeutral_setSpeed s) hc,
      idsOk_of_reqNeutral (reqNeutral_setSpeed s) hi⟩

theorem reachable_counts_ids (rng : ℕ → ℚ) (nodes : List SystemNode)
    (edges : List SystemEdge) (config : SimulationConfig) (e : SimulationEngine)
    (h : Reachable rng nodes edges config e) : CountsOk e ∧ IdsOk e := by
  unfold Reachable at h
  induction h with
  | refl =>
    constructor
    · refine ⟨le_refl 0, le_refl 0, ?_⟩
      simp [mkEngine, initializeState, createEmptySystemMetrics, pendCount]
    · exact ⟨fun r hr => absurd hr (List.not_mem_nil r), List.nodup_nil⟩
  | tail _ hstep ih => exact estep_counts_ids rng hstep ih.1 ih.2

theorem reachable_runSteps (rng : ℕ → ℚ) (nodes : List SystemNode)
    (edges : List SystemEdge) (config : SimulationConfig) (n : ℕ) :
    Reachable rng nodes edges config (runSteps rng nodes edges config n) := by
  unfold runSteps Reachable
  induction n with
  | zero => exact Relation.ReflTransGen.single (EStep.start _)
  | succ n ih =>
    rw [Function.iterate_succ_apply']
    exact Relation.ReflTransGen.tail ih (EStep.loop _)

/-- C2: in every reachable engine state,
`successfulRequests + failedRequests ≤ totalRequests`, and the sum equals
`totalRequests` once the active request set is empty and the run has
completed. -/
theorem C2_request_accounting (rng : ℕ → ℚ) (nodes : List SystemNode)
    (edges : List SystemEdge) (config : SimulationConfig) (e : SimulationEngine)
    (h : Reachable rng nodes edges config e) :
    e.state.systemMetrics.successfulRequests + e.state.systemMetrics.failedRequests
      ≤ e.state.systemMetrics.totalRequests ∧
    (e.state.activeRequests = [] ∧ e.state.status = SimulationStatus.completed →
      e.state.systemMetrics.successfulRequests + e.state.systemMetrics.failedRequests
        = e.state.systemMetrics.totalRequests) := by
  obtain ⟨⟨h1, h2, h3⟩, _⟩ := reachable_counts_ids rng nodes edges config e h
  constructor
  · have hpend : (0 : ℚ) ≤ (pendCount e.state.activeRequests : ℚ) := by positivity
    linarith
  · rintro ⟨hempty, _⟩
    rw [hempty, pendCount_nil] at h3
    push_cast at h3
    linarith

/-- Witness for C2 at the concrete state reached after the first tick
of the CLIENT→DATABASE run. -/
theorem C2_witness :
    Reachable rngZero [nodeC, nodeD] [{ source := "C", target := "D" }] cfgUnit exClientDb ∧
    (exClientDb.state.systemMetrics.successfulRequests
        + exClientDb.state.systemMetrics.failedRequests
      ≤ exClientDb.state.systemMetrics.totalRequests ∧
    (exClientDb.state.activeRequests = [] ∧ exClientDb.state.status = SimulationStatus.completed →
      exClientDb.state.systemMetrics.successfulRequests
          + exClientDb.state.systemMetrics.failedRequests
        = exClientDb.state.systemMetrics.totalRequests)) :=
  ⟨reachable_runSteps rngZero [nodeC, nodeD] [{ source := "C", target := "D" }] cfgUnit 1,
   C2_request_accounting rngZero [nodeC, nodeD] [{ source := "C", target := "D" }] cfgUnit
     exClientDb
     (reachable_runSteps rngZero [nodeC, nodeD] [{ source := "C", target := "D" }] cfgUnit 1)⟩

/-- C10: `getResult()` is total (it is a function in this model), but its
summary divisions are unguarded: in any reachable state with
`totalRequests = 0` the success rate is the JS quotient `0 / 0`, i.e.
`NaN`; with an empty metrics history the peak RPS is `Math.max()` over
nothing, i.e. `-Infinity`; by contrast `updateMetrics` leaves
`SystemMetrics.errorRate` untouched when `totalRequests = 0` (the guarded
division). -/
theorem C10_unguarded_result (rng : ℕ → ℚ) (nodes : List SystemNode)
    (edges : List SystemEdge) (config : SimulationConfig) (e : SimulationEngine)
    (h : Reachable rng nodes edges config e)
    (h0 : e.state.systemMetrics.totalRequests = 0)
    (hh : e.state.metricsHistory = []) :
    (getResult e).summary.successRate = JsNum.nan ∧
    (getResult e).summary.peakRPS = JsNum.negInf ∧
    (updateMetrics e).state.systemMetrics.errorRate = e.state.systemMetrics.errorRate := by
  obtain ⟨⟨h1, h2, h3⟩, _⟩ := reachable_counts_ids rng nodes edges config e h
  have hpend : (0 : ℚ) ≤ (pendCount e.state.activeRequests : ℚ) := by positivity
  have hsucc : e.state.systemMetrics.successfulRequests = 0 := by linarith
  refine ⟨?_, ?_, ?_⟩
  · simp [getResult, jsDiv, hsucc, h0]
  · simp [getResult, jsMax, hh]
  · unfold updateMetrics
    dsimp only
    rw [if_neg (by rw [h0]; exact lt_irrefl 0)]

/-- Witness for C10 at the freshly constructed engine (totalRequests is
0 and the history is empty there). -/
theorem C10_witness :
    Reachable rngZero [nodeC] [] cfgUnit exIdle ∧
    exIdle.state.systemMetrics.totalRequests = 0 ∧
    exIdle.state.metricsHistory = [] ∧
    ((getResult exIdle).summary.successRate = JsNum.nan ∧
     (getResult exIdle).summary.peakRPS = JsNum.negInf ∧
     (updateMetrics exIdle).state.systemMetrics.errorRate
       = exIdle.state.systemMetrics.errorRate) :=
  ⟨Relation.ReflTransGen.refl, rfl, rfl,
   C10_unguarded_result rngZero [nodeC] [] cfgUnit exIdle
     Relation.ReflTransGen.refl rfl rfl⟩

/-! ### Evolution of the node-metrics map -/

theorem entryRel_refl (p : String × NodeMetrics) : entryRel p p :=
  ⟨rfl, le_refl _, fun x => x⟩

theorem entryRel_trans {p q s : String × NodeMetrics} (h1 : entryRel p q)
    (h2 : entryRel q s) : entryRel p s :=
  ⟨h1.1.trans h2.1, h1.2.1.trans h2.2.1, fun hi => h2.2.2 (h1.2.2 hi)⟩

theorem forall₂_entryRel_refl : ∀ l : List (String × NodeMetrics), List.Forall₂ entryRel l l
  | [] => List.Forall₂.nil
  | p :: rest => List.Forall₂.cons (entryRel_refl p) (forall₂_entryRel_refl rest)

theorem forall₂_entryRel_trans :
    ∀ {l1 l2 l3 : List (String × NodeMetrics)}, List.Forall₂ entryRel l1 l2 →
      List.Forall₂ entryRel l2 l3 → List.Forall₂ entryRel l1 l3 := by
  intro l1 l2 l3 h1 h2
  induction h1 generalizing l3 with
  | nil => cases h2; exact List.Forall₂.nil
  | cons hpq _ ih =>
    cases h2 with
    | cons hqr hrest => exact List.Forall₂.cons (entryRel_trans hpq hqr) (ih hrest)

theorem keys_eq_of_forall₂ :
    ∀ {l1 l2 : List (String × NodeMetrics)}, List.Forall₂ entryRel l1 l2 →
      l1.map Prod.fst = l2.map Prod.fst := by
  intro l1 l2 h
  induction h with
  | nil => rfl
  | cons hpq _ ih => simp [hpq.1, ih]

theorem sumQd_mono_of_forall₂ :
    ∀ {l1 l2 : List (String × NodeMetrics)}, List.Forall₂ entryRel l1 l2 →
      ((l1.map (fun p => p.2.queueDepth)).sum : ℚ)
        ≤ ((l2.map (fun p => p.2.queueDepth)).sum : ℚ) := by
  intro l1 l2 h
  induction h with
  | nil => exact le_refl _
  | cons hpq _ ih =>
    simp only [List.map_cons, List.sum_cons]
    exact add_le_add hpq.2.1 ih

theorem instancesOk_of_forall₂ :
    ∀ {l1 l2 : List (String × NodeMetrics)}, List.Forall₂ entryRel l1 l2 →
      (∀ p ∈ l1, InstOk p.2.instances) → ∀ q ∈ l2, InstOk q.2.instances := by
  intro l1 l2 h
  induction h with
  | nil => intro _ q hq; exact absurd hq (List.not_mem_nil q)
  | cons hpq _ ih =>
    intro hall q hq
    rcases List.mem_cons.mp hq with hq | hq
    · subst hq
      exact hpq.2.2 (hall _ (List.mem_cons_self _ _))
    · exact ih (fun p hp => hall p (List.mem_cons_of_mem _ hp)) q hq

theorem find?_qd_mono {l1 l2 : List (String × NodeMetrics)}
    (h : List.Forall₂ entryRel l1 l2) (k : String) :
    ((((l1.find? (fun p => p.1 == k)).map Prod.snd).map NodeMetrics.queueDepth).getD 0 : ℚ)
      ≤ ((((l2.find? (fun p => p.1 == k)).map Prod.snd).map NodeMetrics.queueDepth).getD 0 : ℚ) := by
  induction h with
  | nil => simp
  | cons hpq hrest ih =>
    rename_i p q l1 l2
    by_cases hk : (p.1 == k) = true
    · have hq : (q.1 == k) = true := by
        rw [← hpq.1]
        exact hk
      simp only [List.find?, hk, hq]
      simpa using hpq.2.1
    · have hk' : (p.1 == k) = false := by
        simpa using hk
      have hq' : (q.1 == k) = false := by
        rw [← hpq.1]
        exact hk'
      simp only [List.find?, hk', hq']
      exact ih

theorem queueDepthOf_mono {e e' : SimulationEngine} (h : MetricsEvolve e e')
    (k : String) : queueDepthOf e k ≤ queueDepthOf e' k := by
  unfold queueDepthOf lookupNodeMetrics
  have := find?_qd_mono h k
  simpa [Option.map_map] using this

theorem keysOk_of_evolve {e e' : SimulationEngine} (h : MetricsEvolve e e')
    (hk : KeysOk e) : KeysOk e' := by
  unfold KeysOk at *
  rw [← keys_eq_of_forall₂ h]
  exact hk

theorem evolveStep_refl (e : SimulationEngine) : EvolveStep e e :=
  ⟨forall₂_entryRel_refl _, fun x => x, fun _ => le_refl _⟩

theorem evolveStep_trans {e1 e2 e3 : SimulationEngine} (h1 : EvolveStep e1 e2)
    (h2 : EvolveStep e2 e3) : EvolveStep e1 e3 :=
  ⟨forall₂_entryRel_trans h1.1 h2.1, fun ht => h2.2.1 (h1.2.1 ht),
   fun ht => le_trans (h1.2.2 ht) (h2.2.2 (h1.2.1 ht))⟩

theorem evolveStep_of_nmNeutral {f : SimulationEngine → SimulationEngine}
    (hf : NMNeutral f) (e : SimulationEngine) : EvolveStep e (f e) := by
  obtain ⟨h1, h2⟩ := hf e
  refine ⟨?_, ?_, ?_⟩
  · unfold MetricsEvolve
    rw [h1]
    exact forall₂_entryRel_refl _
  · intro ht
    unfold TqdOk sumQd at *
    rw [h1, h2]
    exact ht
  · intro _
    rw [h2]

theorem nmNeutral_emitEvent (ev : SimulationEvent) : NMNeutral (emitEvent ev) :=
  fun _ => ⟨rfl, rfl⟩

theorem nmNeutral_setStatus (s : SimulationStatus) : NMNeutral (setStatus s) :=
  fun _ => ⟨rfl, rfl⟩

theorem nmNeutral_bumpFailed : NMNeutral bumpFailed :=
  fun _ => ⟨rfl, rfl⟩

theorem nmNeutral_bumpSuccessful : NMNeutral bumpSuccessful :=
  fun _ => ⟨rfl, rfl⟩

theorem nmNeutral_updateLatencyMetrics (l : ℚ) : NMNeutral (updateLatencyMetrics l) :=
  fun _ => ⟨rfl, rfl⟩

theorem nmNeutral_pushRequest (r : ActiveRequest) : NMNeutral (pushRequest r) :=
  fun _ => ⟨rfl, rfl⟩

theorem nmNeutral_takeMetricsSnapshot : NMNeutral takeMetricsSnapshot :=
  fun _ => ⟨rfl, rfl⟩

theorem nmNeutral_comp {f g : SimulationEngine → SimulationEngine}
    (hf : NMNeutral f) (hg : NMNeutral g) : NMNeutral (fun e => g (f e)) := by
  intro e
  obtain ⟨a1, a2⟩ := hf e
  obtain ⟨b1, b2⟩ := hg (f e)
  exact ⟨b1.trans a1, b2.trans a2⟩

theorem nmNeutral_applyChaosEffects (rng : ℕ → ℚ) : NMNeutral (applyChaosEffects rng) := by
  intro e
  unfold applyChaosEffects
  simp only [drawRand]
  split
  · split <;> simp [emitEvent, generateEventId]
  · simp

theorem nmNeutral_startEngine : NMNeutral startEngine := by
  intro e
  unfold startEngine
  split <;> simp [emitEvent, generateEventId, setStatus, lifecycleEvent]

theorem nmNeutral_pauseEngine : NMNeutral pauseEngine := by
  intro e
  unfold pauseEngine
  split <;> simp [emitEvent, generateEventId, setStatus, lifecycleEvent]

theorem nmNeutral_resumeEngine : NMNeutral resumeEngine := by
  intro e
  unfold resumeEngine
  split <;> simp [emitEvent, generateEventId, setStatus, lifecycleEvent]

theorem nmNeutral_stopEngine : NMNeutral stopEngine := by
  intro e
  unfold stopEngine
  simp [emitEvent, generateEventId, setStatus, lifecycleEvent]

theorem nmNeutral_completeEngine : NMNeutral completeEngine := by
  intro e
  unfold completeEngine
  split
  · simp
  · obtain ⟨a1, a2⟩ := nmNeutral_stopEngine e
    simp only [emitEvent, generateEventId, setStatus, lifecycleEvent]
    exact ⟨a1, a2⟩

theorem nmNeutral_setSpeed (s : ℚ) : NMNeutral (setSpeed s) := by
  intro e
  unfold setSpeed
  by_cases h : e.state.status = SimulationStatus.running
  · simp only [if_pos h]
    obtain ⟨a1, a2⟩ := nmNeutral_pauseEngine e
    obtain ⟨b1, b2⟩ := nmNeutral_resumeEngine
      { pauseEngine e with state := { (pauseEngine e).state with speed := s } }
    exact ⟨b1.trans a1, b2.trans a2⟩
  · simp only [if_neg h]
    simp

theorem nmNeutral_generateOne (rng : ℕ → ℚ) (cn : List SystemNode) :
    NMNeutral (generateOne rng cn) := by
  intro e
  unfold generateOne
  simp only [drawRand, generateRequestId, pushRequest, emitEvent, generateEventId]
  split <;> simp

theorem nmNeutral_genLoop (rng : ℕ → ℚ) (cn : List SystemNode) :
    ∀ k : ℕ, NMNeutral (genLoop rng cn k)
  | 0 => fun _ => ⟨rfl, rfl⟩
  | Nat.succ k => by
    intro e
    obtain ⟨a1, a2⟩ := nmNeutral_generateOne rng cn e
    obtain ⟨b1, b2⟩ := nmNeutral_genLoop rng cn k (generateOne rng cn e)
    exact ⟨b1.trans a1, b2.trans a2⟩

theorem nmNeutral_generateRequests (rng : ℕ → ℚ) : NMNeutral (generateRequests rng) := by
  intro e
  unfold generateRequests
  dsimp only
  split
  · simp
  · obtain ⟨a1, a2⟩ := nmNeutral_genLoop rng _ _ (drawRand rng e).2
    simp only [drawRand] at a1 a2
    exact ⟨a1, a2⟩

theorem evolveStep_of_eq {e e' : SimulationEngine}
    (h1 : e'.state.nodeMetrics = e.state.nodeMetrics)
    (h2 : e'.state.systemMetrics.totalQueueDepth
      = e.state.systemMetrics.totalQueueDepth) : EvolveStep e e' := by
  refine ⟨?_, ?_, ?_⟩
  · unfold MetricsEvolve
    rw [h1]
    exact forall₂_entryRel_refl _
  · intro ht
    unfold TqdOk sumQd at *
    rw [h1, h2]
    exact ht
  · intro _
    rw [h2]

theorem keysOk_of_evolveStep {e e' : SimulationEngine} (h : EvolveStep e e')
    (hk : KeysOk e) : KeysOk e' := keysOk_of_evolve h.1 hk

theorem forall₂_entryRel_map (f : String × NodeMetrics → String × NodeMetrics) :
    ∀ l : List (String × NodeMetrics), (∀ q ∈ l, entryRel q (f q)) →
      List.Forall₂ entryRel l (l.map f)
  | [], _ => List.Forall₂.nil
  | q :: rest, h =>
    List.Forall₂.cons (h q (List.mem_cons_self _ _))
      (forall₂_entryRel_map f rest (fun p hp => h p (List.mem_cons_of_mem _ hp)))

theorem mapSetNM_forall {P : String × NodeMetrics → Prop}
    {m : List (String × NodeMetrics)} {k : String} {v : NodeMetrics}
    (hm : ∀ p ∈ m, P p) (hv : P (k, v)) : ∀ p ∈ mapSetNM m k v, P p := by
  intro p hp
  unfold mapSetNM at hp
  split at hp
  · obtain ⟨q, hq, hfq⟩ := List.mem_map.mp hp
    by_cases hqk : q.1 = k
    · rw [if_pos hqk] at hfq
      rw [← hfq]
      exact hv
    · rw [if_neg hqk] at hfq
      rw [← hfq]
      exact hm q hq
  · rcases List.mem_append.mp hp with h | h
    · exact hm p h
    · rw [List.mem_singleton.mp h]
      exact hv

theorem mapSetNM_keysNodup {m : List (String × NodeMetrics)} {k : String}
    {v : NodeMetrics} (h : (m.map Prod.fst).Nodup) :
    ((mapSetNM m k v).map Prod.fst).Nodup := by
  unfold mapSetNM
  split
  · rw [List.map_map]
    have : m.map (Prod.fst ∘ fun p => if p.1 = k then (k, v) else p) = m.map Prod.fst := by
      apply List.map_congr_left
      intro p _
      by_cases hp : p.1 = k
      · simp [hp]
      · simp [hp]
    rw [this]
    exact h
  · rename_i hany
    have hk : k ∉ m.map Prod.fst := by
      intro hmem
      obtain ⟨p, hp, hpk⟩ := List.mem_map.mp hmem
      exact hany (List.any_eq_true.mpr ⟨p, hp, by simp [hpk]⟩)
    simp [List.nodup_append, hk, h]

theorem initMetrics_forall (config : SimulationConfig) {P : String × NodeMetrics → Prop}
    (hP : ∀ n : SystemNode, P (n.id, initialNodeMetrics config n)) :
    ∀ (nodes : List SystemNode) (acc : List (String × NodeMetrics)),
      (∀ p ∈ acc, P p) →
      ∀ p ∈ nodes.foldl (fun a n => mapSetNM a n.id (initialNodeMetrics config n)) acc, P p
  | [], _, hacc => hacc
  | n :: rest, acc, hacc =>
    initMetrics_forall config hP rest _ (mapSetNM_forall hacc (hP n))

theorem initMetrics_keysNodup (config : SimulationConfig) :
    ∀ (nodes : List SystemNode) (acc : List (String × NodeMetrics)),
      (acc.map Prod.fst).Nodup →
      ((nodes.foldl (fun a n => mapSetNM a n.id (initialNodeMetrics config n)) acc).map
        Prod.fst).Nodup
  | [], _, hacc => hacc
  | n :: rest, acc, hacc =>
    initMetrics_keysNodup config rest _ (mapSetNM_keysNodup hacc)

theorem keysOk_mkEngine (nodes : List SystemNode) (edges : List SystemEdge)
    (config : SimulationConfig) : KeysOk (mkEngine nodes edges config) :=
  initMetrics_keysNodup config nodes [] List.nodup_nil

theorem instancesOk_mkEngine (nodes : List SystemNode) (edges : List SystemEdge)
    (config : SimulationConfig) : InstancesOk (mkEngine nodes edges config) :=
  initMetrics_forall config
    (fun n => ⟨1, le_refl 1, by omega, by simp [initialNodeMetrics]⟩)
    nodes [] (fun p hp => absurd hp (List.not_mem_nil p))

theorem qdZero_mkEngine (nodes : List SystemNode) (edges : List SystemEdge)
    (config : SimulationConfig) :
    ∀ p ∈ (mkEngine nodes edges config).state.nodeMetrics, p.2.queueDepth = 0 :=
  @initMetrics_forall config (fun p => p.2.queueDepth = 0) (fun _ => rfl) nodes []
    (fun p hp => absurd hp (List.not_mem_nil p))

theorem tqdOk_mkEngine (nodes : List SystemNode) (edges : List SystemEdge)
    (config : SimulationConfig) : TqdOk (mkEngine nodes edges config) := by
  unfold TqdOk sumQd
  have h0 : ((mkEngine nodes edges config).state.nodeMetrics.map
      (fun p => p.2.queueDepth)).sum = 0 := by
    apply List.sum_eq_zero
    intro x hx
    obtain ⟨p, hp, hpx⟩ := List.mem_map.mp hx
    rw [← hpx]
    exact qdZero_mkEngine nodes edges config p hp
  rw [h0]
  exact le_refl 0

theorem hnp_shape (rng : ℕ → ℚ) (node : SystemNode) (request : ActiveRequest)
    (e : SimulationEngine) :
    (handleNodeProcessing rng node request e).state.systemMetrics
      = e.state.systemMetrics ∧
    ((handleNodeProcessing rng node request e).state.nodeMetrics
        = e.state.nodeMetrics ∨
      ∃ m metrics : NodeMetrics,
        lookupNodeMetrics e node.id = some metrics ∧
        (handleNodeProcessing rng node request e).state.nodeMetrics
          = e.state.nodeMetrics.map (fun q => if q.1 = node.id then (q.1, m) else q) ∧
        metrics.queueDepth ≤ m.queueDepth ∧
        m.instances = metrics.instances) := by
  unfold handleNodeProcessing
  cases hlk : lookupNodeMetrics e node.id with
  | none => exact ⟨rfl, Or.inl rfl⟩
  | some metrics =>
    obtain ⟨nid, nlabel, nty⟩ := node
    cases nty <;>
      (simp only [setNodeMetrics, emitEvent, generateEventId, drawRand]
       try split
       all_goals
         refine ⟨by trivial, Or.inr ⟨_, metrics, by trivial, rfl, ?_, rfl⟩⟩
       all_goals
         first
           | exact le_refl _
           | (show metrics.queueDepth ≤ metrics.queueDepth + 1
              linarith))

theorem hnp_evolve (rng : ℕ → ℚ) (node : SystemNode) (request : ActiveRequest)
    {e : SimulationEngine} (hk : KeysOk e) :
    EvolveStep e (handleNodeProcessing rng node request e) := by
  obtain ⟨hsm, hshape⟩ := hnp_shape rng node request e
  rcases hshape with heq | ⟨m, metrics, hlk, hmap, hqd, hinst⟩
  · exact evolveStep_of_eq heq (by rw [hsm])
  · have hme : MetricsEvolve e (handleNodeProcessing rng node request e) := by
      unfold MetricsEvolve
      rw [hmap]
      apply forall₂_entryRel_map
      intro q hq
      by_cases hq1 : q.1 = node.id
      · obtain ⟨pf, hpf, hpfsnd⟩ : ∃ pf,
            e.state.nodeMetrics.find? (fun p => p.1 == node.id) = some pf ∧
              pf.2 = metrics := by
          unfold lookupNodeMetrics at hlk
          cases hfind : e.state.nodeMetrics.find? (fun p => p.1 == node.id) with
          | none =>
            rw [hfind] at hlk
            simp at hlk
          | some pf =>
            rw [hfind] at hlk
            simp at hlk
            exact ⟨pf, rfl, hlk⟩
        have hpfmem : pf ∈ e.state.nodeMetrics := List.mem_of_find?_eq_some hpf
        have hpfkey : pf.1 = node.id := by
          have := List.find?_some hpf
          simpa using this
        have hqpf : q = pf :=
          List.inj_on_of_nodup_map hk hq hpfmem (by rw [hq1, hpfkey])
        rw [if_pos hq1]
        refine ⟨rfl, ?_, ?_⟩
        · show q.2.queueDepth ≤ m.queueDepth
          rw [hqpf, hpfsnd]
          exact hqd
        · intro hio
          show InstOk m.instances
          rw [hinst]
          rw [hqpf, hpfsnd] at hio
          exact hio
      · rw [if_neg hq1]
        exact entryRel_refl q
    refine ⟨hme, ?_, ?_⟩
    · intro ht
      unfold TqdOk at *
      rw [hsm]
      calc e.state.systemMetrics.totalQueueDepth ≤ sumQd e := ht
        _ ≤ sumQd (handleNodeProcessing rng node request e) := by
            unfold sumQd
            exact sumQd_mono_of_forall₂ hme
    · intro _
      rw [hsm]

theorem cas_one_shape (p : String × NodeMetrics) (e : SimulationEngine) :
    (checkAutoScalingOne p e).state.systemMetrics.totalQueueDepth
      = e.state.systemMetrics.totalQueueDepth ∧
    ((checkAutoScalingOne p e).state.nodeMetrics = e.state.nodeMetrics ∨
      ∃ m : NodeMetrics,
        (checkAutoScalingOne p e).state.nodeMetrics
          = e.state.nodeMetrics.map (fun q => if q.1 = p.1 then (q.1, m) else q) ∧
        m.queueDepth = p.2.queueDepth ∧
        (InstOk p.2.instances → InstOk m.instances)) := by
  unfold checkAutoScalingOne
  cases getNodeById e p.1 with
  | none => exact ⟨rfl, Or.inl rfl⟩
  | some node =>
    dsimp only
    by_cases hty : node.type ≠ NodeType.service
    · rw [if_pos hty]
      exact ⟨rfl, Or.inl rfl⟩
    · rw [if_neg hty]
      try dsimp only
      by_cases hup : p.2.cpuUtilization > 0.8 ∧ p.2.instances < 10
      · rw [if_pos hup]
        try dsimp only
        by_cases hdn : p.2.cpuUtilization * 0.8 < 0.3 ∧ p.2.instances + 1 > 1
        · rw [if_pos hdn]
          refine ⟨rfl, Or.inr ⟨_, rfl, rfl, ?_⟩⟩
          rintro ⟨n, h1, h10, heq⟩
          exact ⟨n, h1, h10, by rw [heq]; push_cast; ring⟩
        · rw [if_neg hdn]
          refine ⟨rfl, Or.inr ⟨_, rfl, rfl, ?_⟩⟩
          rintro ⟨n, h1, h10, heq⟩
          have hlt : n < 10 := by
            have h2 := hup.2
            rw [heq] at h2
            exact_mod_cast h2
          exact ⟨n + 1, by omega, by omega, by rw [heq]; push_cast; ring⟩
      · rw [if_neg hup]
        try dsimp only
        by_cases hdn : p.2.cpuUtilization < 0.3 ∧ p.2.instances > 1
        · rw [if_pos hdn]
          refine ⟨rfl, Or.inr ⟨_, rfl, rfl, ?_⟩⟩
          rintro ⟨n, h1, h10, heq⟩
          have hgt : 1 < n := by
            have h2 := hdn.2
            rw [heq] at h2
            exact_mod_cast h2
          have h1n : 1 ≤ n := by omega
          refine ⟨n - 1, by omega, by omega, ?_⟩
          rw [heq, Nat.cast_sub h1n]
          norm_num
        · rw [if_neg hdn]
          refine ⟨rfl, Or.inr ⟨_, rfl, rfl, ?_⟩⟩
          exact fun h => h

theorem cas_one_mem_of_ne (p : String × NodeMetrics) (e : SimulationEngine)
    {q : String × NodeMetrics} (hq : q ∈ (checkAutoScalingOne p e).state.nodeMetrics)
    (hne : q.1 ≠ p.1) : q ∈ e.state.nodeMetrics := by
  rcases (cas_one_shape p e).2 with heq | ⟨m, hmap, _, _⟩
  · rw [heq] at hq
    exact hq
  · rw [hmap] at hq
    obtain ⟨x, hx, hfx⟩ := List.mem_map.mp hq
    by_cases hx1 : x.1 = p.1
    · rw [if_pos hx1] at hfx
      exact absurd (by rw [← hfx]; exact hx1) hne
    · rw [if_neg hx1] at hfx
      rw [← hfx]
      exact hx

theorem cas_one_evolve (p : String × NodeMetrics) (e : SimulationEngine)
    (halign : ∀ q ∈ e.state.nodeMetrics, q.1 = p.1 → q = p) :
    EvolveStep e (checkAutoScalingOne p e) := by
  obtain ⟨htqd, hshape⟩ := cas_one_shape p e
  rcases hshape with heq | ⟨m, hmap, hqd, hinst⟩
  · exact evolveStep_of_eq heq htqd
  · have hme : MetricsEvolve e (checkAutoScalingOne p e) := by
      unfold MetricsEvolve
      rw [hmap]
      apply forall₂_entryRel_map
      intro q hq
      by_cases hq1 : q.1 = p.1
      · have hqp : q = p := halign q hq hq1
        rw [if_pos hq1]
        refine ⟨rfl, ?_, ?_⟩
        · show q.2.queueDepth ≤ m.queueDepth
          rw [hqd, hqp]
        · intro hio
          rw [hqp] at hio
          exact hinst hio
      · rw [if_neg hq1]
        exact entryRel_refl q
    refine ⟨hme, ?_, ?_⟩
    · intro ht
      unfold TqdOk at *
      rw [htqd]
      calc e.state.systemMetrics.totalQueueDepth ≤ sumQd e := ht
        _ ≤ sumQd (checkAutoScalingOne p e) := by
            unfold sumQd
            exact sumQd_mono_of_forall₂ hme
    · intro _
      rw [htqd]

theorem scaleLoop_evolve :
    ∀ (l : List (String × NodeMetrics)) (e : SimulationEngine),
      (l.map Prod.fst).Nodup →
      (∀ p ∈ l, ∀ q ∈ e.state.nodeMetrics, q.1 = p.1 → q = p) →
      EvolveStep e (scaleLoop l e)
  | [], e, _, _ => evolveStep_refl e
  | p :: rest, e, hnd, halign => by
    have hstep : EvolveStep e (checkAutoScalingOne p e) :=
      cas_one_evolve p e (halign p (List.mem_cons_self _ _))
    have hnotin : p.1 ∉ rest.map Prod.fst ∧ (rest.map Prod.fst).Nodup :=
      List.nodup_cons.mp (by simpa using hnd)
    have halign' : ∀ p' ∈ rest, ∀ q ∈ (checkAutoScalingOne p e).state.nodeMetrics,
        q.1 = p'.1 → q = p' := by
      intro p' hp' q hq hkey
      have hne : q.1 ≠ p.1 := by
        rw [hkey]
        intro hc
        apply hnotin.1
        rw [← hc]
        exact List.mem_map_of_mem Prod.fst hp'
      exact halign p' (List.mem_cons_of_mem _ hp') q (cas_one_mem_of_ne p e hq hne) hkey
    exact evolveStep_trans hstep (scaleLoop_evolve rest _ hnotin.2 halign')

theorem checkAutoScaling_evolve {e : SimulationEngine} (hk : KeysOk e) :
    EvolveStep e (checkAutoScaling e) := by
  unfold checkAutoScaling
  apply scaleLoop_evolve _ _ hk
  intro p hp q hq hkey
  exact List.inj_on_of_nodup_map hk hq hp hkey

theorem evolveStep_emit_of (ev : SimulationEvent) {e e' : SimulationEngine}
    (h : EvolveStep e e') : EvolveStep e (emitEvent ev e') :=
  evolveStep_trans h (evolveStep_of_eq rfl rfl)

theorem evolveStep_updLat_of (l : ℚ) {e e' : SimulationEngine}
    (h : EvolveStep e e') : EvolveStep e (updateLatencyMetrics l e') :=
  evolveStep_trans h (evolveStep_of_eq rfl rfl)

theorem evolveStep_bumpSucc_of {e e' : SimulationEngine}
    (h : EvolveStep e e') : EvolveStep e (bumpSuccessful e') :=
  evolveStep_trans h (evolveStep_of_eq rfl rfl)

theorem evolveStep_hnp_of (rng : ℕ → ℚ) (node : SystemNode) (request : ActiveRequest)
    {e e' : SimulationEngine} (h : EvolveStep e e') (hk : KeysOk e') :
    EvolveStep e (handleNodeProcessing rng node request e') :=
  evolveStep_trans h (hnp_evolve rng node request hk)

theorem updateMetrics_evolve (e : SimulationEngine) :
    EvolveStep e (updateMetrics e) ∧ TqdOk (updateMetrics e) := by
  have hme : MetricsEvolve e (updateMetrics e) := by
    unfold MetricsEvolve updateMetrics
    dsimp only
    apply forall₂_entryRel_map
    intro q _
    by_cases hq1 : q.2.throughput > 0
    · rw [if_pos hq1]
      exact ⟨rfl, le_refl _, fun h => h⟩
    · rw [if_neg hq1]
      exact entryRel_refl q
  have htqd : (updateMetrics e).state.systemMetrics.totalQueueDepth = sumQd e := rfl
  have hsum : sumQd (updateMetrics e) = sumQd e := by
    unfold sumQd updateMetrics
    dsimp only
    rw [List.map_map]
    refine congrArg List.sum (List.map_congr_left ?_)
    intro q _
    by_cases hq1 : q.2.throughput > 0
    · simp [hq1]
    · simp [hq1]
  have hT : TqdOk (updateMetrics e) := by
    unfold TqdOk
    rw [htqd, hsum]
  exact ⟨⟨hme, fun _ => hT, fun ht => by rw [htqd]; exact ht⟩, hT⟩

theorem processOne_evolve (rng : ℕ → ℚ) (dt : ℚ) {e : SimulationEngine}
    (hk : KeysOk e) (r : ActiveRequest) :
    EvolveStep e (processOne rng dt e r).engine := by
  unfold processOne
  by_cases hterm : r.status = RequestStatus.completed ∨ r.status = RequestStatus.failed
  · rw [if_pos hterm]
    exact evolveStep_refl e
  · rw [if_neg hterm]
    cases getNodeById e r.targetNodeId with
    | none => exact evolveStep_of_eq rfl rfl
    | some tn =>
      dsimp only
      split
      · split
        · exact evolveStep_of_eq rfl rfl
        · split
          · exact evolveStep_emit_of _
              (evolveStep_hnp_of rng tn _ (evolveStep_of_eq rfl rfl) hk)
          · exact evolveStep_emit_of _ (evolveStep_updLat_of _ (evolveStep_bumpSucc_of
              (evolveStep_hnp_of rng tn _ (evolveStep_of_eq rfl rfl) hk)))
      · exact evolveStep_refl e

theorem processLoop_evolve (rng : ℕ → ℚ) (dt : ℚ) :
    ∀ (l : List ActiveRequest) (e : SimulationEngine) (pr : List ActiveRequest)
      (ci : List String), KeysOk e → EvolveStep e (processLoop rng dt l e pr ci).1
  | [], e, _, _, _ => evolveStep_refl e
  | r :: rest, e, pr, ci, hk => by
    have h1 := processOne_evolve rng dt hk r
    have hk1 : KeysOk (processOne rng dt e r).engine := keysOk_of_evolveStep h1 hk
    exact evolveStep_trans h1 (processLoop_evolve rng dt rest _ _ _ hk1)

theorem processRequests_evolve (rng : ℕ → ℚ) (dt : ℚ) {e : SimulationEngine}
    (hk : KeysOk e) : EvolveStep e (processRequests rng dt e) := by
  unfold processRequests
  dsimp only
  exact evolveStep_trans (processLoop_evolve rng dt e.state.activeRequests e [] [] hk)
    (evolveStep_of_eq rfl rfl)

theorem tick_evolve (rng : ℕ → ℚ) {e : SimulationEngine} (hk : KeysOk e) :
    EvolveStep e (tick rng e) := by
  unfold tick
  dsimp only
  have h1 : EvolveStep e { e with state :=
      { e.state with currentTime := e.state.currentTime + e.state.config.tickRate } } :=
    evolveStep_of_eq rfl rfl
  have h2 := evolveStep_trans h1
    (evolveStep_of_nmNeutral (nmNeutral_generateRequests rng) _)
  have hk2 := keysOk_of_evolveStep h2 hk
  have h3 := evolveStep_trans h2 (processRequests_evolve rng e.state.config.tickRate hk2)
  have h4 := evolveStep_trans h3 (updateMetrics_evolve _).1
  have hk4 := keysOk_of_evolveStep h4 hk
  generalize hE : updateMetrics (processRequests rng e.state.config.tickRate
      (generateRequests rng { e with state :=
        { e.state with currentTime := e.state.currentTime + e.state.config.tickRate } })) = e4
    at h4 hk4 ⊢
  have h5 : EvolveStep e (if e4.state.config.autoScaling = true then checkAutoScaling e4 else e4) := by
    split
    · exact evolveStep_trans h4 (checkAutoScaling_evolve hk4)
    · exact h4
  generalize hE5 : (if e4.state.config.autoScaling = true then checkAutoScaling e4 else e4) = e5
    at h5 ⊢
  have h6 : EvolveStep e (if e5.state.config.chaosMode = true then applyChaosEffects rng e5 else e5) := by
    split
    · exact evolveStep_trans h5 (evolveStep_of_nmNeutral (nmNeutral_applyChaosEffects rng) e5)
    · exact h5
  generalize hE6 : (if e5.state.config.chaosMode = true then applyChaosEffects rng e5 else e5) = e6
    at h6 ⊢
  split
  · exact evolveStep_trans h6 (evolveStep_of_nmNeutral nmNeutral_takeMetricsSnapshot e6)
  · exact h6

theorem estep_evolve (rng : ℕ → ℚ) {e e' : SimulationEngine}
    (hs : EStep rng e e') (hk : KeysOk e) : EvolveStep e e' := by
  cases hs with
  | loop _ =>
    unfold loopStep
    split
    · exact evolveStep_refl e
    · have h1 := tick_evolve rng hk
      by_cases hdone : (tick rng e).state.currentTime ≥ (tick rng e).state.config.duration * 1000
      · rw [if_pos hdone]
        exact evolveStep_trans h1 (evolveStep_of_nmNeutral nmNeutral_completeEngine _)
      · rw [if_neg hdone]
        exact h1
  | start _ => exact evolveStep_of_nmNeutral nmNeutral_startEngine e
  | pause _ => exact evolveStep_of_nmNeutral nmNeutral_pauseEngine e
  | resume _ => exact evolveStep_of_nmNeutral nmNeutral_resumeEngine e
  | stop _ => exact evolveStep_of_nmNeutral nmNeutral_stopEngine e
  | speed s _ => exact evolveStep_of_nmNeutral (nmNeutral_setSpeed s) e

theorem rtg_evolve (rng : ℕ → ℚ) {e e' : SimulationEngine}
    (h : Relation.ReflTransGen (EStep rng) e e') (hk : KeysOk e) : EvolveStep e e' := by
  induction h with
  | refl => exact evolveStep_refl e
  | tail _ hstep ih =>
    exact evolveStep_trans ih (estep_evolve rng hstep (keysOk_of_evolveStep ih hk))

theorem reachable_evolve (rng : ℕ → ℚ) (nodes : List SystemNode)
    (edges : List SystemEdge) (config : SimulationConfig) {e : SimulationEngine}
    (h : Reachable rng nodes edges config e) :
    EvolveStep (mkEngine nodes edges config) e ∧ KeysOk e ∧ TqdOk e ∧ InstancesOk e := by
  have hstep : EvolveStep (mkEngine nodes edges config) e :=
    rtg_evolve rng h (keysOk_mkEngine nodes edges config)
  refine ⟨hstep, keysOk_of_evolveStep hstep (keysOk_mkEngine nodes edges config),
    hstep.2.1 (tqdOk_mkEngine nodes edges config), ?_⟩
  exact instancesOk_of_forall₂ hstep.1 (instancesOk_mkEngine nodes edges config)

/-- C5: in every reachable engine state (any run, any graph, any
configuration, auto-scaling or not) every node-metrics entry carries an
instance count between 1 and 10: the scale-up branch requires
`instances < 10` before adding one and the scale-down branch requires
`instances > 1` before removing one, so oscillation can never leave the
interval. -/
theorem C5_instances_bounded (rng : ℕ → ℚ) (nodes : List SystemNode)
    (edges : List SystemEdge) (config : SimulationConfig) (e : SimulationEngine)
    (h : Reachable rng nodes edges config e) :
    ∀ p ∈ e.state.nodeMetrics, 1 ≤ p.2.instances ∧ p.2.instances ≤ 10 := by
  intro p hp
  obtain ⟨n, h1, h10, heq⟩ := (reachable_evolve rng nodes edges config h).2.2.2 p hp
  rw [heq]
  constructor
  · exact_mod_cast h1
  · exact_mod_cast h10

/-- Witness for C5 at the state reached after the first tick of the
CLIENT→DATABASE run. -/
theorem C5_witness :
    Reachable rngZero [nodeC, nodeD] [{ source := "C", target := "D" }] cfgUnit exClientDb ∧
    (∀ p ∈ exClientDb.state.nodeMetrics, 1 ≤ p.2.instances ∧ p.2.instances ≤ 10) :=
  ⟨reachable_runSteps rngZero [nodeC, nodeD] [{ source := "C", target := "D" }] cfgUnit 1,
   C5_instances_bounded rngZero [nodeC, nodeD] [{ source := "C", target := "D" }] cfgUnit
     exClientDb
     (reachable_runSteps rngZero [nodeC, nodeD] [{ source := "C", target := "D" }] cfgUnit 1)⟩

/-- C9: queue depths only grow — along any continuation of a run from a
reachable state, every node's queue depth is non-decreasing and the
reported `totalQueueDepth` never decreases; and a traversal of a QUEUE
node whose depth already exceeds 80% of `messageQueueDepth` appends a
`QUEUE_ENQUEUE` event followed by a `BACKLOG_WARNING` event, so once past
the threshold every further traversal warns. -/
theorem C9_queueDepth_monotone (rng : ℕ → ℚ) (nodes : List SystemNode)
    (edges : List SystemEdge) (config : SimulationConfig) :
    (∀ e e' : SimulationEngine, Reachable rng nodes edges config e →
      Relation.ReflTransGen (EStep rng) e e' →
      (∀ k : String, queueDepthOf e k ≤ queueDepthOf e' k) ∧
      e.state.systemMetrics.totalQueueDepth ≤ e'.state.systemMetrics.totalQueueDepth) ∧
    (∀ (node : SystemNode) (request : ActiveRequest) (e : SimulationEngine)
        (metrics : NodeMetrics),
      node.type = NodeType.queue →
      lookupNodeMetrics e node.id = some metrics →
      metrics.queueDepth > e.state.config.messageQueueDepth * 0.8 →
      ∃ ev1 ev2 : SimulationEvent,
        (handleNodeProcessing rng node request e).state.events
          = e.state.events ++ [ev1, ev2] ∧
        ev1.type = SimulationEventType.queue_enqueue ∧
        ev2.type = SimulationEventType.backlog_warning) := by
  constructor
  · intro e e' hr hsteps
    obtain ⟨_, hkeys, htqd, _⟩ := reachable_evolve rng nodes edges config hr
    have hev := rtg_evolve rng hsteps hkeys
    exact ⟨fun k => queueDepthOf_mono hev.1 k, hev.2.2 htqd⟩
  · intro node request e metrics hty hlk hdepth
    unfold handleNodeProcessing
    rw [hlk, hty]
    simp only [emitEvent, generateEventId, setNodeMetrics]
    have hcond : metrics.queueDepth + 1 > e.state.config.messageQueueDepth * 0.8 := by
      linarith
    rw [if_pos hcond]
    dsimp only
    refine ⟨{ id := "evt-" ++ toString e.eventIdCounter
              type := SimulationEventType.queue_enqueue
              timestamp := e.state.currentTime
              nodeId := some node.id
              sourcePath := none
              targetPath := none
              message := "Message enqueued (depth: " ++ toString (metrics.queueDepth + 1) ++ ")"
              severity := "info" },
      { id := "evt-" ++ toString (e.eventIdCounter + 1)
        type := SimulationEventType.backlog_warning
        timestamp := e.state.currentTime
        nodeId := some node.id
        sourcePath := none
        targetPath := none
        message := "Queue backlog warning: " ++ toString (metrics.queueDepth + 1) ++ "/"
          ++ toString e.state.config.messageQueueDepth
        severity := "warning" }, ?_, rfl, rfl⟩
    rw [List.append_assoc]
    rfl

/-- Witness for C9: one control step and one tick over the singleton
client graph for the monotonicity part, and the 90%-full queue engine for
the warning part. -/
theorem C9_witness :
    (queueDepthOf exRunning "C" ≤ queueDepthOf (loopStep rngZero exRunning) "C" ∧
      exRunning.state.systemMetrics.totalQueueDepth
        ≤ (loopStep rngZero exRunning).state.systemMetrics.totalQueueDepth) ∧
    (∃ ev1 ev2 : SimulationEvent,
      (handleNodeProcessing rngZero nodeQ reqQ exQueueFull).state.events
        = exQueueFull.state.events ++ [ev1, ev2] ∧
      ev1.type = SimulationEventType.queue_enqueue ∧
      ev2.type = SimulationEventType.backlog_warning) := by
  constructor
  · have h := (C9_queueDepth_monotone rngZero [nodeC] [] cfgUnit).1 exRunning
      (loopStep rngZero exRunning)
      (Relation.ReflTransGen.single (EStep.start _))
      (Relation.ReflTransGen.single (EStep.loop _))
    exact ⟨h.1 "C", h.2⟩
  · exact (C9_queueDepth_monotone rngZero [nodeQ] [] cfgUnit).2 nodeQ reqQ exQueueFull
      mQFull rfl rfl (by decide)

/-- C3 (amended): when processing visits a non-terminal request whose
target node id is not in the graph, the request is marked failed and
`failedRequests` is incremented, but — contrary to the spec — no failure
event is emitted (the event log is unchanged); the surrounding loop
simply moves on to the remaining requests (the fold is total, so no
failure can abort the tick). -/
theorem C3_missing_target_failure (rng : ℕ → ℚ) (dt : ℚ) (e : SimulationEngine)
    (r : ActiveRequest) (hnt : nonterminal r)
    (hmiss : getNodeById e r.targetNodeId = none) :
    (processOne rng dt e r).request.status = RequestStatus.failed ∧
    (processOne rng dt e r).engine.state.systemMetrics.failedRequests
      = e.state.systemMetrics.failedRequests + 1 ∧
    (processOne rng dt e r).engine.state.events = e.state.events ∧
    (∀ (rest : List ActiveRequest) (pr : List ActiveRequest) (ci : List String),
      processLoop rng dt (r :: rest) e pr ci
        = processLoop rng dt rest (processOne rng dt e r).engine
            (pr ++ [(processOne rng dt e r).request]) ci) := by
  have hterm : ¬ (r.status = RequestStatus.completed ∨ r.status = RequestStatus.failed) :=
    (nonterminal_iff r).mp hnt
  have hbranch : processOne rng dt e r =
      { engine := bumpFailed e
        request := { r with status := RequestStatus.failed }
        terminalAtEntry := false } := by
    unfold processOne
    rw [if_neg hterm, hmiss]
  refine ⟨by rw [hbranch], by rw [hbranch]; rfl, by rw [hbranch]; rfl, ?_⟩
  intro rest pr ci
  conv_lhs => rw [processLoop]
  rw [hbranch]
  rfl

/-- Witness for C3: the pending request aimed at the absent node `ghost`
processed on the freshly constructed engine. -/
theorem C3_witness :
    nonterminal reqGhost ∧
    getNodeById exIdle reqGhost.targetNodeId = none ∧
    ((processOne rngZero 100 exIdle reqGhost).request.status = RequestStatus.failed ∧
     (processOne rngZero 100 exIdle reqGhost).engine.state.systemMetrics.failedRequests
       = exIdle.state.systemMetrics.failedRequests + 1 ∧
     (processOne rngZero 100 exIdle reqGhost).engine.state.events = exIdle.state.events ∧
     (∀ (rest : List ActiveRequest) (pr : List ActiveRequest) (ci : List String),
       processLoop rngZero 100 (reqGhost :: rest) exIdle pr ci
         = processLoop rngZero 100 rest (processOne rngZero 100 exIdle reqGhost).engine
             (pr ++ [(processOne rngZero 100 exIdle reqGhost).request]) ci)) :=
  ⟨by decide, rfl, C3_missing_target_failure rngZero 100 exIdle reqGhost (by decide) rfl⟩

theorem graphNeutral_emitEvent (ev : SimulationEvent) : GraphNeutral (emitEvent ev) :=
  fun _ => ⟨rfl, rfl, rfl⟩

theorem graphNeutral_setStatus (s : SimulationStatus) : GraphNeutral (setStatus s) :=
  fun _ => ⟨rfl, rfl, rfl⟩

theorem graphNeutral_updateMetrics : GraphNeutral updateMetrics :=
  fun _ => ⟨rfl, rfl, rfl⟩

theorem graphNeutral_takeMetricsSnapshot : GraphNeutral takeMetricsSnapshot :=
  fun _ => ⟨rfl, rfl, rfl⟩

theorem graphNeutral_applyChaosEffects (rng : ℕ → ℚ) :
    GraphNeutral (applyChaosEffects rng) := by
  intro e
  unfold applyChaosEffects
  simp only [drawRand]
  split
  · split <;> simp [emitEvent, generateEventId]
  · simp

theorem graphNeutral_startEngine : GraphNeutral startEngine := by
  intro e
  unfold startEngine
  split <;> simp [emitEvent, generateEventId, setStatus, lifecycleEvent]

theorem graphNeutral_pauseEngine : GraphNeutral pauseEngine := by
  intro e
  unfold pauseEngine
  split <;> simp [emitEvent, generateEventId, setStatus, lifecycleEvent]

theorem graphNeutral_resumeEngine : GraphNeutral resumeEngine := by
  intro e
  unfold resumeEngine
  split <;> simp [emitEvent, generateEventId, setStatus, lifecycleEvent]

theorem graphNeutral_stopEngine : GraphNeutral stopEngine := by
  intro e
  unfold stopEngine
  simp [emitEvent, generateEventId, setStatus, lifecycleEvent]

theorem graphNeutral_completeEngine : GraphNeutral completeEngine := by
  intro e
  unfold completeEngine
  split
  · simp
  · obtain ⟨a1, a2, a3⟩ := graphNeutral_stopEngine e
    simp only [emitEvent, generateEventId, setStatus, lifecycleEvent]
    exact ⟨a1, a2, a3⟩

theorem graphNeutral_setSpeed (s : ℚ) : GraphNeutral (setSpeed s) := by
  intro e
  unfold setSpeed
  by_cases h : e.state.status = SimulationStatus.running
  · simp only [if_pos h]
    obtain ⟨a1, a2, a3⟩ := graphNeutral_pauseEngine e
    obtain ⟨b1, b2, b3⟩ := graphNeutral_resumeEngine
      { pauseEngine e with state := { (pauseEngine e).state with speed := s } }
    exact ⟨b1.trans a1, b2.trans a2, b3.trans a3⟩
  · simp only [if_neg h]
    simp

theorem generateRequests_zero (rng : ℕ → ℚ) (hrng : ValidRng rng) (e : SimulationEngine)
    (h0 : e.state.config.requestsPerSecond = 0) :
    generateRequests rng e = e ∨
      generateRequests rng e = { e with randIdx := e.randIdx + 1 } := by
  unfold generateRequests
  dsimp only
  split
  · exact Or.inl rfl
  · right
    simp only [drawRand]
    have hexp : e.state.config.requestsPerSecond * e.state.config.tickRate / 1000
        + rng e.randIdx = rng e.randIdx := by
      rw [h0]
      ring
    rw [hexp]
    have hfl : ⌊rng e.randIdx⌋ = 0 :=
      Int.floor_eq_zero_iff.mpr (Set.mem_Ico.mpr ⟨(hrng e.randIdx).1, (hrng e.randIdx).2⟩)
    rw [hfl]
    rfl

theorem processRequests_nilActive (rng : ℕ → ℚ) (dt : ℚ) {e : SimulationEngine}
    (ha : e.state.activeRequests = []) :
    processRequests rng dt e = { e with state := { e.state with activeRequests := [] } } := by
  unfold processRequests
  rw [ha]
  rfl

theorem updateMetrics_nm_fixed (e : SimulationEngine)
    (h : ∀ p ∈ e.state.nodeMetrics, ¬ (p.2.throughput > 0)) :
    (updateMetrics e).state.nodeMetrics = e.state.nodeMetrics := by
  unfold updateMetrics
  dsimp only
  have h1 : ∀ q ∈ e.state.nodeMetrics,
      (fun p => if p.2.throughput > 0 then
        (p.1, { p.2 with successRate := 1 - p.2.errorRate }) else p) q = id q := by
    intro q hq
    dsimp only
    rw [if_neg (h q hq)]
    rfl
  rw [List.map_congr_left h1, List.map_id]

theorem cas_one_fixed (p : String × NodeMetrics) (e : SimulationEngine)
    (halign : ∀ q ∈ e.state.nodeMetrics, q.1 = p.1 → q = p)
    (hcpu : p.2.cpuUtilization ≤ 0.8) (hinst : p.2.instances ≤ 1) :
    checkAutoScalingOne p e = e := by
  unfold checkAutoScalingOne
  cases getNodeById e p.1 with
  | none => rfl
  | some node =>
    dsimp only
    by_cases hty : node.type ≠ NodeType.service
    · rw [if_pos hty]
    · rw [if_neg hty]
      try dsimp only
      rw [if_neg (show ¬ (p.2.cpuUtilization > 0.8 ∧ p.2.instances < 10) from
        fun hc => absurd hc.1 (not_lt.mpr hcpu))]
      try dsimp only
      rw [if_neg (show ¬ (p.2.cpuUtilization < 0.3 ∧ p.2.instances > 1) from
        fun hc => absurd hc.2 (not_lt.mpr hinst))]
      have hid : e.state.nodeMetrics.map
          (fun q => if q.1 = p.1 then (q.1, p.2) else q) = e.state.nodeMetrics := by
        have h1 : ∀ q ∈ e.state.nodeMetrics,
            (fun q => if q.1 = p.1 then (q.1, p.2) else q) q = id q := by
          intro q hq
          dsimp only
          by_cases hq1 : q.1 = p.1
          · rw [if_pos hq1, halign q hq hq1]
            rfl
          · rw [if_neg hq1]
            rfl
        rw [List.map_congr_left h1, List.map_id]
      show setNodeMetrics e p.1 p.2 = e
      unfold setNodeMetrics
      rw [hid]

theorem scaleLoop_fixed :
    ∀ (l : List (String × NodeMetrics)) (e : SimulationEngine),
      (l.map Prod.fst).Nodup →
      (∀ p ∈ l, ∀ q ∈ e.state.nodeMetrics, q.1 = p.1 → q = p) →
      (∀ p ∈ l, p.2.cpuUtilization ≤ 0.8 ∧ p.2.instances ≤ 1) →
      scaleLoop l e = e
  | [], _, _, _, _ => rfl
  | p :: rest, e, hnd, halign, hP => by
    have hfix : checkAutoScalingOne p e = e :=
      cas_one_fixed p e (halign p (List.mem_cons_self _ _))
        (hP p (List.mem_cons_self _ _)).1 (hP p (List.mem_cons_self _ _)).2
    show scaleLoop rest (checkAutoScalingOne p e) = e
    rw [hfix]
    exact scaleLoop_fixed rest e ((List.nodup_cons.mp (by simpa using hnd)).2)
      (fun p' hp' => halign p' (List.mem_cons_of_mem _ hp'))
      (fun p' hp' => hP p' (List.mem_cons_of_mem _ hp'))

theorem checkAutoScaling_fixed {e : SimulationEngine} (hk : KeysOk e)
    (hP : ∀ p ∈ e.state.nodeMetrics, p.2.cpuUtilization ≤ 0.8 ∧ p.2.instances ≤ 1) :
    checkAutoScaling e = e := by
  unfold checkAutoScaling
  exact scaleLoop_fixed e.state.nodeMetrics e hk
    (fun p hp q hq hkey => List.inj_on_of_nodup_map hk hq hp hkey) hP

theorem initQuiet (nodes : List SystemNode) (config : SimulationConfig) :
    ∀ p ∈ (initializeState nodes config).nodeMetrics,
      p.2.cpuUtilization = 0 ∧ p.2.queueDepth = 0 ∧ p.2.errorRate = 0 ∧
      p.2.throughput = 0 ∧ p.2.instances = 1 :=
  @initMetrics_forall config
    (fun p => p.2.cpuUtilization = 0 ∧ p.2.queueDepth = 0 ∧ p.2.errorRate = 0 ∧
      p.2.throughput = 0 ∧ p.2.instances = 1)
    (fun _ => ⟨rfl, rfl, rfl, rfl, rfl⟩) nodes []
    (fun p hp => absurd hp (List.not_mem_nil p))

theorem zeroLoad_of_neutral {f : SimulationEngine → SimulationEngine}
    (hg : GraphNeutral f) (hr : ReqNeutral f) (hn : NMNeutral f)
    {nodes : List SystemNode} {edges : List SystemEdge} {config : SimulationConfig}
    {e : SimulationEngine} (hz : ZeroLoad nodes edges config e) :
    ZeroLoad nodes edges config (f e) := by
  obtain ⟨g1, g2, g3⟩ := hg e
  obtain ⟨_, _, r3, r4, _⟩ := hr e
  obtain ⟨n1, _⟩ := hn e
  exact ⟨g1.trans hz.1, g2.trans hz.2.1, g3.trans hz.2.2.1, r4.trans hz.2.2.2.1,
    r3.trans hz.2.2.2.2.1, n1.trans hz.2.2.2.2.2⟩

theorem tick_zeroLoad (rng : ℕ → ℚ) (hrng : ValidRng rng) {nodes : List SystemNode}
    {edges : List SystemEdge} {config : SimulationConfig} {e : SimulationEngine}
    (h0 : config.requestsPerSecond = 0) (hz : ZeroLoad nodes edges config e) :
    ZeroLoad nodes edges config (tick rng e) := by
  unfold tick
  dsimp only
  have hz1 : ZeroLoad nodes edges config { e with state :=
      { e.state with currentTime := e.state.currentTime + e.state.config.tickRate } } := hz
  have h0' : e.state.config.requestsPerSecond = 0 := by
    rw [hz.2.2.1]
    exact h0
  have hz2 : ZeroLoad nodes edges config (generateRequests rng { e with state :=
      { e.state with currentTime := e.state.currentTime + e.state.config.tickRate } }) := by
    rcases generateRequests_zero rng hrng { e with state :=
        { e.state with currentTime := e.state.currentTime + e.state.config.tickRate } } h0'
      with hgen | hgen <;> rw [hgen] <;> exact hz1
  have hz3 : ZeroLoad nodes edges config (processRequests rng e.state.config.tickRate
      (generateRequests rng { e with state :=
        { e.state with currentTime := e.state.currentTime + e.state.config.tickRate } })) := by
    rw [processRequests_nilActive rng _ hz2.2.2.2.1]
    exact ⟨hz2.1, hz2.2.1, hz2.2.2.1, rfl, hz2.2.2.2.2.1, hz2.2.2.2.2.2⟩
  have hthr : ∀ p ∈ (processRequests rng e.state.config.tickRate
      (generateRequests rng { e with state :=
        { e.state with currentTime := e.state.currentTime + e.state.config.tickRate } })).state.nodeMetrics,
      ¬ (p.2.throughput > 0) := by
    rw [hz3.2.2.2.2.2]
    intro p hp
    rw [(initQuiet nodes config p hp).2.2.2.1]
    exact lt_irrefl 0
  have hz4 : ZeroLoad nodes edges config (updateMetrics (processRequests rng
      e.state.config.tickRate (generateRequests rng { e with state :=
        { e.state with currentTime := e.state.currentTime + e.state.config.tickRate } }))) := by
    refine ⟨hz3.1, hz3.2.1, hz3.2.2.1, ?_, ?_, ?_⟩
    · exact ((reqNeutral_updateMetrics _).2.2.2.1).trans hz3.2.2.2.1
    · exact ((reqNeutral_updateMetrics _).2.2.1).trans hz3.2.2.2.2.1
    · exact (updateMetrics_nm_fixed _ hthr).trans hz3.2.2.2.2.2
  generalize hE : updateMetrics (processRequests rng e.state.config.tickRate
      (generateRequests rng { e with state :=
        { e.state with currentTime := e.state.currentTime + e.state.config.tickRate } })) = e4
    at hz4 ⊢
  have hz5 : ZeroLoad nodes edges config
      (if e4.state.config.autoScaling = true then checkAutoScaling e4 else e4) := by
    split
    · have hfix : checkAutoScaling e4 = e4 := by
        apply checkAutoScaling_fixed
        · unfold KeysOk
          rw [hz4.2.2.2.2.2]
          exact keysOk_mkEngine nodes edges config
        · rw [hz4.2.2.2.2.2]
          intro p hp
          obtain ⟨h1, _, _, _, h5⟩ := initQuiet nodes config p hp
          constructor
          · rw [h1]
            norm_num
          · rw [h5]
      rw [hfix]
      exact hz4
    · exact hz4
  generalize hE5 : (if e4.state.config.autoScaling = true then checkAutoScaling e4 else e4) = e5
    at hz5 ⊢
  have hz6 : ZeroLoad nodes edges config
      (if e5.state.config.chaosMode = true then applyChaosEffects rng e5 else e5) := by
    split
    · exact zeroLoad_of_neutral (graphNeutral_applyChaosEffects rng)
        (reqNeutral_applyChaosEffects rng) (nmNeutral_applyChaosEffects rng) hz5
    · exact hz5
  generalize hE6 : (if e5.state.config.chaosMode = true then applyChaosEffects rng e5 else e5) = e6
    at hz6 ⊢
  split
  · exact zeroLoad_of_neutral graphNeutral_takeMetricsSnapshot
      reqNeutral_takeMetricsSnapshot nmNeutral_takeMetricsSnapshot hz6
  · exact hz6

theorem estep_zeroLoad (rng : ℕ → ℚ) (hrng : ValidRng rng) {nodes : List SystemNode}
    {edges : List SystemEdge} {config : SimulationConfig} {e e' : SimulationEngine}
    (h0 : config.requestsPerSecond = 0) (hs : EStep rng e e')
    (hz : ZeroLoad nodes edges config e) : ZeroLoad nodes edges config e' := by
  cases hs with
  | loop _ =>
    unfold loopStep
    split
    · exact hz
    · have h1 := tick_zeroLoad rng hrng h0 hz
      by_cases hdone : (tick rng e).state.currentTime
          ≥ (tick rng e).state.config.duration * 1000
      · rw [if_pos hdone]
        exact zeroLoad_of_neutral graphNeutral_completeEngine reqNeutral_completeEngine
          nmNeutral_completeEngine h1
      · rw [if_neg hdone]
        exact h1
  | start _ =>
    exact zeroLoad_of_neutral graphNeutral_startEngine reqNeutral_startEngine
      nmNeutral_startEngine hz
  | pause _ =>
    exact zeroLoad_of_neutral graphNeutral_pauseEngine reqNeutral_pauseEngine
      nmNeutral_pauseEngine hz
  | resume _ =>
    exact zeroLoad_of_neutral graphNeutral_resumeEngine reqNeutral_resumeEngine
      nmNeutral_resumeEngine hz
  | stop _ =>
    exact zeroLoad_of_neutral graphNeutral_stopEngine reqNeutral_stopEngine
      nmNeutral_stopEngine hz
  | speed s _ =>
    exact zeroLoad_of_neutral (graphNeutral_setSpeed s) (reqNeutral_setSpeed s)
      (nmNeutral_setSpeed s) hz

theorem reachable_zeroLoad (rng : ℕ → ℚ) (hrng : ValidRng rng) (nodes : List SystemNode)
    (edges : List SystemEdge) (config : SimulationConfig)
    (h0 : config.requestsPerSecond = 0) {e : SimulationEngine}
    (h : Reachable rng nodes edges config e) : ZeroLoad nodes edges config e := by
  unfold Reachable at h
  induction h with
  | refl => exact ⟨rfl, rfl, rfl, rfl, rfl, rfl⟩
  | tail _ hstep ih => exact estep_zeroLoad rng hrng h0 hstep ih

theorem bottleneckFor_quiet (e : SimulationEngine) (p : String × NodeMetrics)
    (hcpu : p.2.cpuUtilization = 0) (hqd : p.2.queueDepth = 0) (her : p.2.errorRate = 0)
    (hmqd : 0 ≤ e.state.config.messageQueueDepth) :
    bottleneckFor e p = none := by
  unfold bottleneckFor
  cases getNodeById e p.1 with
  | none => rfl
  | some node =>
    dsimp only
    rw [hcpu, hqd, her]
    rw [if_neg (show ¬ ((0 : ℚ) > 0.9) by norm_num),
        if_neg (show ¬ ((0 : ℚ) > 0.7) by norm_num),
        if_neg (show ¬ ((0 : ℚ) > e.state.config.messageQueueDepth * 0.8) from
          not_lt.mpr (mul_nonneg hmqd (by norm_num))),
        if_neg (show ¬ ((0 : ℚ) > 0.1) by norm_num)]
    rfl

/-- C7: with `requestsPerSecond = 0` (and a `Math.random` oracle ranging
in `[0,1)`, so `Math.floor(0 + random())` is always `0`), on any graph and
any configuration with nonnegative `messageQueueDepth`, every reachable
state has `totalRequests = 0` and an empty bottleneck list; the
recommendations, however, are not only the positive banner — the cache
and load-balancer suggestions are appended whenever the graph lacks such
nodes. -/
theorem C7_zero_rps (rng : ℕ → ℚ) (hrng : ValidRng rng) (nodes : List SystemNode)
    (edges : List SystemEdge) (config : SimulationConfig)
    (h0 : config.requestsPerSecond = 0) (hmqd : 0 ≤ config.messageQueueDepth)
    (e : SimulationEngine) (h : Reachable rng nodes edges config e) :
    e.state.systemMetrics.totalRequests = 0 ∧
    analyzeBottlenecks e = [] ∧
    (getResult e).summary.recommendations =
      "✅ System is performing well under current load" ::
        ((if nodes.any (fun n => n.type = NodeType.cache) then []
          else ["💡 Consider adding a cache layer to reduce database load"]) ++
         (if nodes.any (fun n => n.type = NodeType.loadBalancer) then []
          else ["💡 Add a load balancer to distribute traffic evenly"])) := by
  obtain ⟨z1, z2, z3, z4, z5, z6⟩ := reachable_zeroLoad rng hrng nodes edges config h0 h
  have hmqd' : 0 ≤ e.state.config.messageQueueDepth := by
    rw [z3]
    exact hmqd
  have hb : analyzeBottlenecks e = [] := by
    unfold analyzeBottlenecks
    rw [z6]
    have hnone : ∀ p ∈ (initializeState nodes config).nodeMetrics,
        bottleneckFor e p = none := by
      intro p hp
      obtain ⟨q1, q2, q3, _, _⟩ := initQuiet nodes config p hp
      exact bottleneckFor_quiet e p q1 q2 q3 hmqd'
    rw [List.filterMap_eq_nil_iff.mpr hnone]
    rfl
  refine ⟨z5, hb, ?_⟩
  have hproj : (getResult e).summary.recommendations
      = generateRecommendations e.nodes (analyzeBottlenecks e) := rfl
  rw [hproj, hb, z1]
  unfold generateRecommendations
  dsimp only
  by_cases hc : nodes.any (fun n => decide (n.type = NodeType.cache)) = true
  · by_cases hl : nodes.any (fun n => decide (n.type = NodeType.loadBalancer)) = true
    · simp [hc, hl]
    · simp [hc, hl]
  · by_cases hl : nodes.any (fun n => decide (n.type = NodeType.loadBalancer)) = true
    · simp [hc, hl]
    · simp [hc, hl]

/-- Witness for C7 at the completed 1-tick zero-rate run over the
CLIENT→DATABASE graph (which has neither a cache nor a load balancer, so
both suggestions appear after the positive banner). -/
theorem C7_witness :
    ValidRng rngZero ∧
    ({ cfgUnit with requestsPerSecond := 0, duration := 0.1 }
      : SimulationConfig).requestsPerSecond = 0 ∧
    (0 : ℚ) ≤ ({ cfgUnit with requestsPerSecond := 0, duration := 0.1 }
      : SimulationConfig).messageQueueDepth ∧
    Reachable rngZero [nodeC, nodeD] [{ source := "C", target := "D" }]
      { cfgUnit with requestsPerSecond := 0, duration := 0.1 } exZeroRps ∧
    (exZeroRps.state.systemMetrics.totalRequests = 0 ∧
     analyzeBottlenecks exZeroRps = [] ∧
     (getResult exZeroRps).summary.recommendations =
       "✅ System is performing well under current load" ::
         ((if [nodeC, nodeD].any (fun n => n.type = NodeType.cache) then []
           else ["💡 Consider adding a cache layer to reduce database load"]) ++
          (if [nodeC, nodeD].any (fun n => n.type = NodeType.loadBalancer) then []
           else ["💡 Add a load balancer to distribute traffic evenly"]))) :=
  ⟨fun _ => ⟨le_refl 0, by norm_num [rngZero]⟩, rfl, by decide,
   reachable_runSteps rngZero [nodeC, nodeD] [{ source := "C", target := "D" }]
     { cfgUnit with requestsPerSecond := 0, duration := 0.1 } 1,
   C7_zero_rps rngZero (fun _ => ⟨le_refl 0, by norm_num [rngZero]⟩) [nodeC, nodeD]
     [{ source := "C", target := "D" }]
     { cfgUnit with requestsPerSecond := 0, duration := 0.1 } rfl (by decide) exZeroRps
     (reachable_runSteps rngZero [nodeC, nodeD] [{ source := "C", target := "D" }]
       { cfgUnit with requestsPerSecond := 0, duration := 0.1 } 1)⟩

theorem avgNeutral_emitEvent (ev : SimulationEvent) : AvgNeutral (emitEvent ev) :=
  fun _ => rfl

theorem avgNeutral_setStatus (s : SimulationStatus) : AvgNeutral (setStatus s) :=
  fun _ => rfl

theorem avgNeutral_takeMetricsSnapshot : AvgNeutral takeMetricsSnapshot :=
  fun _ => rfl

theorem avgNeutral_updateMetrics : AvgNeutral updateMetrics := by
  intro e
  unfold updateMetrics
  simp only
  split <;> rfl

theorem avgNeutral_checkAutoScalingOne (p : String × NodeMetrics) :
    AvgNeutral (checkAutoScalingOne p) := by
  intro e
  unfold checkAutoScalingOne
  cases getNodeById e p.1 with
  | none => rfl
  | some node =>
    by_cases hty : node.type ≠ NodeType.service
    · simp only [if_pos hty]
    · simp only [if_neg hty, setNodeMetrics, emitEvent, generateEventId]
      split <;> (try split) <;> simp

theorem avgNeutral_scaleLoop (l : List (String × NodeMetrics)) : AvgNeutral (scaleLoop l) := by
  induction l with
  | nil => intro _; rfl
  | cons p rest ih =>
    intro e
    have h1 := avgNeutral_checkAutoScalingOne p e
    have h2 := ih (checkAutoScalingOne p e)
    unfold scaleLoop
    exact h2.trans h1

theorem avgNeutral_checkAutoScaling : AvgNeutral checkAutoScaling := by
  intro e
  exact avgNeutral_scaleLoop e.state.nodeMetrics e

theorem avgNeutral_applyChaosEffects (rng : ℕ → ℚ) : AvgNeutral (applyChaosEffects rng) := by
  intro e
  unfold applyChaosEffects
  simp only [drawRand]
  split
  · split <;> simp [emitEvent, generateEventId]
  · simp

theorem avgNeutral_startEngine : AvgNeutral startEngine := by
  intro e
  unfold startEngine
  split <;> rfl

theorem avgNeutral_pauseEngine : AvgNeutral pauseEngine := by
  intro e
  unfold pauseEngine
  split <;> rfl

theorem avgNeutral_resumeEngine : AvgNeutral resumeEngine := by
  intro e
  unfold resumeEngine
  split <;> rfl

theorem avgNeutral_stopEngine : AvgNeutral stopEngine := fun _ => rfl

theorem avgNeutral_completeEngine : AvgNeutral completeEngine := by
  intro e
  unfold completeEngine
  split
  · rfl
  · exact avgNeutral_stopEngine e

theorem avgNeutral_setSpeed (s : ℚ) : AvgNeutral (setSpeed s) := by
  intro e
  unfold setSpeed
  by_cases h : e.state.status = SimulationStatus.running
  · simp only [if_pos h]
    have a1 := avgNeutral_pauseEngine e
    have b1 := avgNeutral_resumeEngine
      { pauseEngine e with state := { (pauseEngine e).state with speed := s } }
    exact b1.trans a1
  · simp only [if_neg h]

theorem hnp_time (rng : ℕ → ℚ) (node : SystemNode) (request : ActiveRequest)
    (e : SimulationEngine) :
    (handleNodeProcessing rng node request e).state.currentTime = e.state.currentTime := by
  unfold handleNodeProcessing
  cases lookupNodeMetrics e node.id with
  | none => rfl
  | some m =>
    obtain ⟨nid, nlabel, nty⟩ := node
    cases nty <;>
      (simp only [setNodeMetrics, emitEvent, generateEventId, drawRand]
       try split
       all_goals simp)

theorem randIndex_one (rng : ℕ → ℚ) (hrng : ValidRng rng) (k : ℕ) :
    randIndex (rng k) 1 = 0 := by
  unfold randIndex
  rw [Nat.cast_one, mul_one]
  rw [Int.floor_eq_zero_iff.mpr (Set.mem_Ico.mpr ⟨(hrng k).1, (hrng k).2⟩)]
  rfl

theorem pendCount_eq_zero {l : List ActiveRequest}
    (h : ∀ r ∈ l, r.status = RequestStatus.completed) : pendCount l = 0 := by
  unfold pendCount
  rw [List.countP_eq_zero]
  intro r hr
  simp [nonterminal, h r hr]

theorem generateOne_cd (rng : ℕ → ℚ) (hrng : ValidRng rng) (c : SystemNode)
    (ed0 : SystemEdge) {e : SimulationEngine}
    (hfil : e.edges.filter (fun ed => ed.source == c.id) = [ed0]) :
    (generateOne rng [c] e).state.activeRequests
      = e.state.activeRequests ++
        [{ id := reqId e.requestIdCounter
           sourceNodeId := c.id
           targetNodeId := ed0.target
           path := [c.id]
           startTime := e.state.currentTime
           currentLatency := 0
           payload := e.state.config.payloadSize
           status := RequestStatus.pending
           progress := 0 }] ∧
    (generateOne rng [c] e).state.systemMetrics.totalRequests
      = e.state.systemMetrics.totalRequests + 1 ∧
    (generateOne rng [c] e).state.systemMetrics.successfulRequests
      = e.state.systemMetrics.successfulRequests ∧
    (generateOne rng [c] e).state.systemMetrics.failedRequests
      = e.state.systemMetrics.failedRequests ∧
    (generateOne rng [c] e).state.systemMetrics.averageLatency
      = e.state.systemMetrics.averageLatency ∧
    (generateOne rng [c] e).state.currentTime = e.state.currentTime ∧
    (generateOne rng [c] e).nodes = e.nodes ∧
    (generateOne rng [c] e).edges = e.edges ∧
    (generateOne rng [c] e).state.config = e.state.config := by
  unfold generateOne
  simp only [drawRand, List.length_singleton]
  try dsimp only
  rw [randIndex_one rng hrng e.randIdx]
  simp only [List.getD_cons_zero]
  rw [hfil]
  simp only [List.isEmpty_cons, Bool.false_eq_true, if_false, List.length_singleton]
  try dsimp only
  rw [randIndex_one rng hrng (e.randIdx + 1)]
  simp only [List.getD_cons_zero]
  exact ⟨rfl, rfl, rfl, rfl, rfl, rfl, rfl, rfl, rfl⟩

theorem genLoop_cd (rng : ℕ → ℚ) (hrng : ValidRng rng) (c d : SystemNode)
    (config : SimulationConfig) (hcfg : CdConfig c d config) (now : ℚ) :
    ∀ (k : ℕ) (e : SimulationEngine), CdScenario c d config e → CdMid d now e →
      CdScenario c d config (genLoop rng [c] k e) ∧ CdMid d now (genLoop rng [c] k e)
  | 0, _, hsc, hmid => ⟨hsc, hmid⟩
  | Nat.succ k, e, hsc, hmid => by
    have hfil : e.edges.filter (fun ed => ed.source == c.id)
        = [{ source := c.id, target := d.id }] := by
      rw [hsc.2.1]
      simp [List.filter]
    obtain ⟨ha, ht, hs, hf, hav, hct, hn, hed, hcf⟩ := generateOne_cd rng hrng c _ hfil
    obtain ⟨m1, m2, m3, m4, m5⟩ := hmid
    have hsc' : CdScenario c d config (generateOne rng [c] e) :=
      ⟨hn.trans hsc.1, hed.trans hsc.2.1, hcf.trans hsc.2.2⟩
    have hmid' : CdMid d now (generateOne rng [c] e) := by
      refine ⟨?_, ?_, ?_, ?_, ?_⟩
      · rw [ha]
        intro r hr
        rcases List.mem_append.mp hr with h | h
        · exact m1 r h
        · rw [List.mem_singleton.mp h]
          exact Or.inr ⟨rfl, rfl, rfl, m5⟩
      · rw [hf]
        exact m2
      · rw [hav]
        exact m3
      · have hnt : ∀ r : ActiveRequest, r.status = RequestStatus.pending →
            (if nonterminal r then (1 : ℚ) else 0) = 1 := by
          intro r hr
          rw [if_pos (show nonterminal r from Or.inl hr)]
        rw [hs, ht, ha, pendCountQ_append_singleton, hnt _ rfl]
        linarith [m4]
      · rw [hct]
        exact m5
    exact genLoop_cd rng hrng c d config hcfg now k (generateOne rng [c] e) hsc' hmid'

theorem generateRequests_cd (rng : ℕ → ℚ) (hrng : ValidRng rng) (c d : SystemNode)
    (config : SimulationConfig) (hcfg : CdConfig c d config) (now : ℚ)
    {e : SimulationEngine} (hsc : CdScenario c d config e) (hmid : CdMid d now e) :
    CdScenario c d config (generateRequests rng e) ∧ CdMid d now (generateRequests rng e) := by
  unfold generateRequests
  dsimp only
  have hcl : e.nodes.filter (fun n => n.type == NodeType.client) = [c] := by
    rw [hsc.1]
    have h1 : (c.type == NodeType.client) = true := by
      rw [hcfg.1]
      rfl
    have h2 : (d.type == NodeType.client) = false := by
      rw [hcfg.2.1]
      rfl
    simp [List.filter, h1, h2]
  rw [hcl]
  rw [if_neg (by simp)]
  exact genLoop_cd rng hrng c d config hcfg now _ (drawRand rng e).2 hsc hmid

theorem hnp_avg (rng : ℕ → ℚ) (node : SystemNode) (request : ActiveRequest)
    (e : SimulationEngine) :
    (handleNodeProcessing rng node request e).state.systemMetrics.averageLatency
      = e.state.systemMetrics.averageLatency :=
  congrArg SystemMetrics.averageLatency (hnp_shape rng node request e).1

theorem processOne_fresh (rng : ℕ → ℚ) (hrng : ValidRng rng) (c d : SystemNode)
    (config : SimulationConfig) (hcfg : CdConfig c d config)
    {e : SimulationEngine} (hsc : CdScenario c d config e)
    {now : ℚ} (hnow : e.state.currentTime = now)
    {r : ActiveRequest} (hf : FreshCd d now r) :
    (processOne rng config.tickRate e r).request.status = RequestStatus.completed ∧
    (processOne rng config.tickRate e r).engine.state.systemMetrics.successfulRequests
      = e.state.systemMetrics.successfulRequests + 1 ∧
    (processOne rng config.tickRate e r).engine.state.systemMetrics.failedRequests
      = e.state.systemMetrics.failedRequests ∧
    (e.state.systemMetrics.averageLatency = 0 →
      (processOne rng config.tickRate e r).engine.state.systemMetrics.averageLatency = 0) ∧
    (processOne rng config.tickRate e r).engine.state.currentTime = e.state.currentTime := by
  obtain ⟨hc, hd, hne, herr, hnet, hdbpos, htick⟩ := hcfg
  obtain ⟨hn, hed, hcf⟩ := hsc
  obtain ⟨hft, hfl, hfs, hfst⟩ := hf
  have hterm : ¬ (r.status = RequestStatus.completed ∨ r.status = RequestStatus.failed) := by
    rw [hfs]
    decide
  unfold processOne
  rw [if_neg hterm]
  have hget : getNodeById e r.targetNodeId = some d := by
    rw [hft]
    unfold getNodeById
    rw [hn]
    have h1 : (c.id == d.id) = false := beq_eq_false_iff_ne.mpr hne
    have h2 : (d.id == d.id) = true := beq_self_eq_true d.id
    simp [List.find?, h1, h2]
  rw [hget]
  dsimp only
  have hnl : getNetworkLatency e (r.path.getLastD "") r.targetNodeId = 10 := by
    unfold getNetworkLatency
    cases getNodeById e (r.path.getLastD "") <;> cases getNodeById e r.targetNodeId <;>
      try rfl
    rw [hcf, hnet]
    rfl
  have hpl : getProcessingLatency e.state.config d = config.dbLatency := by
    rw [hcf]
    unfold getProcessingLatency
    rw [hd]
  rw [hnl, hpl, hfl]
  have hprog : jsMinDivOne (0 + config.tickRate) (10 + config.dbLatency) ≥ 1 := by
    unfold jsMinDivOne
    rw [if_neg (ne_of_gt hdbpos)]
    refine le_min ?_ le_rfl
    rw [zero_add, le_div_iff hdbpos]
    linarith
  rw [if_pos hprog]
  have herr2 : ¬ ((drawRand rng e).1 < (drawRand rng e).2.state.config.errorRate) := by
    simp only [drawRand]
    rw [hcf, herr]
    exact not_lt.mpr (hrng e.randIdx).1
  rw [if_neg herr2]
  try dsimp only
  have hhop : ∀ req : ActiveRequest,
      findNextHop (handleNodeProcessing rng d req (drawRand rng e).2).edges d.id req
        = none := by
    intro req
    rw [hnp_edges]
    unfold findNextHop
    simp only [drawRand]
    rw [hed]
    have h1 : (c.id == d.id) = false := beq_eq_false_iff_ne.mpr hne
    simp [List.filter, h1]
  rw [hhop _]
  try dsimp only
  refine ⟨rfl, ?_, ?_, ?_, ?_⟩
  · simp only [emitEvent, updateLatencyMetrics, bumpSuccessful, generateEventId,
      hnp_succ, drawRand]
  · simp only [emitEvent, updateLatencyMetrics, bumpSuccessful, generateEventId,
      hnp_failed, drawRand]
  · intro havg
    simp only [emitEvent, updateLatencyMetrics, bumpSuccessful, generateEventId,
      hnp_avg, hnp_succ, hnp_time, drawRand]
    rw [havg, hfst, hnow]
    simp
  · simp only [emitEvent, updateLatencyMetrics, bumpSuccessful, generateEventId,
      hnp_time, drawRand]

theorem graphNeutral_checkAutoScalingOne (p : String × NodeMetrics) :
    GraphNeutral (checkAutoScalingOne p) := by
  intro e
  unfold checkAutoScalingOne
  cases getNodeById e p.1 with
  | none => exact ⟨rfl, rfl, rfl⟩
  | some node =>
    by_cases hty : node.type ≠ NodeType.service
    · simp only [if_pos hty]
      simp
    · simp only [if_neg hty, setNodeMetrics, emitEvent, generateEventId]
      split <;> (try split) <;> simp

theorem graphNeutral_scaleLoop (l : List (String × NodeMetrics)) :
    GraphNeutral (scaleLoop l) := by
  induction l with
  | nil => intro _; exact ⟨rfl, rfl, rfl⟩
  | cons p rest ih =>
    intro e
    obtain ⟨a1, a2, a3⟩ := graphNeutral_checkAutoScalingOne p e
    obtain ⟨b1, b2, b3⟩ := ih (checkAutoScalingOne p e)
    unfold scaleLoop
    exact ⟨b1.trans a1, b2.trans a2, b3.trans a3⟩

theorem graphNeutral_checkAutoScaling : GraphNeutral checkAutoScaling := by
  intro e
  exact graphNeutral_scaleLoop e.state.nodeMetrics e

theorem cdInv_of_neutral {f : SimulationEngine → SimulationEngine}
    (hr : ReqNeutral f) (hav : AvgNeutral f) {e : SimulationEngine}
    (h : CdInv e) : CdInv (f e) := by
  obtain ⟨r1, r2, r3, r4, _⟩ := hr e
  refine ⟨?_, ?_, ?_, ?_⟩
  · rw [r4]
    exact h.1
  · rw [r2]
    exact h.2.1
  · rw [hav e]
    exact h.2.2.1
  · rw [r1, r3]
    exact h.2.2.2

theorem cdScenario_of_neutral {f : SimulationEngine → SimulationEngine}
    (hg : GraphNeutral f) {c d : SystemNode} {config : SimulationConfig}
    {e : SimulationEngine} (h : CdScenario c d config e) : CdScenario c d config (f e) := by
  obtain ⟨g1, g2, g3⟩ := hg e
  exact ⟨g1.trans h.1, g2.trans h.2.1, g3.trans h.2.2⟩

theorem processLoop_cd (rng : ℕ → ℚ) (hrng : ValidRng rng) (c d : SystemNode)
    (config : SimulationConfig) (hcfg : CdConfig c d config) (now : ℚ) :
    ∀ (l : List ActiveRequest) (e : SimulationEngine) (pr : List ActiveRequest)
      (ci : List String),
      CdScenario c d config e →
      e.state.currentTime = now →
      (∀ r ∈ l, r.status = RequestStatus.completed ∨ FreshCd d now r) →
      (∀ r ∈ pr, r.status = RequestStatus.completed) →
      (processLoop rng config.tickRate l e pr ci).1.state.systemMetrics.successfulRequests
          = e.state.systemMetrics.successfulRequests + (pendCount l : ℚ) ∧
      (processLoop rng config.tickRate l e pr ci).1.state.systemMetrics.failedRequests
          = e.state.systemMetrics.failedRequests ∧
      (e.state.systemMetrics.averageLatency = 0 →
        (processLoop rng config.tickRate l e pr ci).1.state.systemMetrics.averageLatency
          = 0) ∧
      (∀ r ∈ (processLoop rng config.tickRate l e pr ci).2.1,
        r.status = RequestStatus.completed) ∧
      (processLoop rng config.tickRate l e pr ci).1.state.currentTime = now ∧
      CdScenario c d config (processLoop rng config.tickRate l e pr ci).1
  | [], e, pr, ci, hsc, hnow, _, hpr => by
    refine ⟨?_, rfl, fun h => h, hpr, hnow, hsc⟩
    show e.state.systemMetrics.successfulRequests
      = e.state.systemMetrics.successfulRequests + (pendCount ([] : List ActiveRequest) : ℚ)
    rw [pendCount_nil]
    push_cast
    ring
  | r :: rest, e, pr, ci, hsc, hnow, hl, hpr => by
    rcases hl r (List.mem_cons_self _ _) with hcomp | hfr
    · have hnt : ¬ nonterminal r := not_nonterminal_of_completed r hcomp
      obtain ⟨heng, hreq⟩ :=
        (processOne_spec rng config.tickRate e r).2.2.2.2.2.1 hnt
      have hstep : processLoop rng config.tickRate (r :: rest) e pr ci
          = processLoop rng config.tickRate rest e (pr ++ [r])
              (if (processOne rng config.tickRate e r).terminalAtEntry = true
               then ci ++ [r.id] else ci) := by
        conv_lhs => rw [processLoop]
        rw [heng, hreq]
      rw [hstep]
      obtain ⟨i1, i2, i3, i4, i5, i6⟩ := processLoop_cd rng hrng c d config hcfg now rest e
        (pr ++ [r]) _ hsc hnow (fun r' hr' => hl r' (List.mem_cons_of_mem _ hr'))
        (fun r' hr' => by
          rcases List.mem_append.mp hr' with h | h
          · exact hpr r' h
          · rw [List.mem_singleton.mp h]
            exact hcomp)
      refine ⟨?_, i2, i3, i4, i5, i6⟩
      rw [i1, pendCountQ_cons, if_neg hnt]
      ring
    · obtain ⟨f1, f2, f3, f4, f5⟩ :=
        processOne_fresh rng hrng c d config hcfg hsc hnow hfr
      have hsc' : CdScenario c d config (processOne rng config.tickRate e r).engine := by

        obtain ⟨_, _, _, _, _, _, _, _, _, s10, s11, s12⟩ :=
          processOne_spec rng config.tickRate e r
        exact ⟨s10.trans hsc.1, s11.trans hsc.2.1, s12.trans hsc.2.2⟩
      have hnow' : (processOne rng config.tickRate e r).engine.state.currentTime = now :=
        f5.trans hnow
      have hstep : processLoop rng config.tickRate (r :: rest) e pr ci
          = processLoop rng config.tickRate rest
              (processOne rng config.tickRate e r).engine
              (pr ++ [(processOne rng config.tickRate e r).request])
              (if (processOne rng config.tickRate e r).terminalAtEntry = true
               then ci ++ [r.id] else ci) := by
        conv_lhs => rw [processLoop]
      rw [hstep]
      obtain ⟨i1, i2, i3, i4, i5, i6⟩ := processLoop_cd rng hrng c d config hcfg now rest
        (processOne rng config.tickRate e r).engine
        (pr ++ [(processOne rng config.tickRate e r).request]) _ hsc' hnow'
        (fun r' hr' => hl r' (List.mem_cons_of_mem _ hr'))
        (fun r' hr' => by
          rcases List.mem_append.mp hr' with h | h
          · exact hpr r' h
          · rw [List.mem_singleton.mp h]
            exact f1)
      refine ⟨?_, ?_, ?_, i4, i5, i6⟩
      · rw [i1, f2, pendCountQ_cons,
          if_pos (show nonterminal r from Or.inl hfr.2.2.1)]
        ring
      · rw [i2, f3]
      · intro havg
        exact i3 (f4 havg)

theorem processRequests_cd (rng : ℕ → ℚ) (hrng : ValidRng rng) (c d : SystemNode)
    (config : SimulationConfig) (hcfg : CdConfig c d config) (now : ℚ)
    {e : SimulationEngine} (hsc : CdScenario c d config e) (hmid : CdMid d now e) :
    CdInv (processRequests rng config.tickRate e) ∧
    CdScenario c d config (processRequests rng config.tickRate e) := by
  unfold processRequests
  dsimp only
  obtain ⟨p1, p2, p3, p4, p5, p6⟩ := processLoop_cd rng hrng c d config hcfg now
    e.state.activeRequests e [] [] hsc hmid.2.2.2.2 hmid.1
    (fun r hr => absurd hr (List.not_mem_nil r))
  have htot : (processLoop rng config.tickRate e.state.activeRequests
        e [] []).1.state.systemMetrics.totalRequests
      = e.state.systemMetrics.totalRequests :=
    (processLoop_spec rng config.tickRate e.state.activeRequests e [] []).2.2.1
  constructor
  · refine ⟨?_, ?_, ?_, ?_⟩
    · intro r hr
      exact p4 r (List.mem_of_mem_filter hr)
    · exact p2.trans hmid.2.1
    · exact p3 hmid.2.2.1
    · show (processLoop rng config.tickRate e.state.activeRequests
          e [] []).1.state.systemMetrics.successfulRequests
        = (processLoop rng config.tickRate e.state.activeRequests
          e [] []).1.state.systemMetrics.totalRequests
      rw [p1, htot]
      exact hmid.2.2.2.1
  · exact ⟨p6.1, p6.2.1, p6.2.2⟩

theorem tick_cd (rng : ℕ → ℚ) (hrng : ValidRng rng) (c d : SystemNode)
    (config : SimulationConfig) (hcfg : CdConfig c d config)
    {e : SimulationEngine} (hsc : CdScenario c d config e) (hinv : CdInv e) :
    CdInv (tick rng e) ∧ CdScenario c d config (tick rng e) := by
  unfold tick
  dsimp only
  rw [show e.state.config.tickRate = config.tickRate from
    congrArg SimulationConfig.tickRate hsc.2.2]
  have hsc1 : CdScenario c d config { e with state :=
      { e.state with currentTime := e.state.currentTime + config.tickRate } } := hsc
  have hmid1 : CdMid d (e.state.currentTime + config.tickRate) { e with state :=
      { e.state with currentTime := e.state.currentTime + config.tickRate } } := by
    refine ⟨fun r hr => Or.inl (hinv.1 r hr), hinv.2.1, hinv.2.2.1, ?_, rfl⟩
    show e.state.systemMetrics.successfulRequests
        + (pendCount e.state.activeRequests : ℚ) = e.state.systemMetrics.totalRequests
    rw [pendCount_eq_zero hinv.1]
    push_cast
    rw [add_zero]
    exact hinv.2.2.2
  obtain ⟨hsc2, hmid2⟩ := generateRequests_cd rng hrng c d config hcfg _ hsc1 hmid1
  obtain ⟨hinv3, hsc3⟩ := processRequests_cd rng hrng c d config hcfg _ hsc2 hmid2
  have hinv4 := cdInv_of_neutral reqNeutral_updateMetrics avgNeutral_updateMetrics hinv3
  have hsc4 := cdScenario_of_neutral graphNeutral_updateMetrics hsc3
  generalize hE : updateMetrics (processRequests rng config.tickRate (generateRequests rng
      { e with state :=
        { e.state with currentTime := e.state.currentTime + config.tickRate } })) = e4
    at hinv4 hsc4 ⊢
  have h5 : CdInv (if e4.state.config.autoScaling = true then checkAutoScaling e4 else e4) ∧
      CdScenario c d config
        (if e4.state.config.autoScaling = true then checkAutoScaling e4 else e4) := by
    split
    · exact ⟨cdInv_of_neutral reqNeutral_checkAutoScaling avgNeutral_checkAutoScaling hinv4,
        cdScenario_of_neutral graphNeutral_checkAutoScaling hsc4⟩
    · exact ⟨hinv4, hsc4⟩
  generalize hE5 : (if e4.state.config.autoScaling = true then checkAutoScaling e4 else e4) = e5
    at h5 ⊢
  have h6 : CdInv (if e5.state.config.chaosMode = true then applyChaosEffects rng e5 else e5) ∧
      CdScenario c d config
        (if e5.state.config.chaosMode = true then applyChaosEffects rng e5 else e5) := by
    split
    · exact ⟨cdInv_of_neutral (reqNeutral_applyChaosEffects rng)
        (avgNeutral_applyChaosEffects rng) h5.1,
        cdScenario_of_neutral (graphNeutral_applyChaosEffects rng) h5.2⟩
    · exact h5
  generalize hE6 : (if e5.state.config.chaosMode = true then applyChaosEffects rng e5 else e5) = e6
    at h6 ⊢
  split
  · exact ⟨cdInv_of_neutral reqNeutral_takeMetricsSnapshot avgNeutral_takeMetricsSnapshot h6.1,
      cdScenario_of_neutral graphNeutral_takeMetricsSnapshot h6.2⟩
  · exact h6

theorem estep_cd (rng : ℕ → ℚ) (hrng : ValidRng rng) (c d : SystemNode)
    (config : SimulationConfig) (hcfg : CdConfig c d config)
    {e e' : SimulationEngine} (hs : EStep rng e e')
    (hsc : CdScenario c d config e) (hinv : CdInv e) :
    CdInv e' ∧ CdScenario c d config e' := by
  cases hs with
  | loop _ =>
    unfold loopStep
    split
    · exact ⟨hinv, hsc⟩
    · obtain ⟨h1, h2⟩ := tick_cd rng hrng c d config hcfg hsc hinv
      by_cases hdone : (tick rng e).state.currentTime
          ≥ (tick rng e).state.config.duration * 1000
      · rw [if_pos hdone]
        exact ⟨cdInv_of_neutral reqNeutral_completeEngine avgNeutral_completeEngine h1,
          cdScenario_of_neutral graphNeutral_completeEngine h2⟩
      · rw [if_neg hdone]
        exact ⟨h1, h2⟩
  | start _ =>
    exact ⟨cdInv_of_neutral reqNeutral_startEngine avgNeutral_startEngine hinv,
      cdScenario_of_neutral graphNeutral_startEngine hsc⟩
  | pause _ =>
    exact ⟨cdInv_of_neutral reqNeutral_pauseEngine avgNeutral_pauseEngine hinv,
      cdScenario_of_neutral graphNeutral_pauseEngine hsc⟩
  | resume _ =>
    exact ⟨cdInv_of_neutral reqNeutral_resumeEngine avgNeutral_resumeEngine hinv,
      cdScenario_of_neutral graphNeutral_resumeEngine hsc⟩
  | stop _ =>
    exact ⟨cdInv_of_neutral reqNeutral_stopEngine avgNeutral_stopEngine hinv,
      cdScenario_of_neutral graphNeutral_stopEngine hsc⟩
  | speed s _ =>
    exact ⟨cdInv_of_neutral (reqNeutral_setSpeed s) (avgNeutral_setSpeed s) hinv,
      cdScenario_of_neutral (graphNeutral_setSpeed s) hsc⟩

theorem reachable_cd (rng : ℕ → ℚ) (hrng : ValidRng rng) (c d : SystemNode)
    (config : SimulationConfig) (hcfg : CdConfig c d config) {e : SimulationEngine}
    (h : Reachable rng [c, d] [{ source := c.id, target := d.id }] config e) :
    CdInv e ∧ CdScenario c d config e := by
  unfold Reachable at h
  induction h with
  | refl =>
    exact ⟨⟨fun r hr => absurd hr (List.not_mem_nil r), rfl, rfl, rfl⟩, rfl, rfl, rfl⟩
  | tail _ hstep ih => exact estep_cd rng hrng c d config hcfg hstep ih.2 ih.1

/-- C4 (amended): in the one-hop CLIENT→DATABASE scenario (distinct ids,
`errorRate = 0`, empty network matrix so the 10ms fallback applies, and a
tick covering `10 + dbLatency` ms — e.g. `dbLatency = 40`,
`tickRate = 100`), every generated request reaches `completed` in the
very tick that generated it, so in every reachable state all active
requests are completed, nothing ever fails and
`successfulRequests = totalRequests`; but the recorded per-request
latency (`currentTime - startTime` at completion) is `0` ms — not one
tick (100 ms) — because `tick()` advances the virtual clock before
generating, so `startTime` already carries the post-advance time: the
latency average stays exactly `0`. -/
theorem C4_one_hop_latency (rng : ℕ → ℚ) (hrng : ValidRng rng) (c d : SystemNode)
    (config : SimulationConfig) (hcfg : CdConfig c d config) (e : SimulationEngine)
    (h : Reachable rng [c, d] [{ source := c.id, target := d.id }] config e) :
    (∀ r ∈ e.state.activeRequests, r.status = RequestStatus.completed) ∧
    e.state.systemMetrics.failedRequests = 0 ∧
    e.state.systemMetrics.successfulRequests = e.state.systemMetrics.totalRequests ∧
    e.state.systemMetrics.averageLatency = 0 ∧
    (∀ r : ActiveRequest, FreshCd d e.state.currentTime r →
      (processOne rng config.tickRate e r).request.status = RequestStatus.completed ∧
      (processOne rng config.tickRate e r).engine.state.systemMetrics.averageLatency
        = 0) := by
  obtain ⟨hinv, hsc⟩ := reachable_cd rng hrng c d config hcfg h
  refine ⟨hinv.1, hinv.2.1, hinv.2.2.2, hinv.2.2.1, ?_⟩
  intro r hfr
  obtain ⟨f1, _, _, f4, _⟩ := processOne_fresh rng hrng c d config hcfg hsc rfl hfr
  exact ⟨f1, f4 hinv.2.2.1⟩

/-- Witness for C4 at the state after the first tick of the concrete
CLIENT→DATABASE run. -/
theorem C4_witness :
    ValidRng rngZero ∧
    CdConfig nodeC nodeD cfgUnit ∧
    Reachable rngZero [nodeC, nodeD] [{ source := nodeC.id, target := nodeD.id }]
      cfgUnit exClientDb ∧
    ((∀ r ∈ exClientDb.state.activeRequests, r.status = RequestStatus.completed) ∧
     exClientDb.state.systemMetrics.failedRequests = 0 ∧
     exClientDb.state.systemMetrics.successfulRequests
       = exClientDb.state.systemMetrics.totalRequests ∧
     exClientDb.state.systemMetrics.averageLatency = 0 ∧
     (∀ r : ActiveRequest, FreshCd nodeD exClientDb.state.currentTime r →
       (processOne rngZero cfgUnit.tickRate exClientDb r).request.status
         = RequestStatus.completed ∧
       (processOne rngZero cfgUnit.tickRate
         exClientDb r).engine.state.systemMetrics.averageLatency = 0)) :=
  ⟨fun _ => ⟨le_refl 0, by norm_num [rngZero]⟩,
   ⟨rfl, rfl, by decide, rfl, rfl, by decide, by decide⟩,
   reachable_runSteps rngZero [nodeC, nodeD] [{ source := nodeC.id, target := nodeD.id }]
     cfgUnit 1,
   C4_one_hop_latency rngZero (fun _ => ⟨le_refl 0, by norm_num [rngZero]⟩) nodeC nodeD
     cfgUnit ⟨rfl, rfl, by decide, rfl, rfl, by decide, by decide⟩ exClientDb
     (reachable_runSteps rngZero [nodeC, nodeD]
       [{ source := nodeC.id, target := nodeD.id }] cfgUnit 1)⟩

theorem randIndex_lt (r : ℚ) (h0 : 0 ≤ r) (h1 : r < 1) (n : ℕ) (hn : 0 < n) :
    randIndex r n < n := by
  unfold randIndex
  have hlt : ⌊r * (n : ℚ)⌋ < (n : ℤ) := by
    apply Int.floor_lt.mpr
    push_cast
    calc r * n < 1 * n := by
          apply mul_lt_mul_of_pos_right h1
          exact_mod_cast hn
      _ = n := one_mul _
  have hge : 0 ≤ ⌊r * (n : ℚ)⌋ := Int.floor_nonneg.mpr (by positivity)
  omega

theorem getNodeById_id {e : SimulationEngine} {tid : String} {n : SystemNode}
    (h : getNodeById e tid = some n) : n.id = tid := by
  unfold getNodeById at h
  have := List.find?_some h
  simpa using this

theorem findNextHop_spec {edges : List SystemEdge} {cur : String} {r : ActiveRequest}
    {nh : String} (h : findNextHop edges cur r = some nh) :
    ∃ ed ∈ edges, ed.source = cur ∧ ed.target = nh ∧ nh ∉ r.path := by
  unfold findNextHop at h
  dsimp only at h
  cases hu : (edges.filter (fun ed => ed.source == cur)).filter
      (fun ed => !(r.path.contains ed.target)) with
  | nil =>
    rw [hu] at h
    exact absurd h (by simp)
  | cons ed rest =>
    rw [hu] at h
    have htar : ed.target = nh := by
      dsimp only at h
      exact Option.some.inj h
    have hedmem : ed ∈ (edges.filter (fun ed => ed.source == cur)).filter
        (fun ed => !(r.path.contains ed.target)) := by
      rw [hu]
      exact List.mem_cons_self _ _
    obtain ⟨hmem1, hp2⟩ := List.mem_filter.mp hedmem
    obtain ⟨hmem0, hp1⟩ := List.mem_filter.mp hmem1
    refine ⟨ed, hmem0, by simpa using hp1, htar, ?_⟩
    rw [← htar]
    simpa using hp2

theorem chain_reachable (edges : List SystemEdge) (l : List String) :
    ∀ s : String, l.Chain' (edgeRel edges) → l.head? = some s →
      ∀ x ∈ l, ReachableFrom edges s x := by
  induction l with
  | nil =>
    intro s _ _ x hx
    exact absurd hx (List.not_mem_nil x)
  | cons a rest ih =>
    intro s hch hhead x hx
    have has : a = s := Option.some.inj hhead
    subst has
    rcases List.mem_cons.mp hx with hxa | hxr
    · rw [hxa]
      exact Relation.ReflTransGen.refl
    · cases rest with
      | nil => exact absurd hxr (List.not_mem_nil x)
      | cons b rest' =>
        have h1 := List.chain'_cons.mp hch
        exact Relation.ReflTransGen.head h1.1 (ih b h1.2 rfl x hxr)

theorem processOne_pathInv (rng : ℕ → ℚ) (dt : ℚ) (edges : List SystemEdge)
    {e : SimulationEngine} (hedges : e.edges = edges)
    (r : ActiveRequest) (hr : ReqPathInv edges r) :
    ReqPathInv edges (processOne rng dt e r).request := by
  obtain ⟨hne, hhead, hnd, hch, hterm'⟩ := hr
  unfold processOne
  by_cases hterm : r.status = RequestStatus.completed ∨ r.status = RequestStatus.failed
  · rw [if_pos hterm]
    exact ⟨hne, hhead, hnd, hch, hterm'⟩
  · have hnt : nonterminal r := (nonterminal_iff r).mpr hterm
    obtain ⟨htin, hlast⟩ := hterm' hnt
    rw [if_neg hterm]
    cases hget : getNodeById e r.targetNodeId with
    | none =>
      refine ⟨hne, hhead, hnd, hch, ?_⟩
      intro hcon
      exact absurd hcon (not_nonterminal_of_failed _ rfl)
    | some tn =>
      dsimp only
      have hne2 : r.path ++ [r.targetNodeId] ≠ [] := by simp
      have hhead2 : (r.path ++ [r.targetNodeId]).head? = some r.sourceNodeId := by
        cases hp : r.path with
        | nil => exact absurd hp hne
        | cons a t =>
          rw [hp] at hhead
          simpa using hhead
      have hnd2 : (r.path ++ [r.targetNodeId]).Nodup := by
        rw [List.nodup_append]
        refine ⟨hnd, List.nodup_singleton _, ?_⟩
        intro x hx hx2
        rw [List.mem_singleton.mp hx2] at hx
        exact htin hx
      have hch2 : (r.path ++ [r.targetNodeId]).Chain' (edgeRel edges) := by
        refine List.chain'_append.mpr ⟨hch, List.chain'_singleton _, ?_⟩
        intro x hx y hy
        exact (Option.some.inj hy) ▸ hlast x hx
      split
      · split
        · refine ⟨hne2, hhead2, hnd2, hch2, ?_⟩
          intro hcon
          exact absurd hcon (not_nonterminal_of_failed _ rfl)
        · split
          · rename_i nextHop hhop
            refine ⟨hne2, hhead2, hnd2, hch2, ?_⟩
            intro _
            obtain ⟨ed, hedm, heds, hedt, hnmem⟩ := findNextHop_spec hhop
            constructor
            · exact hnmem
            · intro x hx
              have hx' : x = r.targetNodeId := by
                rw [List.getLast?_concat] at hx
                exact (Option.some.inj hx).symm
              have htnid : tn.id = r.targetNodeId := getNodeById_id hget
              rw [hnp_edges] at hedm
              simp only [drawRand] at hedm
              rw [hedges] at hedm
              refine ⟨ed, hedm, ?_, hedt⟩
              rw [heds, htnid]
              exact hx'.symm
          · refine ⟨hne2, hhead2, hnd2, hch2, ?_⟩
            intro hcon
            exact absurd hcon (not_nonterminal_of_completed _ rfl)
      · refine ⟨hne, hhead, hnd, hch, ?_⟩
        intro _
        exact ⟨htin, hlast⟩

theorem freshReq_pathInv (edges : List SystemEdge) (hns : NoSelfLoops edges)
    (cid tid : String) (ed : SystemEdge) (hmem : ed ∈ edges)
    (hsrc : ed.source = cid) (htgt : ed.target = tid)
    (idv : String) (st lat pay pg : ℚ) :
    ReqPathInv edges
      { id := idv, sourceNodeId := cid, targetNodeId := tid, path := [cid]
        startTime := st, currentLatency := lat, payload := pay
        status := RequestStatus.pending, progress := pg } := by
  refine ⟨by simp, rfl, List.nodup_singleton _, List.chain'_singleton _, ?_⟩
  intro _
  constructor
  · intro hcon
    have h1 : tid = cid := List.mem_singleton.mp hcon
    exact (hns ed hmem) (by rw [hsrc, htgt, h1])
  · intro x hx
    have hx' : cid = x := Option.some.inj hx
    refine ⟨ed, hmem, ?_, htgt⟩
    rw [hsrc]
    exact hx'

theorem generateOne_pathInv (rng : ℕ → ℚ) (hrng : ValidRng rng) (edges : List SystemEdge)
    (hns : NoSelfLoops edges) (cn : List SystemNode)
    {e : SimulationEngine} (hedges : e.edges = edges)
    (hall : ∀ r ∈ e.state.activeRequests, ReqPathInv edges r) :
    ∀ r ∈ (generateOne rng cn e).state.activeRequests, ReqPathInv edges r := by
  subst hedges
  unfold generateOne
  simp only [drawRand]
  try dsimp only
  split
  · exact hall
  · rename_i hne0
    intro r hr
    rcases List.mem_append.mp hr with hmem | hmem
    · exact hall r hmem
    · rw [List.mem_singleton.mp hmem]
      have hlist : e.edges.filter (fun ed => ed.source ==
          (cn.getD (randIndex (rng e.randIdx) cn.length) dummyNode).id) ≠ [] := by
        intro hcon
        exact hne0 (by rw [hcon]; rfl)
      have hlen : 0 < (e.edges.filter (fun ed => ed.source ==
          (cn.getD (randIndex (rng e.randIdx) cn.length) dummyNode).id)).length :=
        List.length_pos.mpr hlist
      have hidx := randIndex_lt (rng (e.randIdx + 1)) (hrng _).1 (hrng _).2 _ hlen
      have hedmem0 : (e.edges.filter (fun ed => ed.source ==
            (cn.getD (randIndex (rng e.randIdx) cn.length) dummyNode).id)).getD
          (randIndex (rng (e.randIdx + 1)) (e.edges.filter (fun ed => ed.source ==
            (cn.getD (randIndex (rng e.randIdx) cn.length) dummyNode).id)).length)
          dummyEdge
          ∈ e.edges.filter (fun ed => ed.source ==
            (cn.getD (randIndex (rng e.randIdx) cn.length) dummyNode).id) := by
        rw [List.getD_eq_getElem _ _ hidx]
        exact List.getElem_mem hidx
      obtain ⟨hedmem, hsrc⟩ := List.mem_filter.mp hedmem0
      exact freshReq_pathInv e.edges hns _ _ _ hedmem (by simpa using hsrc) rfl _ _ _ _ _

theorem graphNeutral_generateOne (rng : ℕ → ℚ) (cn : List SystemNode) :
    GraphNeutral (generateOne rng cn) := by
  intro e
  unfold generateOne
  simp only [drawRand, generateRequestId, pushRequest, emitEvent, generateEventId]
  split <;> simp

theorem graphNeutral_genLoop (rng : ℕ → ℚ) (cn : List SystemNode) :
    ∀ k : ℕ, GraphNeutral (genLoop rng cn k)
  | 0 => fun _ => ⟨rfl, rfl, rfl⟩
  | Nat.succ k => by
    intro e
    obtain ⟨a1, a2, a3⟩ := graphNeutral_generateOne rng cn e
    obtain ⟨b1, b2, b3⟩ := graphNeutral_genLoop rng cn k (generateOne rng cn e)
    exact ⟨b1.trans a1, b2.trans a2, b3.trans a3⟩

theorem graphNeutral_generateRequests (rng : ℕ → ℚ) :
    GraphNeutral (generateRequests rng) := by
  intro e
  unfold generateRequests
  dsimp only
  split
  · exact ⟨rfl, rfl, rfl⟩
  · obtain ⟨a1, a2, a3⟩ := graphNeutral_genLoop rng _ _ (drawRand rng e).2
    simp only [drawRand] at a1 a2 a3
    exact ⟨a1, a2, a3⟩

theorem graphNeutral_processRequests (rng : ℕ → ℚ) (dt : ℚ) :
    GraphNeutral (processRequests rng dt) := by
  intro e
  unfold processRequests
  dsimp only
  have h := processLoop_spec rng dt e.state.activeRequests e [] []
  exact ⟨h.2.2.2.1, h.2.2.2.2.1, h.2.2.2.2.2.1⟩

theorem tick_graph (rng : ℕ → ℚ) (e : SimulationEngine) :
    (tick rng e).nodes = e.nodes ∧ (tick rng e).edges = e.edges ∧
    (tick rng e).state.config = e.state.config := by
  unfold tick
  dsimp only
  obtain ⟨a1, a2, a3⟩ := graphNeutral_generateRequests rng { e with state :=
      { e.state with currentTime := e.state.currentTime + e.state.config.tickRate } }
  obtain ⟨b1, b2, b3⟩ := graphNeutral_processRequests rng e.state.config.tickRate
    (generateRequests rng { e with state :=
      { e.state with currentTime := e.state.currentTime + e.state.config.tickRate } })
  obtain ⟨c1, c2, c3⟩ := graphNeutral_updateMetrics (processRequests rng
    e.state.config.tickRate (generateRequests rng { e with state :=
      { e.state with currentTime := e.state.currentTime + e.state.config.tickRate } }))
  have h4 : (updateMetrics (processRequests rng e.state.config.tickRate (generateRequests rng
        { e with state := { e.state with currentTime :=
          e.state.currentTime + e.state.config.tickRate } }))).nodes = e.nodes ∧
      (updateMetrics (processRequests rng e.state.config.tickRate (generateRequests rng
        { e with state := { e.state with currentTime :=
          e.state.currentTime + e.state.config.tickRate } }))).edges = e.edges ∧
      (updateMetrics (processRequests rng e.state.config.tickRate (generateRequests rng
        { e with state := { e.state with currentTime :=
          e.state.currentTime + e.state.config.tickRate } }))).state.config
        = e.state.config :=
    ⟨c1.trans (b1.trans a1), c2.trans (b2.trans a2), c3.trans (b3.trans a3)⟩
  generalize hE : updateMetrics (processRequests rng e.state.config.tickRate
      (generateRequests rng { e with state := { e.state with currentTime :=
        e.state.currentTime + e.state.config.tickRate } })) = e4 at h4 ⊢
  have h5 : (if e4.state.config.autoScaling = true then checkAutoScaling e4 else e4).nodes
        = e.nodes ∧
      (if e4.state.config.autoScaling = true then checkAutoScaling e4 else e4).edges
        = e.edges ∧
      (if e4.state.config.autoScaling = true then checkAutoScaling e4 else e4).state.config
        = e.state.config := by
    split
    · obtain ⟨d1, d2, d3⟩ := graphNeutral_checkAutoScaling e4
      exact ⟨d1.trans h4.1, d2.trans h4.2.1, d3.trans h4.2.2⟩
    · exact h4
  generalize hE5 : (if e4.state.config.autoScaling = true then checkAutoScaling e4 else e4) = e5
    at h5 ⊢
  have h6 : (if e5.state.config.chaosMode = true then applyChaosEffects rng e5 else e5).nodes
        = e.nodes ∧
      (if e5.state.config.chaosMode = true then applyChaosEffects rng e5 else e5).edges
        = e.edges ∧
      (if e5.state.config.chaosMode = true then applyChaosEffects rng e5 else e5).state.config
        = e.state.config := by
    split
    · obtain ⟨d1, d2, d3⟩ := graphNeutral_applyChaosEffects rng e5
      exact ⟨d1.trans h5.1, d2.trans h5.2.1, d3.trans h5.2.2⟩
    · exact h5
  generalize hE6 : (if e5.state.config.chaosMode = true then applyChaosEffects rng e5 else e5) = e6
    at h6 ⊢
  split
  · obtain ⟨d1, d2, d3⟩ := graphNeutral_takeMetricsSnapshot e6
    exact ⟨d1.trans h6.1, d2.trans h6.2.1, d3.trans h6.2.2⟩
  · exact h6

theorem estep_graph (rng : ℕ → ℚ) {e e' : SimulationEngine} (hs : EStep rng e e') :
    e'.nodes = e.nodes ∧ e'.edges = e.edges ∧ e'.state.config = e.state.config := by
  cases hs with
  | loop _ =>
    unfold loopStep
    split
    · exact ⟨rfl, rfl, rfl⟩
    · obtain ⟨a1, a2, a3⟩ := tick_graph rng e
      by_cases hdone : (tick rng e).state.currentTime
          ≥ (tick rng e).state.config.duration * 1000
      · rw [if_pos hdone]
        obtain ⟨b1, b2, b3⟩ := graphNeutral_completeEngine (tick rng e)
        exact ⟨b1.trans a1, b2.trans a2, b3.trans a3⟩
      · rw [if_neg hdone]
        exact ⟨a1, a2, a3⟩
  | start _ => exact graphNeutral_startEngine e
  | pause _ => exact graphNeutral_pauseEngine e
  | resume _ => exact graphNeutral_resumeEngine e
  | stop _ => exact graphNeutral_stopEngine e
  | speed s _ => exact graphNeutral_setSpeed s e

theorem pathInv_of_reqNeutral {f : SimulationEngine → SimulationEngine}
    (hr : ReqNeutral f) {edges : List SystemEdge} {e : SimulationEngine}
    (hall : ∀ r ∈ e.state.activeRequests, ReqPathInv edges r) :
    ∀ r ∈ (f e).state.activeRequests, ReqPathInv edges r := by
  intro r hmem
  rw [(hr e).2.2.2.1] at hmem
  exact hall r hmem

theorem processLoop_pathInv (rng : ℕ → ℚ) (dt : ℚ) (edges : List SystemEdge) :
    ∀ (l : List ActiveRequest) (e : SimulationEngine) (pr : List ActiveRequest)
      (ci : List String),
      e.edges = edges →
      (∀ r ∈ l, ReqPathInv edges r) →
      (∀ r ∈ pr, ReqPathInv edges r) →
      ∀ r ∈ (processLoop rng dt l e pr ci).2.1, ReqPathInv edges r
  | [], _, _, _, _, _, hpr => hpr
  | r :: rest, e, pr, ci, hedges, hl, hpr => by
    have hstep : processLoop rng dt (r :: rest) e pr ci = processLoop rng dt rest
        (processOne rng dt e r).engine (pr ++ [(processOne rng dt e r).request])
        (if (processOne rng dt e r).terminalAtEntry = true then ci ++ [r.id] else ci) := by
      conv_lhs => rw [processLoop]
    rw [hstep]
    have hedges' : (processOne rng dt e r).engine.edges = edges :=
      ((processOne_spec rng dt e r).2.2.2.2.2.2.2.2.2.2.1).trans hedges
    exact processLoop_pathInv rng dt edges rest _ _ _ hedges'
      (fun r' h => hl r' (List.mem_cons_of_mem _ h))
      (fun r' h => by
        rcases List.mem_append.mp h with h | h
        · exact hpr r' h
        · rw [List.mem_singleton.mp h]
          exact processOne_pathInv rng dt edges hedges r (hl r (List.mem_cons_self _ _)))

theorem processRequests_pathInv (rng : ℕ → ℚ) (dt : ℚ) (edges : List SystemEdge)
    {e : SimulationEngine} (hedges : e.edges = edges)
    (hall : ∀ r ∈ e.state.activeRequests, ReqPathInv edges r) :
    ∀ r ∈ (processRequests rng dt e).state.activeRequests, ReqPathInv edges r := by
  unfold processRequests
  dsimp only
  intro r hr
  have h := processLoop_pathInv rng dt edges e.state.activeRequests e [] [] hedges hall
    (fun r' h' => absurd h' (List.not_mem_nil r'))
  exact h r (List.mem_of_mem_filter hr)

theorem genLoop_pathInv (rng : ℕ → ℚ) (hrng : ValidRng rng) (edges : List SystemEdge)
    (hns : NoSelfLoops edges) (cn : List SystemNode) :
    ∀ (k : ℕ) (e : SimulationEngine), e.edges = edges →
      (∀ r ∈ e.state.activeRequests, ReqPathInv edges r) →
      ∀ r ∈ (genLoop rng cn k e).state.activeRequests, ReqPathInv edges r
  | 0, _, _, hall => hall
  | Nat.succ k, e, hedges, hall => by
    have h1 := generateOne_pathInv rng hrng edges hns cn hedges hall
    have hed' : (generateOne rng cn e).edges = edges :=
      ((graphNeutral_generateOne rng cn e).2.1).trans hedges
    exact genLoop_pathInv rng hrng edges hns cn k (generateOne rng cn e) hed' h1

theorem generateRequests_pathInv (rng : ℕ → ℚ) (hrng : ValidRng rng)
    (edges : List SystemEdge) (hns : NoSelfLoops edges) {e : SimulationEngine}
    (hedges : e.edges = edges)
    (hall : ∀ r ∈ e.state.activeRequests, ReqPathInv edges r) :
    ∀ r ∈ (generateRequests rng e).state.activeRequests, ReqPathInv edges r := by
  unfold generateRequests
  dsimp only
  split
  · exact hall
  · exact genLoop_pathInv rng hrng edges hns _ _ (drawRand rng e).2 hedges hall

theorem tick_pathInv (rng : ℕ → ℚ) (hrng : ValidRng rng) (edges : List SystemEdge)
    (hns : NoSelfLoops edges) {e : SimulationEngine} (hedges : e.edges = edges)
    (hall : ∀ r ∈ e.state.activeRequests, ReqPathInv edges r) :
    ∀ r ∈ (tick rng e).state.activeRequests, ReqPathInv edges r := by
  unfold tick
  dsimp only
  have h1 : ({ e with state := { e.state with currentTime :=
      e.state.currentTime + e.state.config.tickRate } } : SimulationEngine).edges
      = edges := hedges
  have h2 := generateRequests_pathInv rng hrng edges hns h1 hall
  have hed2 : (generateRequests rng { e with state := { e.state with currentTime :=
      e.state.currentTime + e.state.config.tickRate } }).edges = edges :=
    ((graphNeutral_generateRequests rng _).2.1).trans h1
  have h3 := processRequests_pathInv rng e.state.config.tickRate edges hed2 h2
  have h4 := pathInv_of_reqNeutral reqNeutral_updateMetrics h3
  generalize hE : updateMetrics (processRequests rng e.state.config.tickRate
      (generateRequests rng { e with state := { e.state with currentTime :=
        e.state.currentTime + e.state.config.tickRate } })) = e4 at h4 ⊢
  have h5 : ∀ r ∈ (if e4.state.config.autoScaling = true then checkAutoScaling e4
      else e4).state.activeRequests, ReqPathInv edges r := by
    split
    · exact pathInv_of_reqNeutral reqNeutral_checkAutoScaling h4
    · exact h4
  generalize hE5 : (if e4.state.config.autoScaling = true then checkAutoScaling e4 else e4) = e5
    at h5 ⊢
  have h6 : ∀ r ∈ (if e5.state.config.chaosMode = true then applyChaosEffects rng e5
      else e5).state.activeRequests, ReqPathInv edges r := by
    split
    · exact pathInv_of_reqNeutral (reqNeutral_applyChaosEffects rng) h5
    · exact h5
  generalize hE6 : (if e5.state.config.chaosMode = true then applyChaosEffects rng e5 else e5) = e6
    at h6 ⊢
  split
  · exact pathInv_of_reqNeutral reqNeutral_takeMetricsSnapshot h6
  · exact h6

theorem estep_pathInv (rng : ℕ → ℚ) (hrng : ValidRng rng) (edges : List SystemEdge)
    (hns : NoSelfLoops edges) {e e' : SimulationEngine} (hs : EStep rng e e')
    (hedges : e.edges = edges)
    (hall : ∀ r ∈ e.state.activeRequests, ReqPathInv edges r) :
    ∀ r ∈ e'.state.activeRequests, ReqPathInv edges r := by
  cases hs with
  | loop _ =>
    unfold loopStep
    split
    · exact hall
    · have h1 := tick_pathInv rng hrng edges hns hedges hall
      by_cases hdone : (tick rng e).state.currentTime
          ≥ (tick rng e).state.config.duration * 1000
      · rw [if_pos hdone]
        exact pathInv_of_reqNeutral reqNeutral_completeEngine h1
      · rw [if_neg hdone]
        exact h1
  | start _ => exact pathInv_of_reqNeutral reqNeutral_startEngine hall
  | pause _ => exact pathInv_of_reqNeutral reqNeutral_pauseEngine hall
  | resume _ => exact pathInv_of_reqNeutral reqNeutral_resumeEngine hall
  | stop _ => exact pathInv_of_reqNeutral reqNeutral_stopEngine hall
  | speed s _ => exact pathInv_of_reqNeutral (reqNeutral_setSpeed s) hall

theorem reachable_pathInv (rng : ℕ → ℚ) (hrng : ValidRng rng) (nodes : List SystemNode)
    (edges : List SystemEdge) (config : SimulationConfig) (hns : NoSelfLoops edges)
    {e : SimulationEngine} (h : Reachable rng nodes edges config e) :
    e.edges = edges ∧ ∀ r ∈ e.state.activeRequests, ReqPathInv edges r := by
  unfold Reachable at h
  induction h with
  | refl => exact ⟨rfl, fun r hr => absurd hr (List.not_mem_nil r)⟩
  | tail _ hstep ih =>
    exact ⟨(estep_graph rng hstep).2.1.trans ih.1,
      estep_pathInv rng hrng edges hns hstep ih.1 ih.2⟩

/-- C1 (amended): routing itself never revisits — a `findNextHop` result
is never a node already on the request's path; and provided the graph has
no self-loop edge (the counterexample shows a CLIENT with a self-loop
A→A immediately produces the path [A, A], violating the claimed
adjacent-duplicate freedom), every request's path in every reachable
state is duplicate-free and consists solely of nodes reachable from the
request's source, so its length never exceeds the number of distinct
reachable nodes — each request visits at most that many nodes before
terminating (and each tick processes it in one bounded pass: `processOne`
is a total function of this model). -/
theorem C1_routing_no_revisit (rng : ℕ → ℚ) (hrng : ValidRng rng)
    (nodes : List SystemNode) (edges : List SystemEdge) (config : SimulationConfig)
    (hns : NoSelfLoops edges) :
    (∀ (eds : List SystemEdge) (cur : String) (r : ActiveRequest) (nh : String),
      findNextHop eds cur r = some nh → nh ∉ r.path) ∧
    (∀ e : SimulationEngine, Reachable rng nodes edges config e →
      ∀ r ∈ e.state.activeRequests,
        r.path.Nodup ∧
        (∀ x ∈ r.path, ReachableFrom edges r.sourceNodeId x) ∧
        (∀ allNodes : List String, allNodes.Nodup →
          (∀ x, ReachableFrom edges r.sourceNodeId x → x ∈ allNodes) →
          r.path.length ≤ allNodes.length)) := by
  constructor
  · intro eds cur r nh h
    obtain ⟨ed, hm, hs, ht, hn⟩ := findNextHop_spec h
    exact hn
  · intro e hre r hr
    obtain ⟨hedges, hall⟩ := reachable_pathInv rng hrng nodes edges config hns hre
    obtain ⟨hne, hhead, hnd, hch, _⟩ := hall r hr
    have hreach : ∀ x ∈ r.path, ReachableFrom edges r.sourceNodeId x :=
      chain_reachable edges r.path r.sourceNodeId hch hhead
    refine ⟨hnd, hreach, ?_⟩
    intro allNodes hand hsub
    exact (hnd.subperm (fun x hx => hsub x (hreach x hx))).length_le

/-- Witness for C1: the one-edge CLIENT→DATABASE graph and the state
after its first tick. -/
theorem C1_witness :
    NoSelfLoops [{ source := "C", target := "D" }] ∧
    ValidRng rngZero ∧
    (findNextHop [{ source := "C", target := "D" }] "C" reqQ = some "D" →
      "D" ∉ reqQ.path) ∧
    Reachable rngZero [nodeC, nodeD] [{ source := "C", target := "D" }] cfgUnit
      exClientDb ∧
    (∀ r ∈ exClientDb.state.activeRequests,
      r.path.Nodup ∧
      (∀ x ∈ r.path, ReachableFrom [{ source := "C", target := "D" }] r.sourceNodeId x) ∧
      (∀ allNodes : List String, allNodes.Nodup →
        (∀ x, ReachableFrom [{ source := "C", target := "D" }] r.sourceNodeId x →
          x ∈ allNodes) →
        r.path.length ≤ allNodes.length)) :=
  ⟨fun ed hed => by rw [List.mem_singleton.mp hed]; decide,
   fun _ => ⟨le_refl 0, by norm_num [rngZero]⟩,
   (C1_routing_no_revisit rngZero (fun _ => ⟨le_refl 0, by norm_num [rngZero]⟩)
     [nodeC, nodeD] [{ source := "C", target := "D" }] cfgUnit
     (fun ed hed => by rw [List.mem_singleton.mp hed]; decide)).1
     [{ source := "C", target := "D" }] "C" reqQ "D",
   reachable_runSteps rngZero [nodeC, nodeD] [{ source := "C", target := "D" }] cfgUnit 1,
   (C1_routing_no_revisit rngZero (fun _ => ⟨le_refl 0, by norm_num [rngZero]⟩)
     [nodeC, nodeD] [{ source := "C", target := "D" }] cfgUnit
     (fun ed hed => by rw [List.mem_singleton.mp hed]; decide)).2 exClientDb
     (reachable_runSteps rngZero [nodeC, nodeD] [{ source := "C", target := "D" }]
       cfgUnit 1)⟩

end SimStudio
